import Mathlib

/-!
# Verification of the `uninformed-search` sliding-tile puzzle engine

Shallow embedding of `src/UninformedSearch/Puzzle.h` and
`src/UninformedSearch/Search.cpp` (the two drafts of the same program; the
compiled program is `Search.cpp`, `Puzzle.h` is a later draft of the same
classes).  The board is the `Puzzle<3>` (`Puzzle8`) instantiation used by
the program: a 3x3 grid flattened row-major, exactly as the source walks it
through `begin()/end()/nth(i)`.
-/

/-- The source's `MOVE` enum: `NONE = 0, UP, DOWN, LEFT, RIGHT`. -/
inductive MOVE where
  | NONE
  | UP
  | DOWN
  | LEFT
  | RIGHT
deriving DecidableEq, Repr

/-- The four real movement directions, i.e. the `MOVE` values the `Solve`
loop passes to `ExpandNode` (`UP, LEFT, DOWN, RIGHT`).  `GetMove` throws on
every other `MOVE` value. -/
inductive Dir where
  | UP
  | DOWN
  | LEFT
  | RIGHT
deriving DecidableEq, Repr

def Dir.toMOVE : Dir → MOVE
  | .UP => .UP
  | .DOWN => .DOWN
  | .LEFT => .LEFT
  | .RIGHT => .RIGHT

/-- `Puzzle<3>::PuzzleState`: the `char state[3][3]` grid, flattened
row-major the way the source's iterators (`begin()`, `end()`, `nth(i)`)
expose it.  Cell values are small non-negative tile labels. -/
structure PuzzleState where
  cells : List Nat
deriving DecidableEq, Repr

/-- `PuzzleState::n` for `N = 3`. -/
def PuzzleState.n : Nat := 3

/-- `PuzzleState::size` (`N*N`) for `N = 3`. -/
def PuzzleState.size : Nat := 9

/-- `PuzzleState::operator==`: compares only cells `0 .. size-2`; the source
deliberately skips the last cell ("we dont have to check *all* the
elements"). -/
def PuzzleState.beq (a b : PuzzleState) : Bool :=
  (List.range (PuzzleState.size - 1)).all fun i => a.cells.getD i 0 == b.cells.getD i 0

/-- Full-equality comparison of all `size` cells.  Modelled from the spec:
"Equality compares all cells (an optimization may skip the last cell, since
label-set uniqueness makes it redundant, but must preserve exact
semantics)". -/
def PuzzleState.beqFull (a b : PuzzleState) : Bool :=
  (List.range PuzzleState.size).all fun i => a.cells.getD i 0 == b.cells.getD i 0

/-- The data-model invariant (spec section 3): distinct labels `0..8`, `0`
being the single blank — i.e. the flat cell list is a permutation of
`0..8`. -/
def PuzzleState.Valid (s : PuzzleState) : Prop :=
  s.cells.Perm (List.range 9)

instance : DecidablePred PuzzleState.Valid := fun s =>
  inferInstanceAs (Decidable (s.cells.Perm (List.range 9)))

/-- `PuzzleState::Inversions` (same code appears inline in
`Search.cpp`'s `Puzzle::HasSolution`):

* the first cell contributes `max(*begin() - 1, 0)` (Nat subtraction);
* each cell `i = 1 .. size-2` with value `val > 1` contributes
  `count_if(cell+1, end(), v != 0 && v < val)`;
* the goal argument is ignored (the source's FIXME: hardcoded for the
  canonical goal). -/
def PuzzleState.inversions (s : PuzzleState) : Nat :=
  (s.cells.getD 0 0 - 1) +
    ((List.range (PuzzleState.size - 2)).map fun k =>
      let i := k + 1
      let val := s.cells.getD i 0
      if 1 < val then
        ((s.cells.drop (i + 1)).filter fun v => v != 0 && decide (v < val)).length
      else 0).sum

/-- `Puzzle<3>`: the state plus the maintained `blank` pointer, modelled as
the blank's flat index (offset from `begin()`). -/
structure Puzzle where
  state : PuzzleState
  blank : Nat
deriving DecidableEq, Repr

/-- The `Puzzle(const PuzzleState&)` constructor: `blank` is set by
`find_if` to the first cell holding `0`. -/
def Puzzle.ofState (s : PuzzleState) : Puzzle :=
  ⟨s, s.cells.findIdx fun v => v == 0⟩

/-- The effect of `std::swap(*ptr, *blank)` on the flat cell list: exchange
the values at indices `b` and `t` (simultaneous read, then write). -/
def listSwap (l : List Nat) (b t : Nat) : List Nat :=
  (l.set b (l.getD t 0)).set t (l.getD b 0)

/-- `Puzzle::Swap`: exchange `*ptr` and `*blank`, then `blank = ptr`. -/
def Puzzle.swap (p : Puzzle) (t : Nat) : Puzzle :=
  ⟨⟨listSwap p.state.cells p.blank t⟩, t⟩

/-- `Puzzle::GetMoveDown`: `swp = blank + n`, valid while `swp < end()`. -/
def Puzzle.getMoveDown (p : Puzzle) : Option Nat :=
  let swp := p.blank + PuzzleState.n
  if swp < PuzzleState.size then some swp else none

/-- `Puzzle::GetMoveUp`: `swp = blank - n`, valid while `swp >= begin()`,
i.e. while `n ≤ blank`. -/
def Puzzle.getMoveUp (p : Puzzle) : Option Nat :=
  if PuzzleState.n ≤ p.blank then some (p.blank - PuzzleState.n) else none

/-- `Puzzle::GetMoveRight`: `swp = blank + 1`, valid while `swp < end()`
and `(swp - begin()) % n != 0`. -/
def Puzzle.getMoveRight (p : Puzzle) : Option Nat :=
  let swp := p.blank + 1
  if swp < PuzzleState.size ∧ swp % PuzzleState.n ≠ 0 then some swp else none

/-- `Puzzle::GetMoveLeft`: `swp = blank - 1`, valid while `swp >= begin()`
and `(end() - swp) % n != 1`. -/
def Puzzle.getMoveLeft (p : Puzzle) : Option Nat :=
  if 1 ≤ p.blank ∧ (PuzzleState.size - (p.blank - 1)) % PuzzleState.n ≠ 1 then
    some (p.blank - 1)
  else none

/-- `Puzzle::GetMove` restricted to the four real directions. -/
def Puzzle.getMoveDir (p : Puzzle) : Dir → Option Nat
  | .UP => p.getMoveUp
  | .DOWN => p.getMoveDown
  | .LEFT => p.getMoveLeft
  | .RIGHT => p.getMoveRight

/-- `Puzzle::GetMove`: dispatches on the `MOVE`; the `default` case throws
`std::logic_error("Invalid movement command attempted")`, modelled as
`Except.error`. -/
def Puzzle.getMove (p : Puzzle) : MOVE → Except String (Option Nat)
  | .UP => .ok p.getMoveUp
  | .DOWN => .ok p.getMoveDown
  | .LEFT => .ok p.getMoveLeft
  | .RIGHT => .ok p.getMoveRight
  | .NONE => .error "Invalid movement command attempted"

/-- `Puzzle::Move`: on a non-null `GetMove` result performs `Swap` and
returns `true`; on null returns `false` leaving the puzzle untouched; the
`GetMove` exception propagates. -/
def Puzzle.move (p : Puzzle) (m : MOVE) : Except String (Bool × Puzzle) :=
  (p.getMove m).map fun
    | some t => (true, p.swap t)
    | none => (false, p)

/-- `Puzzle::CheckValidMove`: `return GetMove(m);` converted to `bool`. -/
def Puzzle.checkValidMove (p : Puzzle) (m : MOVE) : Except String Bool :=
  (p.getMove m).map Option.isSome

/-- `Puzzle::Move` along one of the four real directions (total: these
never hit `GetMove`'s throwing branch). -/
def Puzzle.moveDir (p : Puzzle) (d : Dir) : Bool × Puzzle :=
  match p.getMoveDir d with
  | some t => (true, p.swap t)
  | none => (false, p)

/-- `Puzzle::HasSolution`: inversion count even (goal argument ignored by
the source). -/
def Puzzle.hasSolution (p : Puzzle) (_goal : PuzzleState) : Bool :=
  p.state.inversions % 2 == 0

/-- `Puzzle::IsSolved`: `state == goal` through `operator==`. -/
def Puzzle.isSolved (p : Puzzle) (goal : PuzzleState) : Bool :=
  p.state.beq goal

/-- The canonical goal board of `Search.cpp`'s `main`:
`[[1,2,3],[4,5,6],[7,8,0]]`. -/
def goal8 : PuzzleState := ⟨[1, 2, 3, 4, 5, 6, 7, 8, 0]⟩

/-- One successful application of `Puzzle::Move` between board states (the
transition relation explored by the search). -/
def Step (s t : PuzzleState) : Prop :=
  ∃ d : Dir, ∃ q : Puzzle, (Puzzle.ofState s).moveDir d = (true, q) ∧ t = q.state

/-- `t` is reachable from `s` by some finite sequence of valid moves. -/
def Reaches (s t : PuzzleState) : Prop :=
  Relation.ReflTransGen Step s t


/-! ## Strategy classes: `IsComplete` dispatch and frontier disciplines -/

/-- The concrete strategy classes of the source (identical in both
drafts). -/
inductive StrategyTag where
  | QueueStrategy
  | StackStrategy
  | DepthLimitedSearch
  | IterativeDeepeningSearch
deriving DecidableEq, Repr

/-- Body of the base-class `PuzzleStrategy::IsComplete` ("override in
subclasses that are not complete"). -/
def PuzzleStrategy.isCompleteDefault : Bool := true

/-- Virtual dispatch of `IsComplete()`: `QueueStrategy` and `StackStrategy`
declare no override and inherit the `PuzzleStrategy` default;
`DepthLimitedSearch` overrides it to `false`; `IterativeDeepeningSearch`
declares no override and inherits `DepthLimitedSearch`'s `false`. -/
def StrategyTag.isComplete : StrategyTag → Bool
  | .QueueStrategy => PuzzleStrategy.isCompleteDefault
  | .StackStrategy => PuzzleStrategy.isCompleteDefault
  | .DepthLimitedSearch => false
  | .IterativeDeepeningSearch => false

/-- `using BreadthFirstSearch = QueueStrategy`. -/
def BreadthFirstSearch : StrategyTag := .QueueStrategy

/-- `using DepthFirstSearch = StackStrategy`. -/
def DepthFirstSearch : StrategyTag := .StackStrategy

/-! ## Frontier containers (claim C3)

`Search.cpp`'s `QueueStrategy` keeps a `std::queue<NodePtr>` (push at the
back, `Next()` = `front()`, `Dequeue()` = `pop()` at the front).

`Puzzle.h`'s `PuzzleStrategy` instead keeps a
`std::priority_queue<NodePtr, vector, comp>`; `QueueStrategy` passes the
comparator `lhs->cost > rhs->cost`, so `top()` yields a *minimum-cost*
element.  We model the element retrieved as the earliest minimum-cost
element in insertion order; among equal costs the C++ heap's choice is
unspecified, and the theorems below only rely on distinct costs. -/

/-- `PuzzleStrategy::SearchNode`'s data members. -/
structure SearchNode where
  cost : Nat
  depth : Nat
deriving DecidableEq, Repr

/-- A call against the frontier interface: `Enqueue(x)`, or the
`Next(); Dequeue()` pair the `Solve` loop performs. -/
inductive FrontierOp where
  | enq (x : SearchNode)
  | deq
deriving DecidableEq, Repr

/-- Run a call sequence against `Search.cpp`'s `QueueStrategy` frontier;
returns the final frontier and the nodes handed out by `Next()` at each
dequeue, in order. -/
def runQueueOps : List FrontierOp → List SearchNode → List SearchNode × List SearchNode
  | [], f => (f, [])
  | .enq x :: ops, f => runQueueOps ops (f ++ [x])
  | .deq :: ops, f =>
    let r := runQueueOps ops f.tail
    (r.1, f.head?.toList ++ r.2)

/-- `Puzzle.h` frontier `top()`: a minimum-cost element (comparator
`lhs->cost > rhs->cost`); earliest such in insertion order. -/
def pqNext : List SearchNode → Option SearchNode
  | [] => none
  | x :: xs => some (xs.foldl (fun b a => if a.cost < b.cost then a else b) x)

/-- `Puzzle.h` frontier `pop()`: removes the element `top()` yields (a
`pop()` on an empty `priority_queue` is undefined; the model leaves the
frontier unchanged there). -/
def pqDequeue (f : List SearchNode) : List SearchNode :=
  match pqNext f with
  | none => f
  | some m => f.erase m

/-- Run a call sequence against `Puzzle.h`'s `QueueStrategy`
(priority-queue) frontier. -/
def runPQOps : List FrontierOp → List SearchNode → List SearchNode × List SearchNode
  | [], f => (f, [])
  | .enq x :: ops, f => runPQOps ops (f ++ [x])
  | .deq :: ops, f =>
    let r := runPQOps ops (pqDequeue f)
    (r.1, (pqNext f).toList ++ r.2)

/-- The nodes enqueued by a call sequence, in order. -/
def enqLog : List FrontierOp → List SearchNode
  | [] => []
  | .enq x :: ops => x :: enqLog ops
  | .deq :: ops => enqLog ops

/-- A call sequence is admissible from frontier `f` when it never dequeues
an empty frontier (`front`/`pop` on an empty `std::queue` is undefined). -/
def opsOK : List FrontierOp → List SearchNode → Bool
  | [], _ => true
  | .enq x :: ops, f => opsOK ops (f ++ [x])
  | .deq :: ops, f => !f.isEmpty && opsOK ops f.tail

theorem runQueueOps_fifo_aux (ops : List FrontierOp) (f : List SearchNode)
    (h : opsOK ops f = true) :
    (runQueueOps ops f).2 ++ (runQueueOps ops f).1 = f ++ enqLog ops := by
  induction ops generalizing f with
  | nil => simp [runQueueOps, enqLog]
  | cons op ops ih =>
    cases op with
    | enq x =>
      simp only [runQueueOps, enqLog, opsOK] at h ⊢
      rw [ih _ h, List.append_assoc]
      simp
    | deq =>
      simp only [opsOK, Bool.and_eq_true, Bool.not_eq_true'] at h
      obtain ⟨hne, hrest⟩ := h
      cases f with
      | nil => simp [List.isEmpty] at hne
      | cons y f' =>
        simp only [runQueueOps, enqLog, List.tail_cons, List.head?_cons,
          Option.toList_some] at *
        simp [ih _ hrest]

/-! ## Claim C2: `IsComplete()` values -/

/-- C2, counterexample: the claimed table (breadth-first `true`,
depth-first `false`, depth-limited `false`, iterative deepening `true`)
does not match the code's virtual dispatch: `StackStrategy`
(`DepthFirstSearch`) never overrides `IsComplete` and so reports the base
default `true`, and `IterativeDeepeningSearch` never overrides it either
and so reports `DepthLimitedSearch`'s `false`. -/
theorem isComplete_claim_table_cex :
    ¬(BreadthFirstSearch.isComplete = true ∧
      DepthFirstSearch.isComplete = false ∧
      StrategyTag.DepthLimitedSearch.isComplete = false ∧
      StrategyTag.IterativeDeepeningSearch.isComplete = true) := by
  decide

/-- C2, amended: `IsComplete()` returns `true` for breadth-first, `true`
for depth-first (inherited base default), `false` for depth-limited, and
`false` for iterative deepening (inherited from depth-limited). -/
theorem isComplete_values :
    BreadthFirstSearch.isComplete = true ∧
    DepthFirstSearch.isComplete = true ∧
    StrategyTag.DepthLimitedSearch.isComplete = false ∧
    StrategyTag.IterativeDeepeningSearch.isComplete = false := by
  decide

/-! ## Claim C3: FIFO order of the breadth-first frontier -/

/-- C3, counterexample: on `Puzzle.h`'s `BreadthFirstSearch`
(= `QueueStrategy`, a `std::priority_queue` ordered by ascending `cost`),
enqueueing a cost-5 node then a cost-3 node and dequeueing twice hands the
nodes out as cost-3 first — not the order in which they were enqueued. -/
theorem puzzleH_breadthFirst_not_fifo_cex :
    (runPQOps [.enq ⟨5, 0⟩, .enq ⟨3, 0⟩, .deq, .deq] []).2 ≠
      enqLog [.enq ⟨5, 0⟩, .enq ⟨3, 0⟩, .deq, .deq] := by
  decide

/-- C3, amended: `Search.cpp`'s `BreadthFirstSearch` (= `QueueStrategy`
over a `std::queue`) *is* FIFO: for every admissible call sequence starting
from an empty frontier, the sequence of nodes handed out by
`Next()`/`Dequeue()` is an initial segment of the sequence of enqueued
nodes, in enqueue order.  (`Puzzle.h`'s draft of `BreadthFirstSearch` is a
cost-ordered priority queue and does not satisfy this.) -/
theorem queueStrategy_fifo (ops : List FrontierOp) (h : opsOK ops [] = true) :
    ∃ rest, enqLog ops = (runQueueOps ops []).2 ++ rest := by
  refine ⟨(runQueueOps ops []).1, ?_⟩
  have := runQueueOps_fifo_aux ops [] h
  simpa using this.symm

/-- C3 witness: the FIFO theorem applied to the concrete call sequence
enqueue a, enqueue b, dequeue, dequeue. -/
theorem queueStrategy_fifo_witness :
    opsOK [.enq ⟨5, 0⟩, .enq ⟨3, 0⟩, .deq, .deq] [] = true ∧
    ∃ rest, enqLog [.enq ⟨5, 0⟩, .enq ⟨3, 0⟩, .deq, .deq] =
      (runQueueOps [.enq ⟨5, 0⟩, .enq ⟨3, 0⟩, .deq, .deq] []).2 ++ rest :=
  ⟨by decide, queueStrategy_fifo _ (by decide)⟩

/-! ## Claim C9: unrecognized `MOVE` values throw -/

/-- C9: for every board, passing any `MOVE` other than `UP`, `DOWN`,
`LEFT`, `RIGHT` (i.e. `NONE`, the enum's only other value) to the
transition functions raises the fatal `logic_error` from `GetMove`'s
`default` case rather than returning a failure result — through `GetMove`
itself, `Move`, and `CheckValidMove`. -/
theorem getMove_unrecognized_throws (p : Puzzle) (m : MOVE)
    (h1 : m ≠ .UP) (h2 : m ≠ .DOWN) (h3 : m ≠ .LEFT) (h4 : m ≠ .RIGHT) :
    p.getMove m = .error "Invalid movement command attempted" ∧
    p.move m = .error "Invalid movement command attempted" ∧
    p.checkValidMove m = .error "Invalid movement command attempted" := by
  cases m <;> simp_all [Puzzle.getMove, Puzzle.move, Puzzle.checkValidMove,
    Except.map]

/-- C9 witness: the theorem applied to the canonical goal board and
`MOVE.NONE`. -/
theorem getMove_unrecognized_throws_witness :
    (MOVE.NONE ≠ .UP ∧ MOVE.NONE ≠ .DOWN ∧ MOVE.NONE ≠ .LEFT ∧
      MOVE.NONE ≠ .RIGHT) ∧
    (Puzzle.ofState goal8).getMove .NONE =
      .error "Invalid movement command attempted" ∧
    (Puzzle.ofState goal8).move .NONE =
      .error "Invalid movement command attempted" ∧
    (Puzzle.ofState goal8).checkValidMove .NONE =
      .error "Invalid movement command attempted" :=
  ⟨⟨by decide, by decide, by decide, by decide⟩,
    getMove_unrecognized_throws (Puzzle.ofState goal8) .NONE
      (by decide) (by decide) (by decide) (by decide)⟩

/-! ## Claim C7: the skip-last-cell equality is exact equality on valid boards -/

theorem PuzzleState.beq_iff (a b : PuzzleState) :
    a.beq b = true ↔ ∀ i < 8, a.cells.getD i 0 = b.cells.getD i 0 := by
  simp [PuzzleState.beq, PuzzleState.size, List.all_eq_true, List.mem_range]

theorem PuzzleState.beq_refl (a : PuzzleState) : a.beq a = true := by
  simp [PuzzleState.beq_iff]

theorem PuzzleState.beq_symm {a b : PuzzleState} (h : a.beq b = true) :
    b.beq a = true := by
  rw [PuzzleState.beq_iff] at h ⊢
  intro i hi
  exact (h i hi).symm

theorem PuzzleState.beq_trans {a b c : PuzzleState} (h1 : a.beq b = true)
    (h2 : b.beq c = true) : a.beq c = true := by
  rw [PuzzleState.beq_iff] at h1 h2 ⊢
  intro i hi
  exact (h1 i hi).trans (h2 i hi)

theorem PuzzleState.beqFull_split (a b : PuzzleState) :
    a.beqFull b = (a.beq b && (a.cells.getD 8 0 == b.cells.getD 8 0)) := by
  have h9 : List.range 9 = [0, 1, 2, 3, 4, 5, 6, 7, 8] := rfl
  have h8 : List.range 8 = [0, 1, 2, 3, 4, 5, 6, 7] := rfl
  simp only [PuzzleState.beq, PuzzleState.beqFull, PuzzleState.size, h9, h8,
    List.all_cons, List.all_nil, Bool.and_true, Bool.and_assoc]

theorem PuzzleState.valid_length {s : PuzzleState} (h : s.Valid) :
    s.cells.length = 9 := by
  simpa using h.length_eq

theorem exists_nine_cells (l : List Nat) (h : l.length = 9) :
    ∃ c0 c1 c2 c3 c4 c5 c6 c7 c8,
      l = [c0, c1, c2, c3, c4, c5, c6, c7, c8] := by
  rcases l with _ | ⟨c0, _ | ⟨c1, _ | ⟨c2, _ | ⟨c3, _ | ⟨c4, _ | ⟨c5,
    _ | ⟨c6, _ | ⟨c7, _ | ⟨c8, _ | ⟨c9, l⟩⟩⟩⟩⟩⟩⟩⟩⟩⟩ <;> simp_all

/-- C7: on boards satisfying the data-model invariant, the source's
`operator==` (which skips the last cell) agrees exactly with full
all-cells equality: label-set uniqueness makes the last cell redundant. -/
theorem operatorEq_skip_last_exact (a b : PuzzleState)
    (ha : a.Valid) (hb : b.Valid) :
    a.beq b = a.beqFull b := by
  rw [PuzzleState.beqFull_split]
  cases hab : a.beq b with
  | false => simp
  | true =>
    suffices h : a.cells.getD 8 0 = b.cells.getD 8 0 by rw [h]; simp
    obtain ⟨c0, c1, c2, c3, c4, c5, c6, c7, c8, hc⟩ :=
      exists_nine_cells a.cells (PuzzleState.valid_length ha)
    obtain ⟨d0, d1, d2, d3, d4, d5, d6, d7, d8, hd⟩ :=
      exists_nine_cells b.cells (PuzzleState.valid_length hb)
    rw [PuzzleState.beq_iff] at hab
    have f0 : c0 = d0 := by have := hab 0 (by norm_num); rw [hc, hd] at this; exact this
    have f1 : c1 = d1 := by have := hab 1 (by norm_num); rw [hc, hd] at this; exact this
    have f2 : c2 = d2 := by have := hab 2 (by norm_num); rw [hc, hd] at this; exact this
    have f3 : c3 = d3 := by have := hab 3 (by norm_num); rw [hc, hd] at this; exact this
    have f4 : c4 = d4 := by have := hab 4 (by norm_num); rw [hc, hd] at this; exact this
    have f5 : c5 = d5 := by have := hab 5 (by norm_num); rw [hc, hd] at this; exact this
    have f6 : c6 = d6 := by have := hab 6 (by norm_num); rw [hc, hd] at this; exact this
    have f7 : c7 = d7 := by have := hab 7 (by norm_num); rw [hc, hd] at this; exact this
    rw [hc, hd]
    show c8 = d8
    unfold PuzzleState.Valid at ha hb
    rw [hc] at ha
    rw [hd, ← f0, ← f1, ← f2, ← f3, ← f4, ← f5, ← f6, ← f7] at hb
    have h1 := ha.count_eq c8
    have h2 := hb.count_eq c8
    have hmem : c8 ∈ List.range 9 := ha.subset (by simp)
    have hone : List.count c8 (List.range 9) = 1 :=
      List.count_eq_one_of_mem (List.nodup_range 9) hmem
    have e1 : ([c0, c1, c2, c3, c4, c5, c6, c7, c8] : List Nat) =
        [c0, c1, c2, c3, c4, c5, c6, c7] ++ [c8] := rfl
    have e2 : ([c0, c1, c2, c3, c4, c5, c6, c7, d8] : List Nat) =
        [c0, c1, c2, c3, c4, c5, c6, c7] ++ [d8] := rfl
    rw [e1, List.count_append, hone] at h1
    rw [e2, List.count_append, hone] at h2
    have hc8 : List.count c8 [c8] = 1 := by simp
    have hd8 : 0 < List.count c8 [d8] := by omega
    have : c8 ∈ [d8] := List.count_pos_iff.mp hd8
    simpa using this

/-- C7 witness: the theorem applied to two concrete valid boards that
agree on the first eight cells. -/
theorem operatorEq_skip_last_exact_witness :
    PuzzleState.Valid ⟨[1, 2, 3, 4, 5, 6, 7, 8, 0]⟩ ∧
    PuzzleState.Valid ⟨[1, 2, 3, 4, 5, 6, 7, 0, 8]⟩ ∧
    PuzzleState.beq ⟨[1, 2, 3, 4, 5, 6, 7, 8, 0]⟩ ⟨[1, 2, 3, 4, 5, 6, 7, 0, 8]⟩ =
      PuzzleState.beqFull ⟨[1, 2, 3, 4, 5, 6, 7, 8, 0]⟩ ⟨[1, 2, 3, 4, 5, 6, 7, 0, 8]⟩ :=
  ⟨by decide, by decide,
    operatorEq_skip_last_exact _ _ (by decide) (by decide)⟩

/-! ## Claims C5 and C6: the transition function -/

theorem length_listSwap (l : List Nat) (b t : Nat) :
    (listSwap l b t).length = l.length := by
  simp [listSwap]

theorem listSwap_getD_target (l : List Nat) (b t : Nat) (ht : t < l.length) :
    (listSwap l b t).getD t 0 = l.getD b 0 := by
  simp only [listSwap, List.getD_eq_getElem?_getD]
  rw [List.getElem?_set_self (by simpa using ht)]
  simp

theorem listSwap_getD_source (l : List Nat) (b t : Nat) (hbt : b ≠ t)
    (hb : b < l.length) :
    (listSwap l b t).getD b 0 = l.getD t 0 := by
  simp only [listSwap, List.getD_eq_getElem?_getD]
  rw [List.getElem?_set_ne (Ne.symm hbt), List.getElem?_set_self hb]
  simp

theorem listSwap_getD_other (l : List Nat) (b t i : Nat) (h1 : i ≠ b)
    (h2 : i ≠ t) :
    (listSwap l b t).getD i 0 = l.getD i 0 := by
  simp only [listSwap, List.getD_eq_getElem?_getD]
  rw [List.getElem?_set_ne (Ne.symm h2), List.getElem?_set_ne (Ne.symm h1)]

/-- A `Puzzle` in the shape the constructor produces from a board
satisfying the data-model invariant: valid state, and `blank` holding the
index `find_if` locates (the first `0` cell). -/
def Puzzle.WF (p : Puzzle) : Prop :=
  p.state.Valid ∧ p.blank = p.state.cells.findIdx fun v => v == 0

theorem Puzzle.ofState_WF {s : PuzzleState} (h : s.Valid) :
    (Puzzle.ofState s).WF :=
  ⟨h, rfl⟩

theorem Puzzle.WF.findIdx_lt {p : Puzzle} (h : p.WF) :
    p.blank < p.state.cells.length := by
  obtain ⟨hv, hb⟩ := h
  rw [hb]
  exact List.findIdx_lt_length_of_exists ⟨0, hv.mem_iff.mpr (by simp), by simp⟩

theorem Puzzle.WF.blank_lt {p : Puzzle} (h : p.WF) : p.blank < 9 := by
  have hfi := h.findIdx_lt
  rwa [PuzzleState.valid_length h.1] at hfi

theorem Puzzle.WF.getD_blank {p : Puzzle} (h : p.WF) :
    p.state.cells.getD p.blank 0 = 0 := by
  have hlt := h.findIdx_lt
  obtain ⟨hv, hb⟩ := h
  rw [hb] at hlt ⊢
  have hval : ((p.state.cells.get ⟨_, hlt⟩) == 0) = true :=
    @List.findIdx_get _ (fun v => v == 0) p.state.cells hlt
  rw [List.getD_eq_getElem?_getD, List.getElem?_eq_getElem hlt]
  simpa using hval

/-- Row of a flat cell index (the claim's "same row" side condition). -/
def rowOf (i : Nat) : Nat := i / 3

/-- The neighbor cell in a given direction of a blank at flat index `b`
(the claim's description of the move's effect). -/
def claimTarget : Dir → Nat → Nat
  | .UP, b => b - 3
  | .DOWN, b => b + 3
  | .LEFT, b => b - 1
  | .RIGHT, b => b + 1

/-- The claim's success condition: the neighbor lies inside the grid, and
for LEFT/RIGHT additionally in the same row as the blank. -/
def claimValid : Dir → Nat → Prop
  | .UP, b => 3 ≤ b
  | .DOWN, b => b + 3 < 9
  | .LEFT, b => 1 ≤ b ∧ rowOf (b - 1) = rowOf b
  | .RIGHT, b => b + 1 < 9 ∧ rowOf (b + 1) = rowOf b

instance (d : Dir) (b : Nat) : Decidable (claimValid d b) :=
  match d with
  | .UP => inferInstanceAs (Decidable (3 ≤ b))
  | .DOWN => inferInstanceAs (Decidable (b + 3 < 9))
  | .LEFT => inferInstanceAs (Decidable (1 ≤ b ∧ rowOf (b - 1) = rowOf b))
  | .RIGHT => inferInstanceAs (Decidable (b + 1 < 9 ∧ rowOf (b + 1) = rowOf b))

theorem move_toMOVE (p : Puzzle) (d : Dir) :
    p.move d.toMOVE = .ok (p.moveDir d) := by
  cases d <;>
    simp only [Dir.toMOVE, Puzzle.move, Puzzle.getMove, Puzzle.moveDir,
      Puzzle.getMoveDir, Except.map] <;>
    split <;> rfl

/-- C5: for every board satisfying the data-model invariant and every real
direction, `Move` succeeds exactly when the blank's neighbor in that
direction is inside the grid and (for LEFT/RIGHT) in the same row; on
success the result swaps the blank with that neighbor (blank index moves to
the neighbor, the neighbor's tile moves to the old blank cell, and every
other cell is untouched); otherwise `Move` returns `false` with the board
completely unchanged. -/
theorem move_valid_invalid_spec (p : Puzzle) (h : p.WF) (d : Dir) :
    (claimValid d p.blank →
      p.move d.toMOVE = .ok (true, p.swap (claimTarget d p.blank)) ∧
      (p.swap (claimTarget d p.blank)).blank = claimTarget d p.blank ∧
      (p.swap (claimTarget d p.blank)).state.cells.getD
        (claimTarget d p.blank) 0 = 0 ∧
      (p.swap (claimTarget d p.blank)).state.cells.getD p.blank 0 =
        p.state.cells.getD (claimTarget d p.blank) 0 ∧
      ∀ i, i ≠ p.blank → i ≠ claimTarget d p.blank →
        (p.swap (claimTarget d p.blank)).state.cells.getD i 0 =
          p.state.cells.getD i 0) ∧
    (¬claimValid d p.blank → p.move d.toMOVE = .ok (false, p)) := by
  have hb9 : p.blank < 9 := h.blank_lt
  have hlen : p.state.cells.length = 9 := PuzzleState.valid_length h.1
  have h0 : p.state.cells.getD p.blank 0 = 0 := h.getD_blank
  rw [move_toMOVE]
  cases d with
  | UP =>
    simp only [claimValid, claimTarget, Puzzle.swap]
    by_cases hc : 3 ≤ p.blank
    · have hcode : p.getMoveDir .UP = some (p.blank - 3) := by
        simp only [Puzzle.getMoveDir, Puzzle.getMoveUp, PuzzleState.n]
        rw [if_pos hc]
      refine ⟨fun _ => ⟨?_, by trivial, ?_, ?_, ?_⟩, fun hncv => absurd hc hncv⟩
      · simp [Puzzle.moveDir, hcode, Puzzle.swap]
      · rw [listSwap_getD_target _ _ _ (by omega)]; exact h0
      · exact listSwap_getD_source _ _ _ (by omega) (by omega)
      · intro i h1 h2; exact listSwap_getD_other _ _ _ _ h1 h2
    · have hcode : p.getMoveDir .UP = none := by
        simp only [Puzzle.getMoveDir, Puzzle.getMoveUp, PuzzleState.n]
        rw [if_neg hc]
      exact ⟨fun hcv => absurd hcv hc,
        fun _ => by simp [Puzzle.moveDir, hcode]⟩
  | DOWN =>
    simp only [claimValid, claimTarget, Puzzle.swap]
    by_cases hc : p.blank + 3 < 9
    · have hcode : p.getMoveDir .DOWN = some (p.blank + 3) := by
        simp only [Puzzle.getMoveDir, Puzzle.getMoveDown, PuzzleState.n,
          PuzzleState.size]
        rw [if_pos hc]
      refine ⟨fun _ => ⟨?_, by trivial, ?_, ?_, ?_⟩, fun hncv => absurd hc hncv⟩
      · simp [Puzzle.moveDir, hcode, Puzzle.swap]
      · rw [listSwap_getD_target _ _ _ (by omega)]; exact h0
      · exact listSwap_getD_source _ _ _ (by omega) (by omega)
      · intro i h1 h2; exact listSwap_getD_other _ _ _ _ h1 h2
    · have hcode : p.getMoveDir .DOWN = none := by
        simp only [Puzzle.getMoveDir, Puzzle.getMoveDown, PuzzleState.n,
          PuzzleState.size]
        rw [if_neg hc]
      exact ⟨fun hcv => absurd hcv hc,
        fun _ => by simp [Puzzle.moveDir, hcode]⟩
  | LEFT =>
    simp only [claimValid, claimTarget, rowOf, Puzzle.swap]
    by_cases hc : 1 ≤ p.blank ∧ (p.blank - 1) / 3 = p.blank / 3
    · have hcode : p.getMoveDir .LEFT = some (p.blank - 1) := by
        simp only [Puzzle.getMoveDir, Puzzle.getMoveLeft, PuzzleState.n,
          PuzzleState.size]
        rw [if_pos (by omega)]
      refine ⟨fun _ => ⟨?_, by trivial, ?_, ?_, ?_⟩, fun hncv => absurd hc hncv⟩
      · simp [Puzzle.moveDir, hcode, Puzzle.swap]
      · rw [listSwap_getD_target _ _ _ (by omega)]; exact h0
      · exact listSwap_getD_source _ _ _ (by omega) (by omega)
      · intro i h1 h2; exact listSwap_getD_other _ _ _ _ h1 h2
    · have hcode : p.getMoveDir .LEFT = none := by
        simp only [Puzzle.getMoveDir, Puzzle.getMoveLeft, PuzzleState.n,
          PuzzleState.size]
        rw [if_neg (by omega)]
      exact ⟨fun hcv => absurd hcv hc,
        fun _ => by simp [Puzzle.moveDir, hcode]⟩
  | RIGHT =>
    simp only [claimValid, claimTarget, rowOf, Puzzle.swap]
    by_cases hc : p.blank + 1 < 9 ∧ (p.blank + 1) / 3 = p.blank / 3
    · have hcode : p.getMoveDir .RIGHT = some (p.blank + 1) := by
        simp only [Puzzle.getMoveDir, Puzzle.getMoveRight, PuzzleState.n,
          PuzzleState.size]
        rw [if_pos (by omega)]
      refine ⟨fun _ => ⟨?_, by trivial, ?_, ?_, ?_⟩, fun hncv => absurd hc hncv⟩
      · simp [Puzzle.moveDir, hcode, Puzzle.swap]
      · rw [listSwap_getD_target _ _ _ (by omega)]; exact h0
      · exact listSwap_getD_source _ _ _ (by omega) (by omega)
      · intro i h1 h2; exact listSwap_getD_other _ _ _ _ h1 h2
    · have hcode : p.getMoveDir .RIGHT = none := by
        simp only [Puzzle.getMoveDir, Puzzle.getMoveRight, PuzzleState.n,
          PuzzleState.size]
        rw [if_neg (by omega)]
      exact ⟨fun hcv => absurd hcv hc,
        fun _ => by simp [Puzzle.moveDir, hcode]⟩

/-- C5 witness: the theorem applied to the canonical goal board (blank at
cell 8) and direction UP (a valid move there). -/
theorem move_valid_invalid_spec_witness :
    (Puzzle.ofState goal8).WF ∧
    claimValid .UP (Puzzle.ofState goal8).blank ∧
    (Puzzle.ofState goal8).move Dir.UP.toMOVE =
      .ok (true, (Puzzle.ofState goal8).swap
        (claimTarget .UP (Puzzle.ofState goal8).blank)) :=
  ⟨Puzzle.ofState_WF (by decide), by decide,
    ((move_valid_invalid_spec (Puzzle.ofState goal8)
      (Puzzle.ofState_WF (by decide)) .UP).1 (by decide)).1⟩

/-- Logical inverse of a direction (UP↔DOWN, LEFT↔RIGHT). -/
def Dir.inv : Dir → Dir
  | .UP => .DOWN
  | .DOWN => .UP
  | .LEFT => .RIGHT
  | .RIGHT => .LEFT

/-- C6: on a board satisfying the data-model invariant, whenever a move in
direction `d` succeeds, the move in the logically inverse direction
immediately afterwards also succeeds and restores exactly the original
puzzle (board state and blank position). -/
theorem move_inverse_restores (p q : Puzzle) (h : p.WF) (d : Dir)
    (hm : p.move d.toMOVE = .ok (true, q)) :
    q.move d.inv.toMOVE = .ok (true, p) := by
  have hb9 : p.blank < 9 := h.blank_lt
  have hlen : p.state.cells.length = 9 := PuzzleState.valid_length h.1
  rw [move_toMOVE] at hm
  rw [move_toMOVE]
  rcases p with ⟨⟨cells⟩, b⟩
  dsimp only at hb9 hlen hm ⊢
  obtain ⟨c0, c1, c2, c3, c4, c5, c6, c7, c8, hc⟩ := exists_nine_cells cells hlen
  subst hc
  interval_cases b <;> cases d <;>
    simp_all [Puzzle.moveDir, Puzzle.getMoveDir, Puzzle.getMoveUp,
      Puzzle.getMoveDown, Puzzle.getMoveLeft, Puzzle.getMoveRight,
      Puzzle.swap, listSwap, PuzzleState.n, PuzzleState.size, Dir.inv,
      Dir.toMOVE] <;>
    (subst hm;
      simp [Puzzle.moveDir, Puzzle.getMoveDir, Puzzle.getMoveUp,
        Puzzle.getMoveDown, Puzzle.getMoveLeft, Puzzle.getMoveRight,
        Puzzle.swap, listSwap, PuzzleState.n, PuzzleState.size, Dir.inv,
        Dir.toMOVE])

/-- C6 witness: move UP from the canonical goal (blank cell 8), then DOWN,
restores the goal puzzle. -/
theorem move_inverse_restores_witness :
    (Puzzle.ofState goal8).WF ∧
    (Puzzle.ofState goal8).move Dir.UP.toMOVE =
      .ok (true, ⟨⟨[1, 2, 3, 4, 5, 0, 7, 8, 6]⟩, 5⟩) ∧
    (⟨⟨[1, 2, 3, 4, 5, 0, 7, 8, 6]⟩, 5⟩ : Puzzle).move Dir.UP.inv.toMOVE =
      .ok (true, Puzzle.ofState goal8) :=
  ⟨⟨by decide, by decide⟩, by rfl,
    move_inverse_restores _ _ ⟨by decide, by decide⟩ .UP (by rfl)⟩

/-! ## The `Solve` loop (Search.cpp lines 380-488, Puzzle.h lines 370-491)

`Solve`'s local `Node` type: a board state, a parent link (null for the
root), the producing action, and the inherited `SearchNode` cost and depth.
The root constructor stores cost 0, depth 0, action NONE; the child
constructor applies `Puzzle::Move` to a throwaway copy of the parent's
state — ignoring `Move`'s boolean result — and stores depth
`parent.depth + 1`.  In `Search.cpp` the stored cost of a child is the
constant `1`; in `Puzzle.h` it is `valuator(childState, goal,
parent.depth + 1)`, where the default valuator is `[](...) { return 1; }`.
We model the `Puzzle.h` form; `Search.cpp`'s constant is the same function
with the default valuator. -/
inductive Node where
  | root (state : PuzzleState) (cost : Nat) (depth : Nat) (action : MOVE)
  | child (parent : Node) (state : PuzzleState) (cost : Nat) (depth : Nat)
      (action : MOVE)
deriving DecidableEq, Repr

def Node.state : Node → PuzzleState
  | .root s _ _ _ => s
  | .child _ s _ _ _ => s

def Node.cost : Node → Nat
  | .root _ c _ _ => c
  | .child _ _ c _ _ => c

def Node.depth : Node → Nat
  | .root _ _ d _ => d
  | .child _ _ _ d _ => d

def Node.action : Node → MOVE
  | .root _ _ _ a => a
  | .child _ _ _ _ a => a

def Node.parent : Node → Option Node
  | .root _ _ _ _ => none
  | .child par _ _ _ _ => some par

/-- The evaluation-function signature `CostCalc` of `Puzzle.h`:
`(state, goal, cumulative) → value`. -/
def CostCalc : Type := PuzzleState → PuzzleState → Nat → Nat

/-- The default valuator of `Puzzle::Solve`:
`[](const PuzzleState&, const PuzzleState&, int) { return 1; }`. -/
def defaultValuator : CostCalc := fun _ _ _ => 1

/-- The root-node constructor: `SearchNode(0, 0)`, action `NONE`. -/
def Node.mkRoot (s : PuzzleState) : Node :=
  .root s 0 0 .NONE

/-- The child-node constructor: builds a puzzle from the parent state,
applies `Move(action)` (its boolean result is ignored: a failed move leaves
the child state equal to the parent state), and stores the valuator's cost
and `parent.depth + 1`. -/
def Node.mkChild (valuator : CostCalc) (goal : PuzzleState) (parent : Node)
    (d : Dir) : Node :=
  let p2 := ((Puzzle.ofState parent.state).moveDir d).2
  .child parent p2.state (valuator p2.state goal (parent.depth + 1))
    (parent.depth + 1) d.toMOVE

/-- A strategy object as passed to `Solve`: selects the frontier discipline
and the `TestHeuristics` admission policy (`DepthLimitedSearch` and
`IterativeDeepeningSearch` carry their current depth bound). -/
inductive Strategy where
  | queue
  | stack
  | depthLimited (bound : Nat)
  | iterativeDeepening (bound : Nat)
deriving DecidableEq, Repr

/-- Virtual dispatch of `TestHeuristics(newnode, existing)`:
the base-class default (used by `QueueStrategy` and `StackStrategy`)
admits iff no equal explored node exists; `DepthLimitedSearch` (and
`IterativeDeepeningSearch`, which inherits it) admits iff
`newnode.depth <= depth && (!existing || existing->depth > newnode.depth)`. -/
def Strategy.testHeuristics : Strategy → Node → Option Node → Bool
  | .queue, _, existing => existing.isNone
  | .stack, _, existing => existing.isNone
  | .depthLimited bound, newnode, existing =>
      decide (newnode.depth ≤ bound) &&
        (match existing with
          | none => true
          | some e => decide (e.depth > newnode.depth))
  | .iterativeDeepening bound, newnode, existing =>
      decide (newnode.depth ≤ bound) &&
        (match existing with
          | none => true
          | some e => decide (e.depth > newnode.depth))

/-- `Enqueue`: `std::queue` pushes at the back; the stack-based strategies
(`StackStrategy` and its subclasses) push on top, which `Next`/`Dequeue`
read first. -/
def Strategy.enqueue : Strategy → List Node → Node → List Node
  | .queue, f, x => f ++ [x]
  | _, f, x => x :: f

/-- One search configuration of the `Solve` loop: the frontier, the
`explored` table (an `unordered_set` keyed by `operator==` on states), the
`current` node, the `expandedCount` counter, and — as an observer — the
node most recently removed by `Dequeue()`. -/
structure SolveConfig where
  frontier : List Node
  explored : List Node
  current : Node
  expandedCount : Nat
  lastDequeued : Option Node
deriving Repr

/-- `ExpandNode(direction)`: build the child, look up an `operator==`-equal
explored node, ask the strategy's `TestHeuristics`; if admitted, erase any
found entry, insert the child into the explored set and enqueue it. -/
def expandNode (strat : Strategy) (valuator : CostCalc) (goal : PuzzleState)
    (c : SolveConfig) (d : Dir) : SolveConfig :=
  let newnode := Node.mkChild valuator goal c.current d
  let found := c.explored.find? fun e => e.state.beq newnode.state
  if strat.testHeuristics newnode found then
    let exp := match found with
      | some _ => c.explored.eraseP fun e => e.state.beq newnode.state
      | none => c.explored
    { c with
        explored := newnode :: exp
        frontier := strat.enqueue c.frontier newnode }
  else c

/-- The `while (!frontier.Finished())` loop: `Next()` then `Dequeue()`,
break on `current->state == goal`, otherwise expand UP, LEFT, DOWN, RIGHT
and continue.  Fuel bounds the number of iterations modelled (the C++ loop
has no such parameter; every theorem below holds for every fuel value). -/
def solveLoop (strat : Strategy) (valuator : CostCalc) (goal : PuzzleState) :
    Nat → SolveConfig → SolveConfig
  | 0, c => c
  | fuel + 1, c =>
    match hf : c.frontier with
    | [] => c
    | cur :: rest =>
      let c1 : SolveConfig :=
        { c with current := cur, frontier := rest, lastDequeued := some cur }
      if cur.state.beq goal then c1
      else
        let c2 := { c1 with expandedCount := c1.expandedCount + 1 }
        solveLoop strat valuator goal fuel
          (expandNode strat valuator goal
            (expandNode strat valuator goal
              (expandNode strat valuator goal
                (expandNode strat valuator goal c2 .UP) .LEFT) .DOWN) .RIGHT)

/-- The configuration `Solve` sets up before the loop: the root node
enqueued, `current = frontier.Next()`, the root inserted into `explored`. -/
def initConfig (strat : Strategy) (s : PuzzleState) : SolveConfig :=
  let root := Node.mkRoot s
  { frontier := strat.enqueue [] root
    explored := [root]
    current := root
    expandedCount := 0
    lastDequeued := none }

/-- `Puzzle::Solve`: run the loop, then `state = current->state` and
`solved = IsSolved(goal)` (i.e. `state == goal` through `operator==`);
returns `(solved, final puzzle state)`. -/
def solve (strat : Strategy) (valuator : CostCalc) (goal : PuzzleState)
    (fuel : Nat) (s : PuzzleState) : Bool × PuzzleState :=
  let cf := solveLoop strat valuator goal fuel (initConfig strat s)
  (cf.current.state.beq goal, cf.current.state)

/-! ## Claim C10: the final puzzle state after `Solve` -/

theorem expandNode_preserves_current (strat : Strategy) (valuator : CostCalc)
    (goal : PuzzleState) (c : SolveConfig) (d : Dir) :
    (expandNode strat valuator goal c d).current = c.current ∧
    (expandNode strat valuator goal c d).lastDequeued = c.lastDequeued := by
  unfold expandNode
  dsimp only
  split
  · exact ⟨rfl, rfl⟩
  · exact ⟨rfl, rfl⟩

theorem solveLoop_lastDequeued_inv (strat : Strategy) (valuator : CostCalc)
    (goal : PuzzleState) :
    ∀ (fuel : Nat) (c : SolveConfig), c.lastDequeued = some c.current →
      (solveLoop strat valuator goal fuel c).lastDequeued =
        some (solveLoop strat valuator goal fuel c).current := by
  intro fuel
  induction fuel with
  | zero => exact fun c h => h
  | succ n ih =>
    intro c h
    rw [solveLoop]
    split
    · exact h
    · dsimp only
      split
      · rfl
      · apply ih
        simp only [expandNode_preserves_current]

/-- C10 (amended, main part): whether the search succeeds or fails, the
puzzle state `Solve` leaves behind is exactly the state of the last node
removed from the frontier by `Dequeue()` (the final `state = current->state`
assignment). -/
theorem solve_overwrites_with_last_dequeued (strat : Strategy)
    (valuator : CostCalc) (goal s : PuzzleState) (fuel : Nat)
    (hfuel : 1 ≤ fuel) :
    ∃ nd : Node,
      (solveLoop strat valuator goal fuel (initConfig strat s)).lastDequeued
        = some nd ∧
      (solve strat valuator goal fuel s).2 = nd.state := by
  refine ⟨(solveLoop strat valuator goal fuel (initConfig strat s)).current,
    ?_, rfl⟩
  obtain ⟨n, rfl⟩ : ∃ n, fuel = n + 1 := ⟨fuel - 1, by omega⟩
  have hfr : (initConfig strat s).frontier = [Node.mkRoot s] := by
    cases strat <;> rfl
  rw [solveLoop, hfr]
  dsimp only
  split
  · rfl
  · apply solveLoop_lastDequeued_inv
    simp only [expandNode_preserves_current]

/-- C10 witness: a concrete breadth-first run (one step from the goal). -/
theorem solve_overwrites_with_last_dequeued_witness :
    1 ≤ 5 ∧
    ∃ nd : Node,
      (solveLoop .queue defaultValuator goal8 5
        (initConfig .queue ⟨[1, 2, 3, 4, 5, 6, 7, 0, 8]⟩)).lastDequeued
        = some nd ∧
      (solve .queue defaultValuator goal8 5 ⟨[1, 2, 3, 4, 5, 6, 7, 0, 8]⟩).2
        = nd.state :=
  ⟨by decide, solve_overwrites_with_last_dequeued .queue defaultValuator
    goal8 ⟨[1, 2, 3, 4, 5, 6, 7, 0, 8]⟩ 5 (by decide)⟩

/-- C10, counterexample to the "in particular" clause: a failed search can
leave the puzzle at its initial state.  With `DepthLimitedSearch(0)` on a
non-goal board, the root is the only node ever dequeued (all children have
depth 1 > 0 and are rejected), so the search fails with
`state = root.state`, i.e. the initial board. -/
theorem solve_failure_keeps_initial_cex :
    solve (.depthLimited 0) defaultValuator goal8 10
      ⟨[1, 2, 3, 4, 5, 6, 7, 0, 8]⟩ =
      (false, ⟨[1, 2, 3, 4, 5, 6, 7, 0, 8]⟩) := by
  decide

/-! ## Claim C4: child-node cost under the default (unit) valuator -/

/-- The claim's cost relation on a node of the search tree: its stored cost
is its parent's stored cost plus one (roots are unconstrained). -/
def costIsCumulative (nd : Node) : Bool :=
  match nd.parent with
  | some par => nd.cost == par.cost + 1
  | none => true

/-- C4, counterexample: in a concrete breadth-first run with the default
valuator, after two loop iterations the frontier holds an admitted child
node (depth 2) whose stored cost is 1 while its parent's stored cost is
also 1 — not `parent's cumulative cost + 1`. -/
theorem childNode_cost_not_cumulative_cex :
    ((solveLoop .queue defaultValuator goal8 2
        (initConfig .queue ⟨[1, 2, 3, 4, 5, 6, 7, 0, 8]⟩)).frontier.all
      costIsCumulative) = false := by
  decide

/-- C4 (amended): every child node constructed during `Solve` with the
default valuator stores cost exactly `1` — the default valuator
`[](...) { return 1; }` ignores the cumulative cost it is handed — and
depth `parent.depth + 1`. -/
theorem childNode_default_cost_one (goal : PuzzleState) (parent : Node)
    (d : Dir) :
    (Node.mkChild defaultValuator goal parent d).cost = 1 ∧
    (Node.mkChild defaultValuator goal parent d).depth = parent.depth + 1 :=
  ⟨rfl, rfl⟩

/-! ## Claim C8: no duplicate states in the frontier (default policy) -/

theorem PuzzleState.beq_comm (a b : PuzzleState) : a.beq b = b.beq a := by
  cases hab : a.beq b with
  | true => exact (PuzzleState.beq_symm hab).symm
  | false =>
    cases hba : b.beq a with
    | true => exact absurd (PuzzleState.beq_symm hba) (by simp [hab])
    | false => rfl

/-- C8's invariant: no two distinct nodes in the frontier carry
`operator==`-equal board states. -/
def FrontierNoDup (c : SolveConfig) : Prop :=
  c.frontier.Pairwise fun a b => a.state.beq b.state = false

/-- Auxiliary strengthening: every frontier node has an `operator==`-equal
entry in the explored table. -/
def FrontierInExplored (c : SolveConfig) : Prop :=
  ∀ nd ∈ c.frontier, ∃ e ∈ c.explored, e.state.beq nd.state = true

theorem expandNode_inv (strat : Strategy)
    (hstrat : strat = .queue ∨ strat = .stack) (valuator : CostCalc)
    (goal : PuzzleState) (c : SolveConfig) (d : Dir)
    (h1 : FrontierNoDup c) (h2 : FrontierInExplored c) :
    FrontierNoDup (expandNode strat valuator goal c d) ∧
    FrontierInExplored (expandNode strat valuator goal c d) := by
  unfold expandNode
  dsimp only
  split
  case isFalse hadm => exact ⟨h1, h2⟩
  case isTrue hadm =>
    have hfind : c.explored.find?
        (fun e => e.state.beq (Node.mkChild valuator goal c.current d).state)
        = none := by
      rcases hstrat with rfl | rfl <;>
        simpa [Strategy.testHeuristics, Option.isNone_iff_eq_none] using hadm
    have hnone : ∀ e ∈ c.explored,
        e.state.beq (Node.mkChild valuator goal c.current d).state = false := by
      intro e he
      have := List.find?_eq_none.mp hfind e he
      simpa using this
    have hfresh : ∀ y ∈ c.frontier,
        y.state.beq (Node.mkChild valuator goal c.current d).state = false := by
      intro y hy
      cases hc : y.state.beq (Node.mkChild valuator goal c.current d).state with
      | false => rfl
      | true =>
        obtain ⟨e, he, hey⟩ := h2 y hy
        have : e.state.beq (Node.mkChild valuator goal c.current d).state =
            true := PuzzleState.beq_trans hey hc
        rw [hnone e he] at this
        exact absurd this (by simp)
    rw [hfind]
    constructor
    · show List.Pairwise _ (strat.enqueue c.frontier _)
      rcases hstrat with rfl | rfl
      · show List.Pairwise _ (c.frontier ++ [_])
        rw [List.pairwise_append]
        refine ⟨h1, by simp, ?_⟩
        intro a ha b hb
        rw [List.mem_singleton] at hb
        subst hb
        exact hfresh a ha
      · show List.Pairwise _ (_ :: c.frontier)
        rw [List.pairwise_cons]
        refine ⟨?_, h1⟩
        intro a ha
        rw [PuzzleState.beq_comm]
        exact hfresh a ha
    · intro nd hnd
      rcases hstrat with rfl | rfl
      · rcases List.mem_append.mp hnd with hold | hnew
        · obtain ⟨e, he, hey⟩ := h2 nd hold
          exact ⟨e, List.mem_cons_of_mem _ he, hey⟩
        · rw [List.mem_singleton] at hnew
          subst hnew
          exact ⟨_, List.mem_cons_self _ _, PuzzleState.beq_refl _⟩
      · rcases List.mem_cons.mp hnd with hnew | hold
        · subst hnew
          exact ⟨_, List.mem_cons_self _ _, PuzzleState.beq_refl _⟩
        · obtain ⟨e, he, hey⟩ := h2 nd hold
          exact ⟨e, List.mem_cons_of_mem _ he, hey⟩

theorem solveLoop_frontier_inv (strat : Strategy)
    (hstrat : strat = .queue ∨ strat = .stack) (valuator : CostCalc)
    (goal : PuzzleState) :
    ∀ (fuel : Nat) (c : SolveConfig), FrontierNoDup c → FrontierInExplored c →
      FrontierNoDup (solveLoop strat valuator goal fuel c) ∧
      FrontierInExplored (solveLoop strat valuator goal fuel c) := by
  intro fuel
  induction fuel with
  | zero => exact fun c h1 h2 => ⟨h1, h2⟩
  | succ n ih =>
    intro c h1 h2
    rw [solveLoop]
    split
    · exact ⟨h1, h2⟩
    case h_2 cur rest hf =>
      have h1r : List.Pairwise (fun a b => a.state.beq b.state = false) rest := by
        have := h1
        unfold FrontierNoDup at this
        rw [hf] at this
        exact (List.pairwise_cons.mp this).2
      have h2r : ∀ nd ∈ rest, ∃ e ∈ c.explored, e.state.beq nd.state = true := by
        intro nd hnd
        exact h2 nd (by rw [hf]; exact List.mem_cons_of_mem _ hnd)
      dsimp only
      split
      · exact ⟨h1r, h2r⟩
      · have step : ∀ cc : SolveConfig, FrontierNoDup cc → FrontierInExplored cc →
            FrontierNoDup (expandNode strat valuator goal
              (expandNode strat valuator goal
                (expandNode strat valuator goal
                  (expandNode strat valuator goal cc .UP) .LEFT) .DOWN) .RIGHT) ∧
            FrontierInExplored (expandNode strat valuator goal
              (expandNode strat valuator goal
                (expandNode strat valuator goal
                  (expandNode strat valuator goal cc .UP) .LEFT) .DOWN) .RIGHT) := by
          intro cc hh1 hh2
          have e1 := expandNode_inv strat hstrat valuator goal cc .UP hh1 hh2
          have e2 := expandNode_inv strat hstrat valuator goal _ .LEFT e1.1 e1.2
          have e3 := expandNode_inv strat hstrat valuator goal _ .DOWN e2.1 e2.2
          exact expandNode_inv strat hstrat valuator goal _ .RIGHT e3.1 e3.2
        refine ih _ ?_ ?_
        · refine (step _ ?_ ?_).1
          · exact h1r
          · exact h2r
        · refine (step _ ?_ ?_).2
          · exact h1r
          · exact h2r

/-- C8: under the default (no-duplicates) admission policy — the base
`TestHeuristics` used by the breadth-first and depth-first strategies — at
every point of the `Solve` loop no two distinct nodes in the frontier carry
`operator==`-equal board states. -/
theorem solve_frontier_no_duplicate_states (strat : Strategy)
    (hstrat : strat = .queue ∨ strat = .stack) (valuator : CostCalc)
    (goal s : PuzzleState) (fuel : Nat) :
    FrontierNoDup (solveLoop strat valuator goal fuel (initConfig strat s)) := by
  have hfr : (initConfig strat s).frontier = [Node.mkRoot s] := by
    cases strat <;> rfl
  have hinit1 : FrontierNoDup (initConfig strat s) := by
    unfold FrontierNoDup
    rw [hfr]
    exact List.pairwise_singleton _ _
  have hinit2 : FrontierInExplored (initConfig strat s) := by
    intro nd hnd
    rw [hfr, List.mem_singleton] at hnd
    subst hnd
    exact ⟨_, List.mem_singleton_self _, PuzzleState.beq_refl _⟩
  exact (solveLoop_frontier_inv strat hstrat valuator goal fuel _
    hinit1 hinit2).1

/-- C8 witness: the invariant at a concrete breadth-first run. -/
theorem solve_frontier_no_duplicate_states_witness :
    (Strategy.queue = Strategy.queue ∨ Strategy.queue = Strategy.stack) ∧
    FrontierNoDup (solveLoop .queue defaultValuator goal8 3
      (initConfig .queue ⟨[1, 2, 3, 4, 5, 6, 7, 0, 8]⟩)) :=
  ⟨Or.inl rfl, solve_frontier_no_duplicate_states .queue (Or.inl rfl)
    defaultValuator goal8 ⟨[1, 2, 3, 4, 5, 6, 7, 0, 8]⟩ 3⟩

/-! ## Claim C1: the solvability check against breadth-first reachability

Mathematical apparatus: the inversion count of a plain list, and parity
facts about it under adjacent transposition and a three-element rotation.
-/

/-- Inversion count of a plain list: for each element, the number of
later, strictly smaller elements. -/
def invCount : List Nat → Nat
  | [] => 0
  | x :: xs => (xs.filter fun v => decide (v < x)).length + invCount xs

/-- The non-blank tiles of a board in reading order. -/
def nonzeroTiles (s : PuzzleState) : List Nat :=
  s.cells.filter fun v => v != 0

theorem invCount_adj_swap (l1 : List Nat) (x y : Nat) (l2 : List Nat)
    (hxy : x ≠ y) :
    (invCount (l1 ++ x :: y :: l2) + invCount (l1 ++ y :: x :: l2)) % 2
      = 1 := by
  induction l1 with
  | nil =>
    rcases Nat.lt_trichotomy x y with h | h | h
    · have h1 : ¬(y < x) := by omega
      simp [invCount, List.filter_cons, h, h1]
      omega
    · exact absurd h hxy
    · have h1 : ¬(x < y) := by omega
      simp [invCount, List.filter_cons, h, h1]
      omega
  | cons a l1 ih =>
    simp only [List.cons_append, invCount]
    have hperm : (l1 ++ x :: y :: l2).Perm (l1 ++ y :: x :: l2) :=
      List.Perm.append_left l1 (List.Perm.swap y x l2)
    have hflen : ((l1 ++ x :: y :: l2).filter fun v => decide (v < a)).length
        = ((l1 ++ y :: x :: l2).filter fun v => decide (v < a)).length :=
      (hperm.filter _).length_eq
    simp only [List.append_eq] at ih hflen ⊢
    omega

theorem invCount_rot3 (l1 : List Nat) (v x y : Nat) (l2 : List Nat)
    (hvx : v ≠ x) (hvy : v ≠ y) :
    invCount (l1 ++ v :: x :: y :: l2) % 2 =
      invCount (l1 ++ x :: y :: v :: l2) % 2 := by
  have h1 := invCount_adj_swap l1 v x (y :: l2) hvx
  have h2 := invCount_adj_swap (l1 ++ [x]) v y l2 hvy
  simp only [List.append_assoc, List.singleton_append, List.cons_append,
    List.nil_append, List.append_eq] at h1 h2 ⊢
  omega

theorem set_cons_perm : ∀ (l : List Nat) (i : Nat), i < l.length → ∀ a : Nat,
    (l.getD i 0 :: l.set i a).Perm (a :: l)
  | c :: r, 0, _, a => by
    show (c :: a :: r).Perm (a :: c :: r)
    exact List.Perm.swap a c r
  | c :: r, i + 1, h, a => by
    have hi : i < r.length := by simpa using h
    show (r.getD i 0 :: c :: r.set i a).Perm (a :: c :: r)
    have p1 : (r.getD i 0 :: c :: r.set i a).Perm
        (c :: r.getD i 0 :: r.set i a) := List.Perm.swap c (r.getD i 0) _
    have p2 : (c :: r.getD i 0 :: r.set i a).Perm (c :: a :: r) :=
      (set_cons_perm r i hi a).cons c
    have p3 : (c :: a :: r).Perm (a :: c :: r) := List.Perm.swap a c r
    exact (p1.trans p2).trans p3

theorem listSwap_perm : ∀ (l : List Nat) (b t : Nat), b < l.length →
    t < l.length → (listSwap l b t).Perm l
  | [], _, _, hb, _ => absurd hb (by simp)
  | a :: l', 0, 0, _, _ => by
    show (a :: l').Perm (a :: l')
    exact List.Perm.refl _
  | a :: l', 0, s + 1, _, ht => by
    have hs : s < l'.length := by simpa using ht
    show (l'.getD s 0 :: l'.set s a).Perm (a :: l')
    exact set_cons_perm l' s hs a
  | a :: l', r + 1, 0, hb, _ => by
    have hr : r < l'.length := by simpa using hb
    show (l'.getD r 0 :: l'.set r a).Perm (a :: l')
    exact set_cons_perm l' r hr a
  | a :: l', r + 1, s + 1, hb, ht => by
    have hr : r < l'.length := by simpa using hb
    have hs : s < l'.length := by simpa using ht
    show (a :: listSwap l' r s).Perm (a :: l')
    exact (listSwap_perm l' r s hr hs).cons a

theorem PuzzleState.valid_nodup {s : PuzzleState} (h : s.Valid) :
    s.cells.Nodup :=
  h.nodup_iff.mpr (List.nodup_range 9)

theorem valid_getD_ne (s : PuzzleState) (hv : s.Valid) (i j : Nat)
    (hi : i < 9) (hj : j < 9) (hij : i ≠ j) :
    s.cells.getD i 0 ≠ s.cells.getD j 0 := by
  have hlen := PuzzleState.valid_length hv
  have hnd := PuzzleState.valid_nodup hv
  have hi' : i < s.cells.length := by omega
  have hj' : j < s.cells.length := by omega
  rw [List.getD_eq_getElem?_getD, List.getD_eq_getElem?_getD,
    List.getElem?_eq_getElem hi', List.getElem?_eq_getElem hj']
  simp only [Option.getD_some]
  intro heq
  exact hij ((List.Nodup.getElem_inj_iff hnd).mp heq)

theorem valid_getD_ne_zero (s : PuzzleState) (hv : s.Valid) (bz j : Nat)
    (hb : bz < 9) (hj : j < 9) (hne : j ≠ bz)
    (hz : s.cells.getD bz 0 = 0) : s.cells.getD j 0 ≠ 0 := by
  intro h0
  exact valid_getD_ne s hv j bz hj hb hne (by rw [h0, hz])

/-- A board produced by swapping two in-range cells of a valid board is
valid. -/
theorem valid_listSwap {s : PuzzleState} (hv : s.Valid) (b t : Nat)
    (hb : b < 9) (ht : t < 9) : PuzzleState.Valid ⟨listSwap s.cells b t⟩ := by
  have hlen := PuzzleState.valid_length hv
  exact (listSwap_perm s.cells b t (by omega) (by omega)).trans hv

/-- One search step preserves validity and the parity of the inversion
count of the non-blank tiles (a horizontal move leaves the non-blank tile
sequence unchanged; a vertical move rotates one tile past two others). -/
theorem step_parity (s t : PuzzleState) (hv : s.Valid) (hst : Step s t) :
    t.Valid ∧ invCount (nonzeroTiles t) % 2 = invCount (nonzeroTiles s) % 2 := by
  obtain ⟨d, q, hm, ht⟩ := hst
  subst ht
  have hwf := Puzzle.ofState_WF hv
  have hb9 : (Puzzle.ofState s).blank < 9 := hwf.blank_lt
  have hz : s.cells.getD (Puzzle.ofState s).blank 0 = 0 := hwf.getD_blank
  have hlen : s.cells.length = 9 := PuzzleState.valid_length hv
  have hmz : Puzzle.moveDir ⟨s, (Puzzle.ofState s).blank⟩ d = (true, q) := hm
  clear hm hwf
  obtain ⟨B, hB⟩ : ∃ B, (Puzzle.ofState s).blank = B := ⟨_, rfl⟩
  rw [hB] at hmz hb9 hz
  clear hB
  rcases s with ⟨cells⟩
  obtain ⟨c0, c1, c2, c3, c4, c5, c6, c7, c8, hc⟩ :=
    exists_nine_cells cells hlen
  subst hc
  interval_cases B
  · -- blank at cell 0
    have hzk : c0 = 0 := hz
    have hn1 : c1 ≠ 0 := valid_getD_ne_zero _ hv 0 1 (by norm_num) (by norm_num) (by norm_num) hz
    have hn2 : c2 ≠ 0 := valid_getD_ne_zero _ hv 0 2 (by norm_num) (by norm_num) (by norm_num) hz
    have hn3 : c3 ≠ 0 := valid_getD_ne_zero _ hv 0 3 (by norm_num) (by norm_num) (by norm_num) hz
    have hn4 : c4 ≠ 0 := valid_getD_ne_zero _ hv 0 4 (by norm_num) (by norm_num) (by norm_num) hz
    have hn5 : c5 ≠ 0 := valid_getD_ne_zero _ hv 0 5 (by norm_num) (by norm_num) (by norm_num) hz
    have hn6 : c6 ≠ 0 := valid_getD_ne_zero _ hv 0 6 (by norm_num) (by norm_num) (by norm_num) hz
    have hn7 : c7 ≠ 0 := valid_getD_ne_zero _ hv 0 7 (by norm_num) (by norm_num) (by norm_num) hz
    have hn8 : c8 ≠ 0 := valid_getD_ne_zero _ hv 0 8 (by norm_num) (by norm_num) (by norm_num) hz
    cases d with
    | UP =>
      simp [Puzzle.moveDir, Puzzle.getMoveDir, Puzzle.getMoveUp, Puzzle.getMoveDown, Puzzle.getMoveLeft, Puzzle.getMoveRight, PuzzleState.n, PuzzleState.size] at hmz
    | DOWN =>
      simp [Puzzle.moveDir, Puzzle.getMoveDir, Puzzle.getMoveUp, Puzzle.getMoveDown, Puzzle.getMoveLeft, Puzzle.getMoveRight, PuzzleState.n, PuzzleState.size] at hmz
      subst hmz
      rw [show (Puzzle.swap ⟨⟨[c0, c1, c2, c3, c4, c5, c6, c7, c8]⟩, 0⟩ 3).state = ⟨[c3, c1, c2, c0, c4, c5, c6, c7, c8]⟩ from rfl]
      have hd1 : c3 ≠ c1 := valid_getD_ne _ hv 3 1 (by norm_num) (by norm_num) (by norm_num)
      have hd2 : c3 ≠ c2 := valid_getD_ne _ hv 3 2 (by norm_num) (by norm_num) (by norm_num)
      refine ⟨valid_listSwap hv 0 3 (by norm_num) (by norm_num), ?_⟩
      simp only [nonzeroTiles]
      rw [hzk]
      simp [List.filter_cons, hn1, hn2, hn3, hn4, hn5, hn6, hn7, hn8]
      exact invCount_rot3 [] c3 c1 c2 [c4, c5, c6, c7, c8] hd1 hd2
    | LEFT =>
      simp [Puzzle.moveDir, Puzzle.getMoveDir, Puzzle.getMoveUp, Puzzle.getMoveDown, Puzzle.getMoveLeft, Puzzle.getMoveRight, PuzzleState.n, PuzzleState.size] at hmz
    | RIGHT =>
      simp [Puzzle.moveDir, Puzzle.getMoveDir, Puzzle.getMoveUp, Puzzle.getMoveDown, Puzzle.getMoveLeft, Puzzle.getMoveRight, PuzzleState.n, PuzzleState.size] at hmz
      subst hmz
      rw [show (Puzzle.swap ⟨⟨[c0, c1, c2, c3, c4, c5, c6, c7, c8]⟩, 0⟩ 1).state = ⟨[c1, c0, c2, c3, c4, c5, c6, c7, c8]⟩ from rfl]
      refine ⟨valid_listSwap hv 0 1 (by norm_num) (by norm_num), ?_⟩
      simp only [nonzeroTiles]
      rw [hzk]
      simp [List.filter_cons, hn1, hn2, hn3, hn4, hn5, hn6, hn7, hn8]
  · -- blank at cell 1
    have hzk : c1 = 0 := hz
    have hn0 : c0 ≠ 0 := valid_getD_ne_zero _ hv 1 0 (by norm_num) (by norm_num) (by norm_num) hz
    have hn2 : c2 ≠ 0 := valid_getD_ne_zero _ hv 1 2 (by norm_num) (by norm_num) (by norm_num) hz
    have hn3 : c3 ≠ 0 := valid_getD_ne_zero _ hv 1 3 (by norm_num) (by norm_num) (by norm_num) hz
    have hn4 : c4 ≠ 0 := valid_getD_ne_zero _ hv 1 4 (by norm_num) (by norm_num) (by norm_num) hz
    have hn5 : c5 ≠ 0 := valid_getD_ne_zero _ hv 1 5 (by norm_num) (by norm_num) (by norm_num) hz
    have hn6 : c6 ≠ 0 := valid_getD_ne_zero _ hv 1 6 (by norm_num) (by norm_num) (by norm_num) hz
    have hn7 : c7 ≠ 0 := valid_getD_ne_zero _ hv 1 7 (by norm_num) (by norm_num) (by norm_num) hz
    have hn8 : c8 ≠ 0 := valid_getD_ne_zero _ hv 1 8 (by norm_num) (by norm_num) (by norm_num) hz
    cases d with
    | UP =>
      simp [Puzzle.moveDir, Puzzle.getMoveDir, Puzzle.getMoveUp, Puzzle.getMoveDown, Puzzle.getMoveLeft, Puzzle.getMoveRight, PuzzleState.n, PuzzleState.size] at hmz
    | DOWN =>
      simp [Puzzle.moveDir, Puzzle.getMoveDir, Puzzle.getMoveUp, Puzzle.getMoveDown, Puzzle.getMoveLeft, Puzzle.getMoveRight, PuzzleState.n, PuzzleState.size] at hmz
      subst hmz
      rw [show (Puzzle.swap ⟨⟨[c0, c1, c2, c3, c4, c5, c6, c7, c8]⟩, 1⟩ 4).state = ⟨[c0, c4, c2, c3, c1, c5, c6, c7, c8]⟩ from rfl]
      have hd1 : c4 ≠ c2 := valid_getD_ne _ hv 4 2 (by norm_num) (by norm_num) (by norm_num)
      have hd2 : c4 ≠ c3 := valid_getD_ne _ hv 4 3 (by norm_num) (by norm_num) (by norm_num)
      refine ⟨valid_listSwap hv 1 4 (by norm_num) (by norm_num), ?_⟩
      simp only [nonzeroTiles]
      rw [hzk]
      simp [List.filter_cons, hn0, hn2, hn3, hn4, hn5, hn6, hn7, hn8]
      exact invCount_rot3 [c0] c4 c2 c3 [c5, c6, c7, c8] hd1 hd2
    | LEFT =>
      simp [Puzzle.moveDir, Puzzle.getMoveDir, Puzzle.getMoveUp, Puzzle.getMoveDown, Puzzle.getMoveLeft, Puzzle.getMoveRight, PuzzleState.n, PuzzleState.size] at hmz
      subst hmz
      rw [show (Puzzle.swap ⟨⟨[c0, c1, c2, c3, c4, c5, c6, c7, c8]⟩, 1⟩ 0).state = ⟨[c1, c0, c2, c3, c4, c5, c6, c7, c8]⟩ from rfl]
      refine ⟨valid_listSwap hv 1 0 (by norm_num) (by norm_num), ?_⟩
      simp only [nonzeroTiles]
      rw [hzk]
      simp [List.filter_cons, hn0, hn2, hn3, hn4, hn5, hn6, hn7, hn8]
    | RIGHT =>
      simp [Puzzle.moveDir, Puzzle.getMoveDir, Puzzle.getMoveUp, Puzzle.getMoveDown, Puzzle.getMoveLeft, Puzzle.getMoveRight, PuzzleState.n, PuzzleState.size] at hmz
      subst hmz
      rw [show (Puzzle.swap ⟨⟨[c0, c1, c2, c3, c4, c5, c6, c7, c8]⟩, 1⟩ 2).state = ⟨[c0, c2, c1, c3, c4, c5, c6, c7, c8]⟩ from rfl]
      refine ⟨valid_listSwap hv 1 2 (by norm_num) (by norm_num), ?_⟩
      simp only [nonzeroTiles]
      rw [hzk]
      simp [List.filter_cons, hn0, hn2, hn3, hn4, hn5, hn6, hn7, hn8]
  · -- blank at cell 2
    have hzk : c2 = 0 := hz
    have hn0 : c0 ≠ 0 := valid_getD_ne_zero _ hv 2 0 (by norm_num) (by norm_num) (by norm_num) hz
    have hn1 : c1 ≠ 0 := valid_getD_ne_zero _ hv 2 1 (by norm_num) (by norm_num) (by norm_num) hz
    have hn3 : c3 ≠ 0 := valid_getD_ne_zero _ hv 2 3 (by norm_num) (by norm_num) (by norm_num) hz
    have hn4 : c4 ≠ 0 := valid_getD_ne_zero _ hv 2 4 (by norm_num) (by norm_num) (by norm_num) hz
    have hn5 : c5 ≠ 0 := valid_getD_ne_zero _ hv 2 5 (by norm_num) (by norm_num) (by norm_num) hz
    have hn6 : c6 ≠ 0 := valid_getD_ne_zero _ hv 2 6 (by norm_num) (by norm_num) (by norm_num) hz
    have hn7 : c7 ≠ 0 := valid_getD_ne_zero _ hv 2 7 (by norm_num) (by norm_num) (by norm_num) hz
    have hn8 : c8 ≠ 0 := valid_getD_ne_zero _ hv 2 8 (by norm_num) (by norm_num) (by norm_num) hz
    cases d with
    | UP =>
      simp [Puzzle.moveDir, Puzzle.getMoveDir, Puzzle.getMoveUp, Puzzle.getMoveDown, Puzzle.getMoveLeft, Puzzle.getMoveRight, PuzzleState.n, PuzzleState.size] at hmz
    | DOWN =>
      simp [Puzzle.moveDir, Puzzle.getMoveDir, Puzzle.getMoveUp, Puzzle.getMoveDown, Puzzle.getMoveLeft, Puzzle.getMoveRight, PuzzleState.n, PuzzleState.size] at hmz
      subst hmz
      rw [show (Puzzle.swap ⟨⟨[c0, c1, c2, c3, c4, c5, c6, c7, c8]⟩, 2⟩ 5).state = ⟨[c0, c1, c5, c3, c4, c2, c6, c7, c8]⟩ from rfl]
      have hd1 : c5 ≠ c3 := valid_getD_ne _ hv 5 3 (by norm_num) (by norm_num) (by norm_num)
      have hd2 : c5 ≠ c4 := valid_getD_ne _ hv 5 4 (by norm_num) (by norm_num) (by norm_num)
      refine ⟨valid_listSwap hv 2 5 (by norm_num) (by norm_num), ?_⟩
      simp only [nonzeroTiles]
      rw [hzk]
      simp [List.filter_cons, hn0, hn1, hn3, hn4, hn5, hn6, hn7, hn8]
      exact invCount_rot3 [c0, c1] c5 c3 c4 [c6, c7, c8] hd1 hd2
    | LEFT =>
      simp [Puzzle.moveDir, Puzzle.getMoveDir, Puzzle.getMoveUp, Puzzle.getMoveDown, Puzzle.getMoveLeft, Puzzle.getMoveRight, PuzzleState.n, PuzzleState.size] at hmz
      subst hmz
      rw [show (Puzzle.swap ⟨⟨[c0, c1, c2, c3, c4, c5, c6, c7, c8]⟩, 2⟩ 1).state = ⟨[c0, c2, c1, c3, c4, c5, c6, c7, c8]⟩ from rfl]
      refine ⟨valid_listSwap hv 2 1 (by norm_num) (by norm_num), ?_⟩
      simp only [nonzeroTiles]
      rw [hzk]
      simp [List.filter_cons, hn0, hn1, hn3, hn4, hn5, hn6, hn7, hn8]
    | RIGHT =>
      simp [Puzzle.moveDir, Puzzle.getMoveDir, Puzzle.getMoveUp, Puzzle.getMoveDown, Puzzle.getMoveLeft, Puzzle.getMoveRight, PuzzleState.n, PuzzleState.size] at hmz
  · -- blank at cell 3
    have hzk : c3 = 0 := hz
    have hn0 : c0 ≠ 0 := valid_getD_ne_zero _ hv 3 0 (by norm_num) (by norm_num) (by norm_num) hz
    have hn1 : c1 ≠ 0 := valid_getD_ne_zero _ hv 3 1 (by norm_num) (by norm_num) (by norm_num) hz
    have hn2 : c2 ≠ 0 := valid_getD_ne_zero _ hv 3 2 (by norm_num) (by norm_num) (by norm_num) hz
    have hn4 : c4 ≠ 0 := valid_getD_ne_zero _ hv 3 4 (by norm_num) (by norm_num) (by norm_num) hz
    have hn5 : c5 ≠ 0 := valid_getD_ne_zero _ hv 3 5 (by norm_num) (by norm_num) (by norm_num) hz
    have hn6 : c6 ≠ 0 := valid_getD_ne_zero _ hv 3 6 (by norm_num) (by norm_num) (by norm_num) hz
    have hn7 : c7 ≠ 0 := valid_getD_ne_zero _ hv 3 7 (by norm_num) (by norm_num) (by norm_num) hz
    have hn8 : c8 ≠ 0 := valid_getD_ne_zero _ hv 3 8 (by norm_num) (by norm_num) (by norm_num) hz
    cases d with
    | UP =>
      simp [Puzzle.moveDir, Puzzle.getMoveDir, Puzzle.getMoveUp, Puzzle.getMoveDown, Puzzle.getMoveLeft, Puzzle.getMoveRight, PuzzleState.n, PuzzleState.size] at hmz
      subst hmz
      rw [show (Puzzle.swap ⟨⟨[c0, c1, c2, c3, c4, c5, c6, c7, c8]⟩, 3⟩ 0).state = ⟨[c3, c1, c2, c0, c4, c5, c6, c7, c8]⟩ from rfl]
      have hd1 : c0 ≠ c1 := valid_getD_ne _ hv 0 1 (by norm_num) (by norm_num) (by norm_num)
      have hd2 : c0 ≠ c2 := valid_getD_ne _ hv 0 2 (by norm_num) (by norm_num) (by norm_num)
      refine ⟨valid_listSwap hv 3 0 (by norm_num) (by norm_num), ?_⟩
      simp only [nonzeroTiles]
      rw [hzk]
      simp [List.filter_cons, hn0, hn1, hn2, hn4, hn5, hn6, hn7, hn8]
      exact (invCount_rot3 [] c0 c1 c2 [c4, c5, c6, c7, c8] hd1 hd2).symm
    | DOWN =>
      simp [Puzzle.moveDir, Puzzle.getMoveDir, Puzzle.getMoveUp, Puzzle.getMoveDown, Puzzle.getMoveLeft, Puzzle.getMoveRight, PuzzleState.n, PuzzleState.size] at hmz
      subst hmz
      rw [show (Puzzle.swap ⟨⟨[c0, c1, c2, c3, c4, c5, c6, c7, c8]⟩, 3⟩ 6).state = ⟨[c0, c1, c2, c6, c4, c5, c3, c7, c8]⟩ from rfl]
      have hd1 : c6 ≠ c4 := valid_getD_ne _ hv 6 4 (by norm_num) (by norm_num) (by norm_num)
      have hd2 : c6 ≠ c5 := valid_getD_ne _ hv 6 5 (by norm_num) (by norm_num) (by norm_num)
      refine ⟨valid_listSwap hv 3 6 (by norm_num) (by norm_num), ?_⟩
      simp only [nonzeroTiles]
      rw [hzk]
      simp [List.filter_cons, hn0, hn1, hn2, hn4, hn5, hn6, hn7, hn8]
      exact invCount_rot3 [c0, c1, c2] c6 c4 c5 [c7, c8] hd1 hd2
    | LEFT =>
      simp [Puzzle.moveDir, Puzzle.getMoveDir, Puzzle.getMoveUp, Puzzle.getMoveDown, Puzzle.getMoveLeft, Puzzle.getMoveRight, PuzzleState.n, PuzzleState.size] at hmz
    | RIGHT =>
      simp [Puzzle.moveDir, Puzzle.getMoveDir, Puzzle.getMoveUp, Puzzle.getMoveDown, Puzzle.getMoveLeft, Puzzle.getMoveRight, PuzzleState.n, PuzzleState.size] at hmz
      subst hmz
      rw [show (Puzzle.swap ⟨⟨[c0, c1, c2, c3, c4, c5, c6, c7, c8]⟩, 3⟩ 4).state = ⟨[c0, c1, c2, c4, c3, c5, c6, c7, c8]⟩ from rfl]
      refine ⟨valid_listSwap hv 3 4 (by norm_num) (by norm_num), ?_⟩
      simp only [nonzeroTiles]
      rw [hzk]
      simp [List.filter_cons, hn0, hn1, hn2, hn4, hn5, hn6, hn7, hn8]
  · -- blank at cell 4
    have hzk : c4 = 0 := hz
    have hn0 : c0 ≠ 0 := valid_getD_ne_zero _ hv 4 0 (by norm_num) (by norm_num) (by norm_num) hz
    have hn1 : c1 ≠ 0 := valid_getD_ne_zero _ hv 4 1 (by norm_num) (by norm_num) (by norm_num) hz
    have hn2 : c2 ≠ 0 := valid_getD_ne_zero _ hv 4 2 (by norm_num) (by norm_num) (by norm_num) hz
    have hn3 : c3 ≠ 0 := valid_getD_ne_zero _ hv 4 3 (by norm_num) (by norm_num) (by norm_num) hz
    have hn5 : c5 ≠ 0 := valid_getD_ne_zero _ hv 4 5 (by norm_num) (by norm_num) (by norm_num) hz
    have hn6 : c6 ≠ 0 := valid_getD_ne_zero _ hv 4 6 (by norm_num) (by norm_num) (by norm_num) hz
    have hn7 : c7 ≠ 0 := valid_getD_ne_zero _ hv 4 7 (by norm_num) (by norm_num) (by norm_num) hz
    have hn8 : c8 ≠ 0 := valid_getD_ne_zero _ hv 4 8 (by norm_num) (by norm_num) (by norm_num) hz
    cases d with
    | UP =>
      simp [Puzzle.moveDir, Puzzle.getMoveDir, Puzzle.getMoveUp, Puzzle.getMoveDown, Puzzle.getMoveLeft, Puzzle.getMoveRight, PuzzleState.n, PuzzleState.size] at hmz
      subst hmz
      rw [show (Puzzle.swap ⟨⟨[c0, c1, c2, c3, c4, c5, c6, c7, c8]⟩, 4⟩ 1).state = ⟨[c0, c4, c2, c3, c1, c5, c6, c7, c8]⟩ from rfl]
      have hd1 : c1 ≠ c2 := valid_getD_ne _ hv 1 2 (by norm_num) (by norm_num) (by norm_num)
      have hd2 : c1 ≠ c3 := valid_getD_ne _ hv 1 3 (by norm_num) (by norm_num) (by norm_num)
      refine ⟨valid_listSwap hv 4 1 (by norm_num) (by norm_num), ?_⟩
      simp only [nonzeroTiles]
      rw [hzk]
      simp [List.filter_cons, hn0, hn1, hn2, hn3, hn5, hn6, hn7, hn8]
      exact (invCount_rot3 [c0] c1 c2 c3 [c5, c6, c7, c8] hd1 hd2).symm
    | DOWN =>
      simp [Puzzle.moveDir, Puzzle.getMoveDir, Puzzle.getMoveUp, Puzzle.getMoveDown, Puzzle.getMoveLeft, Puzzle.getMoveRight, PuzzleState.n, PuzzleState.size] at hmz
      subst hmz
      rw [show (Puzzle.swap ⟨⟨[c0, c1, c2, c3, c4, c5, c6, c7, c8]⟩, 4⟩ 7).state = ⟨[c0, c1, c2, c3, c7, c5, c6, c4, c8]⟩ from rfl]
      have hd1 : c7 ≠ c5 := valid_getD_ne _ hv 7 5 (by norm_num) (by norm_num) (by norm_num)
      have hd2 : c7 ≠ c6 := valid_getD_ne _ hv 7 6 (by norm_num) (by norm_num) (by norm_num)
      refine ⟨valid_listSwap hv 4 7 (by norm_num) (by norm_num), ?_⟩
      simp only [nonzeroTiles]
      rw [hzk]
      simp [List.filter_cons, hn0, hn1, hn2, hn3, hn5, hn6, hn7, hn8]
      exact invCount_rot3 [c0, c1, c2, c3] c7 c5 c6 [c8] hd1 hd2
    | LEFT =>
      simp [Puzzle.moveDir, Puzzle.getMoveDir, Puzzle.getMoveUp, Puzzle.getMoveDown, Puzzle.getMoveLeft, Puzzle.getMoveRight, PuzzleState.n, PuzzleState.size] at hmz
      subst hmz
      rw [show (Puzzle.swap ⟨⟨[c0, c1, c2, c3, c4, c5, c6, c7, c8]⟩, 4⟩ 3).state = ⟨[c0, c1, c2, c4, c3, c5, c6, c7, c8]⟩ from rfl]
      refine ⟨valid_listSwap hv 4 3 (by norm_num) (by norm_num), ?_⟩
      simp only [nonzeroTiles]
      rw [hzk]
      simp [List.filter_cons, hn0, hn1, hn2, hn3, hn5, hn6, hn7, hn8]
    | RIGHT =>
      simp [Puzzle.moveDir, Puzzle.getMoveDir, Puzzle.getMoveUp, Puzzle.getMoveDown, Puzzle.getMoveLeft, Puzzle.getMoveRight, PuzzleState.n, PuzzleState.size] at hmz
      subst hmz
      rw [show (Puzzle.swap ⟨⟨[c0, c1, c2, c3, c4, c5, c6, c7, c8]⟩, 4⟩ 5).state = ⟨[c0, c1, c2, c3, c5, c4, c6, c7, c8]⟩ from rfl]
      refine ⟨valid_listSwap hv 4 5 (by norm_num) (by norm_num), ?_⟩
      simp only [nonzeroTiles]
      rw [hzk]
      simp [List.filter_cons, hn0, hn1, hn2, hn3, hn5, hn6, hn7, hn8]
  · -- blank at cell 5
    have hzk : c5 = 0 := hz
    have hn0 : c0 ≠ 0 := valid_getD_ne_zero _ hv 5 0 (by norm_num) (by norm_num) (by norm_num) hz
    have hn1 : c1 ≠ 0 := valid_getD_ne_zero _ hv 5 1 (by norm_num) (by norm_num) (by norm_num) hz
    have hn2 : c2 ≠ 0 := valid_getD_ne_zero _ hv 5 2 (by norm_num) (by norm_num) (by norm_num) hz
    have hn3 : c3 ≠ 0 := valid_getD_ne_zero _ hv 5 3 (by norm_num) (by norm_num) (by norm_num) hz
    have hn4 : c4 ≠ 0 := valid_getD_ne_zero _ hv 5 4 (by norm_num) (by norm_num) (by norm_num) hz
    have hn6 : c6 ≠ 0 := valid_getD_ne_zero _ hv 5 6 (by norm_num) (by norm_num) (by norm_num) hz
    have hn7 : c7 ≠ 0 := valid_getD_ne_zero _ hv 5 7 (by norm_num) (by norm_num) (by norm_num) hz
    have hn8 : c8 ≠ 0 := valid_getD_ne_zero _ hv 5 8 (by norm_num) (by norm_num) (by norm_num) hz
    cases d with
    | UP =>
      simp [Puzzle.moveDir, Puzzle.getMoveDir, Puzzle.getMoveUp, Puzzle.getMoveDown, Puzzle.getMoveLeft, Puzzle.getMoveRight, PuzzleState.n, PuzzleState.size] at hmz
      subst hmz
      rw [show (Puzzle.swap ⟨⟨[c0, c1, c2, c3, c4, c5, c6, c7, c8]⟩, 5⟩ 2).state = ⟨[c0, c1, c5, c3, c4, c2, c6, c7, c8]⟩ from rfl]
      have hd1 : c2 ≠ c3 := valid_getD_ne _ hv 2 3 (by norm_num) (by norm_num) (by norm_num)
      have hd2 : c2 ≠ c4 := valid_getD_ne _ hv 2 4 (by norm_num) (by norm_num) (by norm_num)
      refine ⟨valid_listSwap hv 5 2 (by norm_num) (by norm_num), ?_⟩
      simp only [nonzeroTiles]
      rw [hzk]
      simp [List.filter_cons, hn0, hn1, hn2, hn3, hn4, hn6, hn7, hn8]
      exact (invCount_rot3 [c0, c1] c2 c3 c4 [c6, c7, c8] hd1 hd2).symm
    | DOWN =>
      simp [Puzzle.moveDir, Puzzle.getMoveDir, Puzzle.getMoveUp, Puzzle.getMoveDown, Puzzle.getMoveLeft, Puzzle.getMoveRight, PuzzleState.n, PuzzleState.size] at hmz
      subst hmz
      rw [show (Puzzle.swap ⟨⟨[c0, c1, c2, c3, c4, c5, c6, c7, c8]⟩, 5⟩ 8).state = ⟨[c0, c1, c2, c3, c4, c8, c6, c7, c5]⟩ from rfl]
      have hd1 : c8 ≠ c6 := valid_getD_ne _ hv 8 6 (by norm_num) (by norm_num) (by norm_num)
      have hd2 : c8 ≠ c7 := valid_getD_ne _ hv 8 7 (by norm_num) (by norm_num) (by norm_num)
      refine ⟨valid_listSwap hv 5 8 (by norm_num) (by norm_num), ?_⟩
      simp only [nonzeroTiles]
      rw [hzk]
      simp [List.filter_cons, hn0, hn1, hn2, hn3, hn4, hn6, hn7, hn8]
      exact invCount_rot3 [c0, c1, c2, c3, c4] c8 c6 c7 [] hd1 hd2
    | LEFT =>
      simp [Puzzle.moveDir, Puzzle.getMoveDir, Puzzle.getMoveUp, Puzzle.getMoveDown, Puzzle.getMoveLeft, Puzzle.getMoveRight, PuzzleState.n, PuzzleState.size] at hmz
      subst hmz
      rw [show (Puzzle.swap ⟨⟨[c0, c1, c2, c3, c4, c5, c6, c7, c8]⟩, 5⟩ 4).state = ⟨[c0, c1, c2, c3, c5, c4, c6, c7, c8]⟩ from rfl]
      refine ⟨valid_listSwap hv 5 4 (by norm_num) (by norm_num), ?_⟩
      simp only [nonzeroTiles]
      rw [hzk]
      simp [List.filter_cons, hn0, hn1, hn2, hn3, hn4, hn6, hn7, hn8]
    | RIGHT =>
      simp [Puzzle.moveDir, Puzzle.getMoveDir, Puzzle.getMoveUp, Puzzle.getMoveDown, Puzzle.getMoveLeft, Puzzle.getMoveRight, PuzzleState.n, PuzzleState.size] at hmz
  · -- blank at cell 6
    have hzk : c6 = 0 := hz
    have hn0 : c0 ≠ 0 := valid_getD_ne_zero _ hv 6 0 (by norm_num) (by norm_num) (by norm_num) hz
    have hn1 : c1 ≠ 0 := valid_getD_ne_zero _ hv 6 1 (by norm_num) (by norm_num) (by norm_num) hz
    have hn2 : c2 ≠ 0 := valid_getD_ne_zero _ hv 6 2 (by norm_num) (by norm_num) (by norm_num) hz
    have hn3 : c3 ≠ 0 := valid_getD_ne_zero _ hv 6 3 (by norm_num) (by norm_num) (by norm_num) hz
    have hn4 : c4 ≠ 0 := valid_getD_ne_zero _ hv 6 4 (by norm_num) (by norm_num) (by norm_num) hz
    have hn5 : c5 ≠ 0 := valid_getD_ne_zero _ hv 6 5 (by norm_num) (by norm_num) (by norm_num) hz
    have hn7 : c7 ≠ 0 := valid_getD_ne_zero _ hv 6 7 (by norm_num) (by norm_num) (by norm_num) hz
    have hn8 : c8 ≠ 0 := valid_getD_ne_zero _ hv 6 8 (by norm_num) (by norm_num) (by norm_num) hz
    cases d with
    | UP =>
      simp [Puzzle.moveDir, Puzzle.getMoveDir, Puzzle.getMoveUp, Puzzle.getMoveDown, Puzzle.getMoveLeft, Puzzle.getMoveRight, PuzzleState.n, PuzzleState.size] at hmz
      subst hmz
      rw [show (Puzzle.swap ⟨⟨[c0, c1, c2, c3, c4, c5, c6, c7, c8]⟩, 6⟩ 3).state = ⟨[c0, c1, c2, c6, c4, c5, c3, c7, c8]⟩ from rfl]
      have hd1 : c3 ≠ c4 := valid_getD_ne _ hv 3 4 (by norm_num) (by norm_num) (by norm_num)
      have hd2 : c3 ≠ c5 := valid_getD_ne _ hv 3 5 (by norm_num) (by norm_num) (by norm_num)
      refine ⟨valid_listSwap hv 6 3 (by norm_num) (by norm_num), ?_⟩
      simp only [nonzeroTiles]
      rw [hzk]
      simp [List.filter_cons, hn0, hn1, hn2, hn3, hn4, hn5, hn7, hn8]
      exact (invCount_rot3 [c0, c1, c2] c3 c4 c5 [c7, c8] hd1 hd2).symm
    | DOWN =>
      simp [Puzzle.moveDir, Puzzle.getMoveDir, Puzzle.getMoveUp, Puzzle.getMoveDown, Puzzle.getMoveLeft, Puzzle.getMoveRight, PuzzleState.n, PuzzleState.size] at hmz
    | LEFT =>
      simp [Puzzle.moveDir, Puzzle.getMoveDir, Puzzle.getMoveUp, Puzzle.getMoveDown, Puzzle.getMoveLeft, Puzzle.getMoveRight, PuzzleState.n, PuzzleState.size] at hmz
    | RIGHT =>
      simp [Puzzle.moveDir, Puzzle.getMoveDir, Puzzle.getMoveUp, Puzzle.getMoveDown, Puzzle.getMoveLeft, Puzzle.getMoveRight, PuzzleState.n, PuzzleState.size] at hmz
      subst hmz
      rw [show (Puzzle.swap ⟨⟨[c0, c1, c2, c3, c4, c5, c6, c7, c8]⟩, 6⟩ 7).state = ⟨[c0, c1, c2, c3, c4, c5, c7, c6, c8]⟩ from rfl]
      refine ⟨valid_listSwap hv 6 7 (by norm_num) (by norm_num), ?_⟩
      simp only [nonzeroTiles]
      rw [hzk]
      simp [List.filter_cons, hn0, hn1, hn2, hn3, hn4, hn5, hn7, hn8]
  · -- blank at cell 7
    have hzk : c7 = 0 := hz
    have hn0 : c0 ≠ 0 := valid_getD_ne_zero _ hv 7 0 (by norm_num) (by norm_num) (by norm_num) hz
    have hn1 : c1 ≠ 0 := valid_getD_ne_zero _ hv 7 1 (by norm_num) (by norm_num) (by norm_num) hz
    have hn2 : c2 ≠ 0 := valid_getD_ne_zero _ hv 7 2 (by norm_num) (by norm_num) (by norm_num) hz
    have hn3 : c3 ≠ 0 := valid_getD_ne_zero _ hv 7 3 (by norm_num) (by norm_num) (by norm_num) hz
    have hn4 : c4 ≠ 0 := valid_getD_ne_zero _ hv 7 4 (by norm_num) (by norm_num) (by norm_num) hz
    have hn5 : c5 ≠ 0 := valid_getD_ne_zero _ hv 7 5 (by norm_num) (by norm_num) (by norm_num) hz
    have hn6 : c6 ≠ 0 := valid_getD_ne_zero _ hv 7 6 (by norm_num) (by norm_num) (by norm_num) hz
    have hn8 : c8 ≠ 0 := valid_getD_ne_zero _ hv 7 8 (by norm_num) (by norm_num) (by norm_num) hz
    cases d with
    | UP =>
      simp [Puzzle.moveDir, Puzzle.getMoveDir, Puzzle.getMoveUp, Puzzle.getMoveDown, Puzzle.getMoveLeft, Puzzle.getMoveRight, PuzzleState.n, PuzzleState.size] at hmz
      subst hmz
      rw [show (Puzzle.swap ⟨⟨[c0, c1, c2, c3, c4, c5, c6, c7, c8]⟩, 7⟩ 4).state = ⟨[c0, c1, c2, c3, c7, c5, c6, c4, c8]⟩ from rfl]
      have hd1 : c4 ≠ c5 := valid_getD_ne _ hv 4 5 (by norm_num) (by norm_num) (by norm_num)
      have hd2 : c4 ≠ c6 := valid_getD_ne _ hv 4 6 (by norm_num) (by norm_num) (by norm_num)
      refine ⟨valid_listSwap hv 7 4 (by norm_num) (by norm_num), ?_⟩
      simp only [nonzeroTiles]
      rw [hzk]
      simp [List.filter_cons, hn0, hn1, hn2, hn3, hn4, hn5, hn6, hn8]
      exact (invCount_rot3 [c0, c1, c2, c3] c4 c5 c6 [c8] hd1 hd2).symm
    | DOWN =>
      simp [Puzzle.moveDir, Puzzle.getMoveDir, Puzzle.getMoveUp, Puzzle.getMoveDown, Puzzle.getMoveLeft, Puzzle.getMoveRight, PuzzleState.n, PuzzleState.size] at hmz
    | LEFT =>
      simp [Puzzle.moveDir, Puzzle.getMoveDir, Puzzle.getMoveUp, Puzzle.getMoveDown, Puzzle.getMoveLeft, Puzzle.getMoveRight, PuzzleState.n, PuzzleState.size] at hmz
      subst hmz
      rw [show (Puzzle.swap ⟨⟨[c0, c1, c2, c3, c4, c5, c6, c7, c8]⟩, 7⟩ 6).state = ⟨[c0, c1, c2, c3, c4, c5, c7, c6, c8]⟩ from rfl]
      refine ⟨valid_listSwap hv 7 6 (by norm_num) (by norm_num), ?_⟩
      simp only [nonzeroTiles]
      rw [hzk]
      simp [List.filter_cons, hn0, hn1, hn2, hn3, hn4, hn5, hn6, hn8]
    | RIGHT =>
      simp [Puzzle.moveDir, Puzzle.getMoveDir, Puzzle.getMoveUp, Puzzle.getMoveDown, Puzzle.getMoveLeft, Puzzle.getMoveRight, PuzzleState.n, PuzzleState.size] at hmz
      subst hmz
      rw [show (Puzzle.swap ⟨⟨[c0, c1, c2, c3, c4, c5, c6, c7, c8]⟩, 7⟩ 8).state = ⟨[c0, c1, c2, c3, c4, c5, c6, c8, c7]⟩ from rfl]
      refine ⟨valid_listSwap hv 7 8 (by norm_num) (by norm_num), ?_⟩
      simp only [nonzeroTiles]
      rw [hzk]
      simp [List.filter_cons, hn0, hn1, hn2, hn3, hn4, hn5, hn6, hn8]
  · -- blank at cell 8
    have hzk : c8 = 0 := hz
    have hn0 : c0 ≠ 0 := valid_getD_ne_zero _ hv 8 0 (by norm_num) (by norm_num) (by norm_num) hz
    have hn1 : c1 ≠ 0 := valid_getD_ne_zero _ hv 8 1 (by norm_num) (by norm_num) (by norm_num) hz
    have hn2 : c2 ≠ 0 := valid_getD_ne_zero _ hv 8 2 (by norm_num) (by norm_num) (by norm_num) hz
    have hn3 : c3 ≠ 0 := valid_getD_ne_zero _ hv 8 3 (by norm_num) (by norm_num) (by norm_num) hz
    have hn4 : c4 ≠ 0 := valid_getD_ne_zero _ hv 8 4 (by norm_num) (by norm_num) (by norm_num) hz
    have hn5 : c5 ≠ 0 := valid_getD_ne_zero _ hv 8 5 (by norm_num) (by norm_num) (by norm_num) hz
    have hn6 : c6 ≠ 0 := valid_getD_ne_zero _ hv 8 6 (by norm_num) (by norm_num) (by norm_num) hz
    have hn7 : c7 ≠ 0 := valid_getD_ne_zero _ hv 8 7 (by norm_num) (by norm_num) (by norm_num) hz
    cases d with
    | UP =>
      simp [Puzzle.moveDir, Puzzle.getMoveDir, Puzzle.getMoveUp, Puzzle.getMoveDown, Puzzle.getMoveLeft, Puzzle.getMoveRight, PuzzleState.n, PuzzleState.size] at hmz
      subst hmz
      rw [show (Puzzle.swap ⟨⟨[c0, c1, c2, c3, c4, c5, c6, c7, c8]⟩, 8⟩ 5).state = ⟨[c0, c1, c2, c3, c4, c8, c6, c7, c5]⟩ from rfl]
      have hd1 : c5 ≠ c6 := valid_getD_ne _ hv 5 6 (by norm_num) (by norm_num) (by norm_num)
      have hd2 : c5 ≠ c7 := valid_getD_ne _ hv 5 7 (by norm_num) (by norm_num) (by norm_num)
      refine ⟨valid_listSwap hv 8 5 (by norm_num) (by norm_num), ?_⟩
      simp only [nonzeroTiles]
      rw [hzk]
      simp [List.filter_cons, hn0, hn1, hn2, hn3, hn4, hn5, hn6, hn7]
      exact (invCount_rot3 [c0, c1, c2, c3, c4] c5 c6 c7 [] hd1 hd2).symm
    | DOWN =>
      simp [Puzzle.moveDir, Puzzle.getMoveDir, Puzzle.getMoveUp, Puzzle.getMoveDown, Puzzle.getMoveLeft, Puzzle.getMoveRight, PuzzleState.n, PuzzleState.size] at hmz
    | LEFT =>
      simp [Puzzle.moveDir, Puzzle.getMoveDir, Puzzle.getMoveUp, Puzzle.getMoveDown, Puzzle.getMoveLeft, Puzzle.getMoveRight, PuzzleState.n, PuzzleState.size] at hmz
      subst hmz
      rw [show (Puzzle.swap ⟨⟨[c0, c1, c2, c3, c4, c5, c6, c7, c8]⟩, 8⟩ 7).state = ⟨[c0, c1, c2, c3, c4, c5, c6, c8, c7]⟩ from rfl]
      refine ⟨valid_listSwap hv 8 7 (by norm_num) (by norm_num), ?_⟩
      simp only [nonzeroTiles]
      rw [hzk]
      simp [List.filter_cons, hn0, hn1, hn2, hn3, hn4, hn5, hn6, hn7]
    | RIGHT =>
      simp [Puzzle.moveDir, Puzzle.getMoveDir, Puzzle.getMoveUp, Puzzle.getMoveDown, Puzzle.getMoveLeft, Puzzle.getMoveRight, PuzzleState.n, PuzzleState.size] at hmz

/-- The per-cell contribution sum in the shape of the source's
`Inversions` loop, but guarded by `x ≠ 0` at every cell. -/
def suffixSum : List Nat → Nat
  | [] => 0
  | x :: xs =>
    (if x ≠ 0 then (xs.filter fun v => v != 0 && decide (v < x)).length else 0)
      + suffixSum xs

theorem filter_lt_and_ne (l : List Nat) (x : Nat) :
    (l.filter fun v => decide (v < x) && (v != 0)) =
      (l.filter fun v => (v != 0) && decide (v < x)) := by
  apply List.filter_congr
  intro v _
  exact Bool.and_comm _ _

theorem invCount_filter_eq_suffixSum (l : List Nat) :
    invCount (l.filter fun v => v != 0) = suffixSum l := by
  induction l with
  | nil => rfl
  | cons x xs ih =>
    by_cases hx : x = 0
    · subst hx
      simp only [List.filter_cons, suffixSum]
      simpa using ih
    · have hxb : (x != 0) = true := by simpa using hx
      simp only [List.filter_cons, hxb, if_true, suffixSum, invCount, if_pos hx]
      rw [List.filter_filter, filter_lt_and_ne, ih]

theorem first_cell_term (c0 : Nat) (rest : List Nat)
    (hv : PuzzleState.Valid ⟨c0 :: rest⟩) :
    (if c0 ≠ 0 then (rest.filter fun v => v != 0 && decide (v < c0)).length
      else 0) = c0 - 1 := by
  have hperm : (c0 :: rest).Perm (List.range 9) := hv
  have hcount := hperm.countP_eq (fun v => v != 0 && decide (v < c0))
  rw [List.countP_cons] at hcount
  have hp0 : ((c0 != 0 && decide (c0 < c0)) : Bool) = false := by simp
  rw [hp0] at hcount
  simp at hcount
  rw [← List.countP_eq_length_filter]
  have hc9 : c0 < 9 := by
    have : c0 ∈ List.range 9 := hperm.subset (List.mem_cons_self _ _)
    simpa using this
  have hcount' : rest.countP (fun v => v != 0 && decide (v < c0)) =
      (List.range 9).countP (fun v => v != 0 && decide (v < c0)) := by
    omega
  rw [hcount']
  interval_cases c0 <;> decide

theorem guard_term_eq (x : Nat) (l : List Nat) :
    (if 1 < x then (l.filter fun v => v != 0 && decide (v < x)).length else 0)
      = (if x ≠ 0 then (l.filter fun v => v != 0 && decide (v < x)).length
          else 0) := by
  match x with
  | 0 => simp
  | 1 =>
    rw [if_neg (by omega), if_pos (by omega),
      List.filter_eq_nil_iff.mpr (by intro a _; simp)]
    rfl
  | x + 2 =>
    rw [if_pos (by omega), if_pos (by omega)]

theorem inversions_eq_suffixSum (s : PuzzleState) (hv : s.Valid) :
    s.inversions = suffixSum s.cells := by
  have hlen := PuzzleState.valid_length hv
  rcases s with ⟨cells⟩
  obtain ⟨c0, c1, c2, c3, c4, c5, c6, c7, c8, hc⟩ :=
    exists_nine_cells cells hlen
  subst hc
  have hfirst := first_cell_term c0 [c1, c2, c3, c4, c5, c6, c7, c8] hv
  have hg1 := guard_term_eq c1 [c2, c3, c4, c5, c6, c7, c8]
  have hg2 := guard_term_eq c2 [c3, c4, c5, c6, c7, c8]
  have hg3 := guard_term_eq c3 [c4, c5, c6, c7, c8]
  have hg4 := guard_term_eq c4 [c5, c6, c7, c8]
  have hg5 := guard_term_eq c5 [c6, c7, c8]
  have hg6 := guard_term_eq c6 [c7, c8]
  have hg7 := guard_term_eq c7 [c8]
  show (c0 - 1) +
      ((if 1 < c1 then ([c2, c3, c4, c5, c6, c7, c8].filter fun v =>
          v != 0 && decide (v < c1)).length else 0) +
        ((if 1 < c2 then ([c3, c4, c5, c6, c7, c8].filter fun v =>
          v != 0 && decide (v < c2)).length else 0) +
        ((if 1 < c3 then ([c4, c5, c6, c7, c8].filter fun v =>
          v != 0 && decide (v < c3)).length else 0) +
        ((if 1 < c4 then ([c5, c6, c7, c8].filter fun v =>
          v != 0 && decide (v < c4)).length else 0) +
        ((if 1 < c5 then ([c6, c7, c8].filter fun v =>
          v != 0 && decide (v < c5)).length else 0) +
        ((if 1 < c6 then ([c7, c8].filter fun v =>
          v != 0 && decide (v < c6)).length else 0) +
        ((if 1 < c7 then ([c8].filter fun v =>
          v != 0 && decide (v < c7)).length else 0) + 0))))))) =
      suffixSum [c0, c1, c2, c3, c4, c5, c6, c7, c8]
  simp only [suffixSum, List.filter_nil, List.length_nil, ite_self]
  rw [hfirst, ← hg1, ← hg2, ← hg3, ← hg4, ← hg5, ← hg6, ← hg7]

theorem inversions_parity_eq (s : PuzzleState) (hv : s.Valid) :
    s.inversions % 2 = invCount (nonzeroTiles s) % 2 := by
  rw [inversions_eq_suffixSum s hv]
  rw [show nonzeroTiles s = s.cells.filter fun v => v != 0 from rfl,
    invCount_filter_eq_suffixSum]

/-- Validity and tile-inversion parity are constant along any sequence of
moves. -/
theorem reaches_valid_parity (a b : PuzzleState) (hab : Reaches a b)
    (ha : a.Valid) :
    b.Valid ∧ invCount (nonzeroTiles a) % 2 = invCount (nonzeroTiles b) % 2 := by
  induction hab with
  | refl => exact ⟨ha, rfl⟩
  | tail hstep hlast ih =>
    obtain ⟨hvb, hp⟩ := ih
    obtain ⟨hvc, hp2⟩ := step_parity _ _ hvb hlast
    exact ⟨hvc, by rw [hp, ← hp2]⟩

/-- Soundness half of C1: if the canonical goal is reachable from a valid
board, the board's inversion count is even, so `HasSolution` answers
`true`. -/
theorem reaches_hasSolution (s : PuzzleState) (hv : s.Valid)
    (hr : Reaches s goal8) : (Puzzle.ofState s).hasSolution goal8 = true := by
  have hkey := reaches_valid_parity s goal8 hr hv
  have hpar : invCount (nonzeroTiles s) % 2 = 0 := by
    rw [hkey.2]
    decide
  have : s.inversions % 2 = 0 := by
    rw [inversions_parity_eq s hv, hpar]
  show (s.inversions % 2 == 0) = true
  simp [this]

/-! ### Completeness half of C1: machinery for move sequences

A fixed direction sequence acts on cell *positions* independently of cell
contents: its validity depends only on the blank trajectory, and its effect
is a fixed rearrangement.  We exploit this by running sequences on the
index board `[0, 1, ..., 8]` (where cell `j` of the result records the
origin index of the tile that ends at `j`), checking properties there by
computation, and transporting them to arbitrary boards. -/

/-- Run a direction sequence through `Puzzle::Move`, requiring every
single move to report success. -/
def runP : List Dir → Puzzle → Option Puzzle
  | [], p => some p
  | d :: ds, p =>
    let r := p.moveDir d
    if r.1 then runP ds r.2 else none

/-- Run a direction sequence on the index board with blank field `b`. -/
def runIdx (ms : List Dir) (b : Nat) : Option Puzzle :=
  runP ms ⟨⟨List.range 9⟩, b⟩

theorem listSwap_map (l : List Nat) (f : Nat → Nat) (b t : Nat)
    (hb : b < l.length) (ht : t < l.length) :
    listSwap (l.map f) b t = (listSwap l b t).map f := by
  have hgb : (l.map f).getD b 0 = f (l.getD b 0) := by
    rw [List.getD_eq_getElem?_getD, List.getD_eq_getElem?_getD,
      List.getElem?_map, List.getElem?_eq_getElem hb]
    rfl
  have hgt : (l.map f).getD t 0 = f (l.getD t 0) := by
    rw [List.getD_eq_getElem?_getD, List.getD_eq_getElem?_getD,
      List.getElem?_map, List.getElem?_eq_getElem ht]
    rfl
  simp only [listSwap, hgb, hgt, List.map_set]

theorem moveDir_fst_blank (I : List Nat) (J : List Nat) (b : Nat) (d : Dir) :
    (Puzzle.moveDir ⟨⟨I⟩, b⟩ d).1 = (Puzzle.moveDir ⟨⟨J⟩, b⟩ d).1 ∧
    (Puzzle.moveDir ⟨⟨I⟩, b⟩ d).2.blank = (Puzzle.moveDir ⟨⟨J⟩, b⟩ d).2.blank := by
  cases d <;>
    simp only [Puzzle.moveDir, Puzzle.getMoveDir, Puzzle.getMoveUp,
      Puzzle.getMoveDown, Puzzle.getMoveLeft, Puzzle.getMoveRight] <;>
    split <;> exact ⟨rfl, rfl⟩

/-- The target cell of a successful move is in range, differs from the
blank, and the move is the swap with it. -/
theorem moveDir_true_elim (p : Puzzle) (q : Puzzle) (d : Dir)
    (hb : p.blank < 9) (hm : p.moveDir d = (true, q)) :
    ∃ t, q = p.swap t ∧ t < 9 ∧ t ≠ p.blank := by
  cases d <;>
  · simp only [Puzzle.moveDir, Puzzle.getMoveDir, Puzzle.getMoveUp,
      Puzzle.getMoveDown, Puzzle.getMoveLeft, Puzzle.getMoveRight,
      PuzzleState.n, PuzzleState.size] at hm
    split at hm
    next t heq =>
      rw [Prod.mk.injEq] at hm
      split at heq
      next hcond =>
        rw [Option.some.injEq] at heq
        subst heq
        exact ⟨_, hm.2.symm, by omega, by omega⟩
      next hcond => exact absurd heq (by simp)
    next heq =>
      rw [Prod.mk.injEq] at hm
      exact absurd hm.1 (by simp)

theorem getMoveDir_indep (X Y : List Nat) (b : Nat) (d : Dir) :
    Puzzle.getMoveDir ⟨⟨X⟩, b⟩ d = Puzzle.getMoveDir ⟨⟨Y⟩, b⟩ d := by
  cases d <;> rfl

theorem getMoveDir_some_lt (st : PuzzleState) (b t : Nat) (d : Dir)
    (hb : b < 9) (hg : Puzzle.getMoveDir ⟨st, b⟩ d = some t) :
    t < 9 ∧ t ≠ b := by
  cases d <;>
  · simp only [Puzzle.getMoveDir, Puzzle.getMoveUp, Puzzle.getMoveDown,
      Puzzle.getMoveLeft, Puzzle.getMoveRight, PuzzleState.n,
      PuzzleState.size] at hg
    split at hg
    next hc =>
      rw [Option.some.injEq] at hg
      omega
    next hc => exact absurd hg (by simp)

theorem moveDir_map (I : List Nat) (f : Nat → Nat) (b : Nat)
    (hI : I.length = 9) (hb : b < 9) (d : Dir) :
    Puzzle.moveDir ⟨⟨I.map f⟩, b⟩ d =
      ((Puzzle.moveDir ⟨⟨I⟩, b⟩ d).1,
        ⟨⟨(Puzzle.moveDir ⟨⟨I⟩, b⟩ d).2.state.cells.map f⟩,
          (Puzzle.moveDir ⟨⟨I⟩, b⟩ d).2.blank⟩) := by
  have hind := getMoveDir_indep (I.map f) I b d
  cases hg : Puzzle.getMoveDir ⟨⟨I⟩, b⟩ d with
  | none =>
    rw [hg] at hind
    simp only [Puzzle.moveDir, hind, hg]
  | some t =>
    rw [hg] at hind
    obtain ⟨ht9, htb⟩ := getMoveDir_some_lt _ b t d hb hg
    simp only [Puzzle.moveDir, hind, hg, Puzzle.swap]
    rw [listSwap_map I f b t (by omega) (by omega)]

theorem runP_map (ms : List Dir) : ∀ (I : List Nat) (f : Nat → Nat) (b : Nat),
    I.length = 9 → b < 9 →
    runP ms ⟨⟨I.map f⟩, b⟩ =
      (runP ms ⟨⟨I⟩, b⟩).map fun q => ⟨⟨q.state.cells.map f⟩, q.blank⟩ := by
  induction ms with
  | nil =>
    intro I f b hI hb
    rfl
  | cons d ds ih =>
    intro I f b hI hb
    have hmm := moveDir_map I f b hI hb d
    show (let r := Puzzle.moveDir ⟨⟨I.map f⟩, b⟩ d;
          if r.1 then runP ds r.2 else none) =
      ((let r := Puzzle.moveDir ⟨⟨I⟩, b⟩ d;
        if r.1 then runP ds r.2 else none).map
          fun q => ⟨⟨q.state.cells.map f⟩, q.blank⟩)
    rw [hmm]
    cases hm : Puzzle.moveDir ⟨⟨I⟩, b⟩ d with
    | mk ok q =>
      cases ok with
      | false => simp
      | true =>
        obtain ⟨t, hq, ht9, htb⟩ := moveDir_true_elim _ _ d hb hm
        subst hq
        simp only [if_true]
        show runP ds ⟨⟨(listSwap I b t).map f⟩, t⟩ =
          (runP ds ⟨⟨listSwap I b t⟩, t⟩).map
            fun q => ⟨⟨q.state.cells.map f⟩, q.blank⟩
        exact ih (listSwap I b t) f t (by rw [length_listSwap]; exact hI) ht9

theorem ofState_blank_eq (s : PuzzleState) (hv : s.Valid) (b : Nat)
    (hb : b < 9) (hz : s.cells.getD b 0 = 0) :
    (Puzzle.ofState s).blank = b := by
  have hlen := PuzzleState.valid_length hv
  have hb' : b < s.cells.length := by omega
  show s.cells.findIdx (fun v => v == 0) = b
  rw [List.findIdx_eq hb']
  constructor
  · have : s.cells.getD b 0 = s.cells.get ⟨b, hb'⟩ := by
      rw [List.getD_eq_getElem?_getD, List.getElem?_eq_getElem hb']
      rfl
    simp only [List.get_eq_getElem] at this
    rw [← this, hz]
    rfl
  · intro j hj
    have hj9 : j < 9 := by omega
    have hne : s.cells.getD j 0 ≠ 0 :=
      valid_getD_ne_zero s hv b j hb hj9 (by omega) hz
    have : s.cells.getD j 0 = s.cells.get ⟨j, by omega⟩ := by
      rw [List.getD_eq_getElem?_getD, List.getElem?_eq_getElem (by omega : j < s.cells.length)]
      rfl
    simp only [List.get_eq_getElem] at this
    rw [← this] at *
    simpa using hne

theorem eq_ofState_of_WF (p : Puzzle) (h : p.WF) :
    p = Puzzle.ofState p.state := by
  rcases p with ⟨st, bl⟩
  have h2 := h.2
  simp only at h2
  simp only [Puzzle.ofState]
  rw [h2]

/-- One successful `Move` from a well-formed puzzle is a search `Step` and
preserves well-formedness. -/
theorem moveDir_step (p q : Puzzle) (h : p.WF) (d : Dir)
    (hm : p.moveDir d = (true, q)) : Step p.state q.state ∧ q.WF := by
  have hb9 := h.blank_lt
  have hlen := PuzzleState.valid_length h.1
  have hz := h.getD_blank
  obtain ⟨t, hq, ht9, htb⟩ := moveDir_true_elim p q d hb9 hm
  subst hq
  have hvalid : (p.swap t).state.Valid := valid_listSwap h.1 p.blank t hb9 ht9
  refine ⟨⟨d, p.swap t, ?_, rfl⟩, hvalid, ?_⟩
  · rw [← eq_ofState_of_WF p h]
    exact hm
  · -- the new blank index is where find_if will find the 0
    have hz' : (p.swap t).state.cells.getD t 0 = 0 := by
      show (listSwap p.state.cells p.blank t).getD t 0 = 0
      rw [listSwap_getD_target _ _ _ (by omega)]
      exact hz
    have hb' : (p.swap t).blank = t := rfl
    rw [hb']
    exact (ofState_blank_eq (p.swap t).state hvalid t ht9 hz').symm

/-- A fully successful run of a direction sequence yields reachability of
the final state and preserves well-formedness. -/
theorem runP_reaches (ms : List Dir) : ∀ (p q : Puzzle), p.WF →
    runP ms p = some q → Reaches p.state q.state ∧ q.WF := by
  induction ms with
  | nil =>
    intro p q hWF hrun
    rw [show runP [] p = some p from rfl, Option.some.injEq] at hrun
    subst hrun
    exact ⟨Relation.ReflTransGen.refl, hWF⟩
  | cons d ds ih =>
    intro p q hWF hrun
    show Reaches p.state q.state ∧ q.WF
    rw [show runP (d :: ds) p =
      (let r := p.moveDir d; if r.1 then runP ds r.2 else none) from rfl] at hrun
    cases hm : p.moveDir d with
    | mk ok q1 =>
      rw [hm] at hrun
      cases ok with
      | false => simp at hrun
      | true =>
        simp only [if_true] at hrun
        obtain ⟨hstep, hWF1⟩ := moveDir_step p q1 hWF d hm
        obtain ⟨hreach, hWF2⟩ := ih q1 q hWF1 hrun
        exact ⟨Relation.ReflTransGen.trans
          (Relation.ReflTransGen.single hstep) hreach, hWF2⟩

/-- Reading a valid board's cells as contents of the index board. -/
theorem cells_eq_range_map (s : PuzzleState) (hv : s.Valid) :
    s.cells = (List.range 9).map fun i => s.cells.getD i 0 := by
  have hlen := PuzzleState.valid_length hv
  apply List.ext_getElem
  · simpa using hlen
  · intro i h1 h2
    have hi9 : i < 9 := by simpa using h2
    rw [List.getElem_map]
    rw [show (List.range 9)[i] = i from by simp]
    rw [List.getD_eq_getElem?_getD, List.getElem?_eq_getElem h1]
    rfl

theorem moveDir_true_swap (p q : Puzzle) (d : Dir)
    (hm : p.moveDir d = (true, q)) : ∃ t, q = p.swap t := by
  cases hg : p.getMoveDir d with
  | some t =>
    refine ⟨t, ?_⟩
    rw [show p.moveDir d = (match p.getMoveDir d with
      | some t => (true, p.swap t)
      | none => (false, p)) from rfl, hg] at hm
    rw [Prod.mk.injEq] at hm
    exact hm.2.symm
  | none =>
    rw [show p.moveDir d = (match p.getMoveDir d with
      | some t => (true, p.swap t)
      | none => (false, p)) from rfl, hg] at hm
    rw [Prod.mk.injEq] at hm
    exact absurd hm.1 (by simp)

theorem runP_length (ms : List Dir) : ∀ p q : Puzzle,
    runP ms p = some q → q.state.cells.length = p.state.cells.length := by
  induction ms with
  | nil =>
    intro p q h
    rw [show runP [] p = some p from rfl, Option.some.injEq] at h
    subst h
    rfl
  | cons d ds ih =>
    intro p q h
    rw [show runP (d :: ds) p =
      (let r := p.moveDir d; if r.1 then runP ds r.2 else none) from rfl] at h
    cases hm : p.moveDir d with
    | mk ok q1 =>
      rw [hm] at h
      cases ok with
      | false => simp at h
      | true =>
        simp only [if_true] at h
        have h1 := ih q1 q h
        obtain ⟨t, hq1⟩ := moveDir_true_swap p q1 d hm
        subst hq1
        rw [h1]
        show (listSwap p.state.cells p.blank t).length = _
        rw [length_listSwap]

theorem valid_exists_pos (s : PuzzleState) (hv : s.Valid) (v : Nat)
    (hv9 : v < 9) : ∃ t, t < 9 ∧ s.cells.getD t 0 = v := by
  have hlen := PuzzleState.valid_length hv
  have hmem : v ∈ s.cells := hv.mem_iff.mpr (by simpa using hv9)
  obtain ⟨i, hi, hget⟩ := List.getElem_of_mem hmem
  refine ⟨i, by omega, ?_⟩
  rw [List.getD_eq_getElem?_getD, List.getElem?_eq_getElem hi]
  simpa using hget

/-- Computable certificate: the direction sequence `ms`, started with the
blank at `b`, is fully valid on the index board, leaves each cell in
`placed` holding its original index, and for every `(target, src)` pair in
`goals` brings the content of cell `src` to cell `target`. -/
def seqOK (placed : List Nat) (goals : List (Nat × Nat)) (b : Nat)
    (ms : List Dir) : Bool :=
  match runIdx ms b with
  | none => false
  | some q =>
    (goals.all fun g => q.state.cells.getD g.1 0 == g.2) &&
      placed.all fun j => q.state.cells.getD j 0 == j

theorem getD_map_lt (l : List Nat) (f : Nat → Nat) (i : Nat)
    (hi : i < l.length) : (l.map f).getD i 0 = f (l.getD i 0) := by
  rw [List.getD_eq_getElem?_getD, List.getD_eq_getElem?_getD,
    List.getElem?_map, List.getElem?_eq_getElem hi]
  rfl

/-- Transport a `seqOK` certificate to an arbitrary valid board whose
blank is at cell `b`: some reachable valid board agrees with the original
on every `placed` cell and carries, for each `(target, src)` goal, the
original content of `src` at `target`. -/
theorem seqOK_lift (placed : List Nat) (goals : List (Nat × Nat)) (b : Nat)
    (ms : List Dir) (hok : seqOK placed goals b ms = true)
    (hgoals9 : ∀ g ∈ goals, (g : Nat × Nat).1 < 9)
    (hplaced : ∀ j ∈ placed, j < 9)
    (s : PuzzleState) (hv : s.Valid) (hb : b < 9)
    (hz : s.cells.getD b 0 = 0) :
    ∃ s' : PuzzleState, Reaches s s' ∧ s'.Valid ∧
      (∀ g ∈ goals, s'.cells.getD (g : Nat × Nat).1 0 = s.cells.getD g.2 0) ∧
      ∀ j ∈ placed, s'.cells.getD j 0 = s.cells.getD j 0 := by
  unfold seqOK at hok
  cases hq : runIdx ms b with
  | none => rw [hq] at hok; exact absurd hok (by simp)
  | some q =>
    rw [hq] at hok
    simp only [Bool.and_eq_true, beq_iff_eq, List.all_eq_true] at hok
    obtain ⟨htgt, hplc⟩ := hok
    have hqlen : q.state.cells.length = 9 := by
      have := runP_length ms ⟨⟨List.range 9⟩, b⟩ q hq
      simpa using this
    have hf := runP_map ms (List.range 9) (fun i => s.cells.getD i 0) b
      (by simp) hb
    rw [show runIdx ms b = runP ms ⟨⟨List.range 9⟩, b⟩ from rfl] at hq
    rw [hq] at hf
    have hs0 : (⟨⟨(List.range 9).map fun i => s.cells.getD i 0⟩, b⟩ : Puzzle)
        = ⟨s, b⟩ := by
      rw [← cells_eq_range_map s hv]
    rw [hs0] at hf
    have hblank := ofState_blank_eq s hv b hb hz
    have hsb : (⟨s, b⟩ : Puzzle) = Puzzle.ofState s := by
      rw [← hblank]
      exact rfl
    rw [hsb] at hf
    simp only [Option.map_some'] at hf
    obtain ⟨hreach, hWF⟩ := runP_reaches ms (Puzzle.ofState s) _
      (Puzzle.ofState_WF hv) hf
    refine ⟨⟨q.state.cells.map fun i => s.cells.getD i 0⟩, hreach, hWF.1,
      ?_, ?_⟩
    · intro g hg
      show ((q.state.cells.map fun i => s.cells.getD i 0).getD g.1 0) = _
      rw [getD_map_lt _ _ g.1 (by have := hgoals9 g hg; omega), htgt g hg]
    · intro j hj
      show ((q.state.cells.map fun i => s.cells.getD i 0).getD j 0) = _
      rw [getD_map_lt _ _ j (by have := hplaced j hj; omega), hplc j hj]
def stage1Seqs : List (List (List Dir)) := [
  [[],
   [],
   [],
   [],
   [],
   [],
   [],
   [],
   []],
  [[.RIGHT],
   [],
   [.DOWN, .LEFT, .LEFT, .UP, .RIGHT],
   [.UP, .RIGHT],
   [.LEFT, .UP, .RIGHT],
   [.LEFT, .LEFT, .UP, .RIGHT],
   [.UP, .UP, .RIGHT],
   [.UP, .LEFT, .UP, .RIGHT],
   [.UP, .LEFT, .LEFT, .UP, .RIGHT]],
  [[.RIGHT, .RIGHT, .DOWN, .LEFT, .LEFT, .UP, .RIGHT],
   [.RIGHT, .DOWN, .LEFT, .LEFT, .UP, .RIGHT],
   [],
   [.UP, .RIGHT, .RIGHT, .DOWN, .LEFT, .LEFT, .UP, .RIGHT],
   [.UP, .RIGHT, .DOWN, .LEFT, .LEFT, .UP, .RIGHT],
   [.LEFT, .UP, .RIGHT, .DOWN, .LEFT, .LEFT, .UP, .RIGHT],
   [.UP, .UP, .RIGHT, .RIGHT, .DOWN, .LEFT, .LEFT, .UP, .RIGHT],
   [.UP, .UP, .RIGHT, .DOWN, .LEFT, .LEFT, .UP, .RIGHT],
   [.UP, .LEFT, .UP, .RIGHT, .DOWN, .LEFT, .LEFT, .UP, .RIGHT]],
  [[.DOWN],
   [.LEFT, .DOWN],
   [.LEFT, .LEFT, .DOWN],
   [],
   [.UP, .LEFT, .DOWN],
   [.UP, .LEFT, .LEFT, .DOWN],
   [.RIGHT, .UP, .UP, .LEFT, .DOWN],
   [.UP, .UP, .LEFT, .DOWN],
   [.UP, .UP, .LEFT, .LEFT, .DOWN]],
  [[.DOWN, .RIGHT, .UP, .LEFT, .DOWN],
   [.DOWN, .LEFT, .UP, .RIGHT],
   [.LEFT, .DOWN, .LEFT, .UP, .RIGHT],
   [.RIGHT, .UP, .LEFT, .DOWN],
   [],
   [.UP, .LEFT, .DOWN, .LEFT, .UP, .RIGHT],
   [.UP, .RIGHT, .UP, .LEFT, .DOWN],
   [.LEFT, .UP, .RIGHT, .UP, .LEFT, .DOWN],
   [.UP, .UP, .LEFT, .DOWN, .LEFT, .UP, .RIGHT]],
  [[.DOWN, .RIGHT, .RIGHT, .UP, .LEFT, .DOWN, .LEFT, .UP, .RIGHT],
   [.DOWN, .RIGHT, .UP, .LEFT, .DOWN, .LEFT, .UP, .RIGHT],
   [.DOWN, .LEFT, .UP, .RIGHT, .DOWN, .LEFT, .LEFT, .UP, .RIGHT],
   [.RIGHT, .RIGHT, .UP, .LEFT, .DOWN, .LEFT, .UP, .RIGHT],
   [.RIGHT, .UP, .LEFT, .DOWN, .LEFT, .UP, .RIGHT],
   [],
   [.UP, .RIGHT, .RIGHT, .UP, .LEFT, .DOWN, .LEFT, .UP, .RIGHT],
   [.UP, .RIGHT, .UP, .LEFT, .DOWN, .LEFT, .UP, .RIGHT],
   [.LEFT, .UP, .RIGHT, .UP, .LEFT, .DOWN, .LEFT, .UP, .RIGHT]],
  [[.DOWN, .DOWN, .RIGHT, .UP, .UP, .LEFT, .DOWN],
   [.DOWN, .LEFT, .DOWN, .RIGHT, .UP, .UP, .LEFT, .DOWN],
   [.DOWN, .LEFT, .LEFT, .DOWN, .RIGHT, .UP, .UP, .LEFT, .DOWN],
   [.DOWN, .RIGHT, .UP, .UP, .LEFT, .DOWN],
   [.LEFT, .DOWN, .RIGHT, .UP, .UP, .LEFT, .DOWN],
   [.LEFT, .LEFT, .DOWN, .RIGHT, .UP, .UP, .LEFT, .DOWN],
   [],
   [.UP, .LEFT, .DOWN, .RIGHT, .UP, .UP, .LEFT, .DOWN],
   [.UP, .LEFT, .LEFT, .DOWN, .RIGHT, .UP, .UP, .LEFT, .DOWN]],
  [[.DOWN, .RIGHT, .DOWN, .LEFT, .UP, .RIGHT, .UP, .LEFT, .DOWN],
   [.DOWN, .DOWN, .LEFT, .UP, .RIGHT, .UP, .LEFT, .DOWN],
   [.DOWN, .LEFT, .DOWN, .LEFT, .UP, .RIGHT, .UP, .LEFT, .DOWN],
   [.RIGHT, .DOWN, .LEFT, .UP, .RIGHT, .UP, .LEFT, .DOWN],
   [.DOWN, .LEFT, .UP, .RIGHT, .UP, .LEFT, .DOWN],
   [.LEFT, .DOWN, .LEFT, .UP, .RIGHT, .UP, .LEFT, .DOWN],
   [.UP, .RIGHT, .DOWN, .LEFT, .UP, .RIGHT, .UP, .LEFT, .DOWN],
   [],
   [.UP, .LEFT, .DOWN, .LEFT, .UP, .RIGHT, .UP, .LEFT, .DOWN]],
  [[.DOWN, .DOWN, .RIGHT, .RIGHT, .UP, .LEFT, .DOWN, .LEFT, .UP, .RIGHT, .UP, .LEFT, .DOWN],
   [.DOWN, .DOWN, .RIGHT, .UP, .LEFT, .DOWN, .LEFT, .UP, .RIGHT, .UP, .LEFT, .DOWN],
   [.DOWN, .DOWN, .LEFT, .UP, .RIGHT, .UP, .LEFT, .DOWN, .LEFT, .UP, .RIGHT],
   [.DOWN, .RIGHT, .RIGHT, .UP, .LEFT, .DOWN, .LEFT, .UP, .RIGHT, .UP, .LEFT, .DOWN],
   [.DOWN, .RIGHT, .UP, .LEFT, .DOWN, .LEFT, .UP, .RIGHT, .UP, .LEFT, .DOWN],
   [.DOWN, .LEFT, .UP, .RIGHT, .UP, .LEFT, .DOWN, .LEFT, .UP, .RIGHT],
   [.RIGHT, .RIGHT, .UP, .LEFT, .DOWN, .LEFT, .UP, .RIGHT, .UP, .LEFT, .DOWN],
   [.RIGHT, .UP, .LEFT, .DOWN, .LEFT, .UP, .RIGHT, .UP, .LEFT, .DOWN],
   []]]

def stage1Seq (t b : Nat) : List Dir := (stage1Seqs.getD t []).getD b []

def stage2Seqs : List (List (List (List Dir))) := [
  [[[], [], [], [], [], [], [], [], []],
   [[], [], [], [], [], [], [], [], []],
   [[], [], [], [], [], [], [], [], []],
   [[], [], [], [], [], [], [], [], []],
   [[], [], [], [], [], [], [], [], []],
   [[], [], [], [], [], [], [], [], []],
   [[], [], [], [], [], [], [], [], []],
   [[], [], [], [], [], [], [], [], []],
   [[], [], [], [], [], [], [], [], []]],
  [[[], [], [], [], [], [], [], [], []],
   [[], [], [], [], [], [], [], [], []],
   [[], [], [], [], [], [], [], [], []],
   [[], [], [.LEFT, .DOWN, .LEFT, .DOWN, .RIGHT, .RIGHT, .UP, .LEFT, .UP, .RIGHT, .DOWN], [], [.RIGHT, .UP, .LEFT, .DOWN, .LEFT, .DOWN, .RIGHT, .RIGHT, .UP, .LEFT, .UP, .RIGHT, .DOWN], [.UP, .LEFT, .DOWN, .LEFT, .DOWN, .RIGHT, .RIGHT, .UP, .LEFT, .UP, .RIGHT, .DOWN], [.RIGHT, .UP, .RIGHT, .UP, .LEFT, .DOWN, .LEFT, .DOWN, .RIGHT, .RIGHT, .UP, .LEFT, .UP, .RIGHT, .DOWN], [.UP, .RIGHT, .UP, .LEFT, .DOWN, .LEFT, .DOWN, .RIGHT, .RIGHT, .UP, .LEFT, .UP, .RIGHT, .DOWN], [.UP, .UP, .LEFT, .DOWN, .LEFT, .DOWN, .RIGHT, .RIGHT, .UP, .LEFT, .UP, .RIGHT, .DOWN]],
   [[], [], [.DOWN, .DOWN, .LEFT, .UP, .RIGHT, .UP, .LEFT, .DOWN, .DOWN, .RIGHT, .UP, .LEFT, .UP, .RIGHT, .DOWN], [.DOWN, .RIGHT, .UP, .RIGHT, .UP, .LEFT, .DOWN, .DOWN, .RIGHT, .UP, .LEFT, .UP, .RIGHT, .DOWN], [], [.DOWN, .LEFT, .UP, .RIGHT, .UP, .LEFT, .DOWN, .DOWN, .RIGHT, .UP, .LEFT, .UP, .RIGHT, .DOWN], [.RIGHT, .UP, .RIGHT, .UP, .LEFT, .DOWN, .DOWN, .RIGHT, .UP, .LEFT, .UP, .RIGHT, .DOWN], [.UP, .RIGHT, .UP, .LEFT, .DOWN, .DOWN, .RIGHT, .UP, .LEFT, .UP, .RIGHT, .DOWN], [.LEFT, .UP, .RIGHT, .UP, .LEFT, .DOWN, .DOWN, .RIGHT, .UP, .LEFT, .UP, .RIGHT, .DOWN]],
   [[], [], [.DOWN], [.DOWN, .RIGHT, .RIGHT, .UP, .UP, .LEFT, .DOWN, .RIGHT, .DOWN, .LEFT, .UP, .UP, .RIGHT, .DOWN], [.DOWN, .RIGHT, .UP, .UP, .LEFT, .DOWN, .RIGHT, .DOWN, .LEFT, .UP, .UP, .RIGHT, .DOWN], [], [.RIGHT, .RIGHT, .UP, .UP, .LEFT, .DOWN, .RIGHT, .DOWN, .LEFT, .UP, .UP, .RIGHT, .DOWN], [.RIGHT, .UP, .UP, .LEFT, .DOWN, .RIGHT, .DOWN, .LEFT, .UP, .UP, .RIGHT, .DOWN], [.UP, .UP, .LEFT, .DOWN, .RIGHT, .DOWN, .LEFT, .UP, .UP, .RIGHT, .DOWN]],
   [[], [], [.LEFT, .DOWN, .DOWN, .LEFT, .UP, .RIGHT, .DOWN, .RIGHT, .UP, .LEFT, .UP, .RIGHT, .DOWN], [.DOWN, .RIGHT, .UP, .RIGHT, .UP, .LEFT, .DOWN, .LEFT, .DOWN, .RIGHT, .RIGHT, .UP, .LEFT, .UP, .RIGHT, .DOWN], [.DOWN, .LEFT, .UP, .RIGHT, .RIGHT, .UP, .LEFT, .DOWN, .DOWN, .RIGHT, .UP, .LEFT, .UP, .RIGHT, .DOWN], [.UP, .LEFT, .DOWN, .DOWN, .LEFT, .UP, .RIGHT, .DOWN, .RIGHT, .UP, .LEFT, .UP, .RIGHT, .DOWN], [], [.LEFT, .UP, .RIGHT, .RIGHT, .UP, .LEFT, .DOWN, .DOWN, .RIGHT, .UP, .LEFT, .UP, .RIGHT, .DOWN], [.UP, .UP, .LEFT, .DOWN, .DOWN, .LEFT, .UP, .RIGHT, .DOWN, .RIGHT, .UP, .LEFT, .UP, .RIGHT, .DOWN]],
   [[], [], [.LEFT, .DOWN, .DOWN, .RIGHT, .UP, .LEFT, .UP, .RIGHT, .DOWN], [.RIGHT, .RIGHT, .UP, .LEFT, .DOWN, .DOWN, .RIGHT, .UP, .LEFT, .UP, .RIGHT, .DOWN], [.RIGHT, .UP, .LEFT, .DOWN, .DOWN, .RIGHT, .UP, .LEFT, .UP, .RIGHT, .DOWN], [.UP, .LEFT, .DOWN, .DOWN, .RIGHT, .UP, .LEFT, .UP, .RIGHT, .DOWN], [.UP, .RIGHT, .RIGHT, .UP, .LEFT, .DOWN, .DOWN, .RIGHT, .UP, .LEFT, .UP, .RIGHT, .DOWN], [], [.UP, .UP, .LEFT, .DOWN, .DOWN, .RIGHT, .UP, .LEFT, .UP, .RIGHT, .DOWN]],
   [[], [], [.LEFT, .DOWN, .RIGHT, .DOWN, .LEFT, .UP, .UP, .RIGHT, .DOWN], [.RIGHT, .RIGHT, .UP, .LEFT, .DOWN, .RIGHT, .DOWN, .LEFT, .UP, .UP, .RIGHT, .DOWN], [.RIGHT, .UP, .LEFT, .DOWN, .RIGHT, .DOWN, .LEFT, .UP, .UP, .RIGHT, .DOWN], [.UP, .LEFT, .DOWN, .RIGHT, .DOWN, .LEFT, .UP, .UP, .RIGHT, .DOWN], [.UP, .RIGHT, .RIGHT, .UP, .LEFT, .DOWN, .RIGHT, .DOWN, .LEFT, .UP, .UP, .RIGHT, .DOWN], [.UP, .RIGHT, .UP, .LEFT, .DOWN, .RIGHT, .DOWN, .LEFT, .UP, .UP, .RIGHT, .DOWN], []]],
  [[[], [], [], [], [], [], [], [], []],
   [[], [], [], [.RIGHT, .UP, .RIGHT, .DOWN, .DOWN, .LEFT, .UP, .RIGHT, .UP, .LEFT, .DOWN, .DOWN, .RIGHT, .UP, .LEFT, .UP, .RIGHT, .DOWN], [.UP, .RIGHT, .DOWN, .DOWN, .LEFT, .UP, .RIGHT, .UP, .LEFT, .DOWN, .DOWN, .RIGHT, .UP, .LEFT, .UP, .RIGHT, .DOWN], [.UP, .LEFT, .DOWN, .DOWN, .RIGHT, .UP, .LEFT, .UP, .RIGHT, .DOWN, .DOWN, .LEFT, .UP, .RIGHT, .UP, .LEFT, .DOWN], [.UP, .RIGHT, .UP, .RIGHT, .DOWN, .DOWN, .LEFT, .UP, .RIGHT, .UP, .LEFT, .DOWN, .DOWN, .RIGHT, .UP, .LEFT, .UP, .RIGHT, .DOWN], [.UP, .UP, .RIGHT, .DOWN, .DOWN, .LEFT, .UP, .RIGHT, .UP, .LEFT, .DOWN, .DOWN, .RIGHT, .UP, .LEFT, .UP, .RIGHT, .DOWN], [.UP, .UP, .LEFT, .DOWN, .DOWN, .RIGHT, .UP, .LEFT, .UP, .RIGHT, .DOWN, .DOWN, .LEFT, .UP, .RIGHT, .UP, .LEFT, .DOWN]],
   [[], [], [], [], [], [], [], [], []],
   [[], [.DOWN, .LEFT, .DOWN, .RIGHT, .RIGHT, .UP, .LEFT, .UP, .RIGHT, .DOWN], [], [], [.LEFT, .DOWN, .RIGHT, .RIGHT, .UP, .LEFT, .UP, .RIGHT, .DOWN], [.LEFT, .LEFT, .DOWN, .RIGHT, .RIGHT, .UP, .LEFT, .UP, .RIGHT, .DOWN], [.RIGHT, .UP, .LEFT, .DOWN, .RIGHT, .RIGHT, .UP, .LEFT, .UP, .RIGHT, .DOWN], [.UP, .LEFT, .DOWN, .RIGHT, .RIGHT, .UP, .LEFT, .UP, .RIGHT, .DOWN], [.UP, .LEFT, .LEFT, .DOWN, .RIGHT, .RIGHT, .UP, .LEFT, .UP, .RIGHT, .DOWN]],
   [[], [.RIGHT, .DOWN, .DOWN, .LEFT, .UP, .RIGHT, .UP, .LEFT, .DOWN, .DOWN, .RIGHT, .UP, .LEFT, .UP, .RIGHT, .DOWN], [], [.DOWN, .RIGHT, .RIGHT, .UP, .LEFT, .UP, .RIGHT, .DOWN], [], [.LEFT, .UP, .RIGHT, .DOWN], [.RIGHT, .RIGHT, .UP, .LEFT, .UP, .RIGHT, .DOWN], [.RIGHT, .UP, .LEFT, .UP, .RIGHT, .DOWN], [.UP, .LEFT, .UP, .RIGHT, .DOWN]],
   [[], [.RIGHT, .DOWN], [], [.RIGHT, .UP, .RIGHT, .DOWN], [.UP, .RIGHT, .DOWN], [], [.UP, .RIGHT, .UP, .RIGHT, .DOWN], [.UP, .UP, .RIGHT, .DOWN], [.LEFT, .UP, .UP, .RIGHT, .DOWN]],
   [[], [.DOWN, .DOWN, .LEFT, .UP, .RIGHT, .DOWN, .RIGHT, .UP, .LEFT, .UP, .RIGHT, .DOWN], [], [.DOWN, .RIGHT, .UP, .LEFT, .DOWN, .RIGHT, .RIGHT, .UP, .LEFT, .UP, .RIGHT, .DOWN], [.DOWN, .LEFT, .UP, .RIGHT, .DOWN, .RIGHT, .UP, .LEFT, .UP, .RIGHT, .DOWN], [.DOWN, .LEFT, .LEFT, .UP, .RIGHT, .DOWN, .RIGHT, .UP, .LEFT, .UP, .RIGHT, .DOWN], [], [.LEFT, .UP, .RIGHT, .DOWN, .RIGHT, .UP, .LEFT, .UP, .RIGHT, .DOWN], [.LEFT, .LEFT, .UP, .RIGHT, .DOWN, .RIGHT, .UP, .LEFT, .UP, .RIGHT, .DOWN]],
   [[], [.DOWN, .DOWN, .RIGHT, .UP, .LEFT, .UP, .RIGHT, .DOWN], [], [.RIGHT, .DOWN, .RIGHT, .UP, .LEFT, .UP, .RIGHT, .DOWN], [.DOWN, .RIGHT, .UP, .LEFT, .UP, .RIGHT, .DOWN], [.LEFT, .DOWN, .RIGHT, .UP, .LEFT, .UP, .RIGHT, .DOWN], [.UP, .RIGHT, .DOWN, .RIGHT, .UP, .LEFT, .UP, .RIGHT, .DOWN], [], [.UP, .LEFT, .DOWN, .RIGHT, .UP, .LEFT, .UP, .RIGHT, .DOWN]],
   [[], [.DOWN, .RIGHT, .DOWN, .LEFT, .UP, .UP, .RIGHT, .DOWN], [], [.RIGHT, .RIGHT, .DOWN, .LEFT, .UP, .UP, .RIGHT, .DOWN], [.RIGHT, .DOWN, .LEFT, .UP, .UP, .RIGHT, .DOWN], [.DOWN, .LEFT, .UP, .UP, .RIGHT, .DOWN], [.UP, .RIGHT, .RIGHT, .DOWN, .LEFT, .UP, .UP, .RIGHT, .DOWN], [.UP, .RIGHT, .DOWN, .LEFT, .UP, .UP, .RIGHT, .DOWN], []]],
  [[[], [], [], [], [], [], [], [], []],
   [[], [], [.DOWN, .LEFT, .LEFT, .DOWN, .RIGHT, .RIGHT, .UP, .UP, .LEFT, .DOWN], [], [.LEFT, .DOWN, .RIGHT, .RIGHT, .UP, .UP, .LEFT, .DOWN], [.LEFT, .LEFT, .DOWN, .RIGHT, .RIGHT, .UP, .UP, .LEFT, .DOWN], [.RIGHT, .UP, .LEFT, .DOWN, .RIGHT, .RIGHT, .UP, .UP, .LEFT, .DOWN], [.UP, .LEFT, .DOWN, .RIGHT, .RIGHT, .UP, .UP, .LEFT, .DOWN], [.UP, .LEFT, .LEFT, .DOWN, .RIGHT, .RIGHT, .UP, .UP, .LEFT, .DOWN]],
   [[], [.RIGHT, .DOWN, .LEFT, .LEFT, .DOWN, .RIGHT, .RIGHT, .UP, .UP, .LEFT, .DOWN], [], [], [.UP, .RIGHT, .DOWN, .LEFT, .LEFT, .DOWN, .RIGHT, .RIGHT, .UP, .UP, .LEFT, .DOWN], [.LEFT, .UP, .RIGHT, .DOWN, .LEFT, .LEFT, .DOWN, .RIGHT, .RIGHT, .UP, .UP, .LEFT, .DOWN], [.RIGHT, .UP, .UP, .RIGHT, .DOWN, .LEFT, .LEFT, .DOWN, .RIGHT, .RIGHT, .UP, .UP, .LEFT, .DOWN], [.UP, .UP, .RIGHT, .DOWN, .LEFT, .LEFT, .DOWN, .RIGHT, .RIGHT, .UP, .UP, .LEFT, .DOWN], [.UP, .LEFT, .UP, .RIGHT, .DOWN, .LEFT, .LEFT, .DOWN, .RIGHT, .RIGHT, .UP, .UP, .LEFT, .DOWN]],
   [[], [], [], [], [], [], [], [], []],
   [[], [.DOWN, .LEFT, .DOWN, .RIGHT, .RIGHT, .UP, .UP, .LEFT, .DOWN], [.LEFT, .DOWN, .LEFT, .DOWN, .RIGHT, .RIGHT, .UP, .UP, .LEFT, .DOWN], [], [], [.UP, .LEFT, .DOWN, .LEFT, .DOWN, .RIGHT, .RIGHT, .UP, .UP, .LEFT, .DOWN], [.RIGHT, .RIGHT, .UP, .UP, .LEFT, .DOWN, .LEFT, .DOWN, .RIGHT, .RIGHT, .UP, .UP, .LEFT, .DOWN], [.RIGHT, .UP, .UP, .LEFT, .DOWN, .LEFT, .DOWN, .RIGHT, .RIGHT, .UP, .UP, .LEFT, .DOWN], [.UP, .UP, .LEFT, .DOWN, .LEFT, .DOWN, .RIGHT, .RIGHT, .UP, .UP, .LEFT, .DOWN]],
   [[], [.DOWN, .RIGHT, .UP, .LEFT, .DOWN, .LEFT, .DOWN, .RIGHT, .RIGHT, .UP, .UP, .LEFT, .DOWN], [.DOWN, .LEFT, .UP, .RIGHT, .DOWN, .LEFT, .LEFT, .DOWN, .RIGHT, .RIGHT, .UP, .UP, .LEFT, .DOWN], [], [.RIGHT, .UP, .LEFT, .DOWN, .LEFT, .DOWN, .RIGHT, .RIGHT, .UP, .UP, .LEFT, .DOWN], [], [.RIGHT, .UP, .RIGHT, .UP, .LEFT, .DOWN, .LEFT, .DOWN, .RIGHT, .RIGHT, .UP, .UP, .LEFT, .DOWN], [.UP, .RIGHT, .UP, .LEFT, .DOWN, .LEFT, .DOWN, .RIGHT, .RIGHT, .UP, .UP, .LEFT, .DOWN], [.LEFT, .UP, .RIGHT, .UP, .LEFT, .DOWN, .LEFT, .DOWN, .RIGHT, .RIGHT, .UP, .UP, .LEFT, .DOWN]],
   [[], [.DOWN, .LEFT, .DOWN, .RIGHT, .RIGHT, .UP, .LEFT, .UP, .RIGHT, .DOWN, .LEFT, .LEFT, .DOWN, .RIGHT, .RIGHT, .UP, .LEFT, .UP, .RIGHT, .DOWN], [.DOWN, .LEFT, .LEFT, .DOWN, .RIGHT, .RIGHT, .UP, .LEFT, .UP, .RIGHT, .DOWN, .LEFT, .LEFT, .DOWN, .RIGHT, .RIGHT, .UP, .LEFT, .UP, .RIGHT, .DOWN], [], [.LEFT, .DOWN, .RIGHT, .RIGHT, .UP, .LEFT, .UP, .RIGHT, .DOWN, .LEFT, .LEFT, .DOWN, .RIGHT, .RIGHT, .UP, .LEFT, .UP, .RIGHT, .DOWN], [.LEFT, .LEFT, .DOWN, .RIGHT, .RIGHT, .UP, .LEFT, .UP, .RIGHT, .DOWN, .LEFT, .LEFT, .DOWN, .RIGHT, .RIGHT, .UP, .LEFT, .UP, .RIGHT, .DOWN], [], [.LEFT, .UP, .RIGHT, .DOWN, .RIGHT, .UP, .UP, .LEFT, .DOWN, .DOWN, .LEFT, .UP, .RIGHT, .DOWN, .RIGHT, .UP, .UP, .LEFT, .DOWN], [.LEFT, .LEFT, .UP, .RIGHT, .DOWN, .RIGHT, .UP, .UP, .LEFT, .DOWN, .DOWN, .LEFT, .UP, .RIGHT, .DOWN, .RIGHT, .UP, .UP, .LEFT, .DOWN]],
   [[], [.DOWN, .DOWN, .RIGHT, .UP, .UP, .LEFT, .DOWN, .LEFT, .DOWN, .RIGHT, .RIGHT, .UP, .UP, .LEFT, .DOWN], [.DOWN, .LEFT, .DOWN, .RIGHT, .UP, .UP, .LEFT, .DOWN, .LEFT, .DOWN, .RIGHT, .RIGHT, .UP, .UP, .LEFT, .DOWN], [], [.DOWN, .RIGHT, .UP, .UP, .LEFT, .DOWN, .LEFT, .DOWN, .RIGHT, .RIGHT, .UP, .UP, .LEFT, .DOWN], [.LEFT, .DOWN, .RIGHT, .UP, .UP, .LEFT, .DOWN, .LEFT, .DOWN, .RIGHT, .RIGHT, .UP, .UP, .LEFT, .DOWN], [.UP, .RIGHT, .DOWN, .RIGHT, .UP, .UP, .LEFT, .DOWN, .DOWN, .LEFT, .UP, .RIGHT, .DOWN, .RIGHT, .UP, .UP, .LEFT, .DOWN], [], [.UP, .LEFT, .DOWN, .RIGHT, .UP, .UP, .LEFT, .DOWN, .LEFT, .DOWN, .RIGHT, .RIGHT, .UP, .UP, .LEFT, .DOWN]],
   [[], [.DOWN, .RIGHT, .DOWN, .LEFT, .UP, .RIGHT, .UP, .LEFT, .DOWN, .LEFT, .DOWN, .RIGHT, .RIGHT, .UP, .UP, .LEFT, .DOWN], [.DOWN, .DOWN, .LEFT, .UP, .RIGHT, .UP, .LEFT, .DOWN, .LEFT, .DOWN, .RIGHT, .RIGHT, .UP, .UP, .LEFT, .DOWN], [], [.RIGHT, .DOWN, .LEFT, .UP, .RIGHT, .UP, .LEFT, .DOWN, .LEFT, .DOWN, .RIGHT, .RIGHT, .UP, .UP, .LEFT, .DOWN], [.DOWN, .LEFT, .UP, .RIGHT, .UP, .LEFT, .DOWN, .LEFT, .DOWN, .RIGHT, .RIGHT, .UP, .UP, .LEFT, .DOWN], [.UP, .RIGHT, .RIGHT, .DOWN, .LEFT, .LEFT, .UP, .RIGHT, .RIGHT, .UP, .LEFT, .DOWN, .DOWN, .RIGHT, .UP, .UP, .LEFT, .DOWN], [.UP, .RIGHT, .DOWN, .LEFT, .UP, .RIGHT, .UP, .LEFT, .DOWN, .LEFT, .DOWN, .RIGHT, .RIGHT, .UP, .UP, .LEFT, .DOWN], []]],
  [[[], [], [], [], [], [], [], [], []],
   [[], [], [.LEFT, .DOWN], [.DOWN, .RIGHT, .RIGHT, .UP, .UP, .LEFT, .DOWN], [], [.UP, .LEFT, .DOWN], [.RIGHT, .RIGHT, .UP, .UP, .LEFT, .DOWN], [.RIGHT, .UP, .UP, .LEFT, .DOWN], [.UP, .UP, .LEFT, .DOWN]],
   [[], [.DOWN], [], [.DOWN, .RIGHT, .UP, .UP, .RIGHT, .DOWN, .LEFT, .DOWN, .RIGHT, .UP, .UP, .LEFT, .DOWN], [], [.DOWN, .LEFT, .UP, .UP, .RIGHT, .DOWN, .LEFT, .DOWN, .RIGHT, .UP, .UP, .LEFT, .DOWN], [.RIGHT, .UP, .UP, .RIGHT, .DOWN, .LEFT, .DOWN, .RIGHT, .UP, .UP, .LEFT, .DOWN], [.UP, .UP, .RIGHT, .DOWN, .LEFT, .DOWN, .RIGHT, .UP, .UP, .LEFT, .DOWN], [.LEFT, .UP, .UP, .RIGHT, .DOWN, .LEFT, .DOWN, .RIGHT, .UP, .UP, .LEFT, .DOWN]],
   [[], [.DOWN, .RIGHT, .UP, .LEFT, .DOWN, .LEFT, .DOWN, .RIGHT, .RIGHT, .UP, .LEFT, .UP, .RIGHT, .DOWN], [.DOWN, .LEFT, .UP, .RIGHT, .DOWN, .LEFT, .LEFT, .DOWN, .RIGHT, .RIGHT, .UP, .LEFT, .UP, .RIGHT, .DOWN], [], [], [.LEFT, .UP, .RIGHT, .DOWN, .LEFT, .LEFT, .DOWN, .RIGHT, .RIGHT, .UP, .LEFT, .UP, .RIGHT, .DOWN], [.RIGHT, .RIGHT, .UP, .LEFT, .UP, .RIGHT, .DOWN, .LEFT, .LEFT, .DOWN, .RIGHT, .RIGHT, .UP, .LEFT, .UP, .RIGHT, .DOWN], [.RIGHT, .UP, .LEFT, .UP, .RIGHT, .DOWN, .LEFT, .LEFT, .DOWN, .RIGHT, .RIGHT, .UP, .LEFT, .UP, .RIGHT, .DOWN], [.UP, .LEFT, .UP, .RIGHT, .DOWN, .LEFT, .LEFT, .DOWN, .RIGHT, .RIGHT, .UP, .LEFT, .UP, .RIGHT, .DOWN]],
   [[], [], [], [], [], [], [], [], []],
   [[], [.DOWN, .DOWN, .RIGHT, .UP, .UP, .LEFT, .DOWN, .RIGHT, .DOWN, .LEFT, .UP, .UP, .RIGHT, .DOWN], [.DOWN, .DOWN, .LEFT, .UP, .UP, .RIGHT, .DOWN, .LEFT, .DOWN, .RIGHT, .UP, .UP, .LEFT, .DOWN], [.DOWN, .RIGHT, .UP, .RIGHT, .UP, .LEFT, .DOWN, .DOWN, .RIGHT, .UP, .UP, .LEFT, .DOWN], [], [], [.RIGHT, .UP, .RIGHT, .UP, .LEFT, .DOWN, .DOWN, .RIGHT, .UP, .UP, .LEFT, .DOWN], [.UP, .RIGHT, .UP, .LEFT, .DOWN, .DOWN, .RIGHT, .UP, .UP, .LEFT, .DOWN], [.UP, .LEFT, .UP, .RIGHT, .DOWN, .DOWN, .LEFT, .UP, .UP, .RIGHT, .DOWN]],
   [[], [.DOWN, .DOWN, .LEFT, .UP, .RIGHT, .RIGHT, .UP, .LEFT, .DOWN, .DOWN, .RIGHT, .UP, .LEFT, .UP, .RIGHT, .DOWN], [.DOWN, .LEFT, .UP, .RIGHT, .DOWN, .DOWN, .LEFT, .LEFT, .UP, .RIGHT, .DOWN, .RIGHT, .UP, .LEFT, .UP, .RIGHT, .DOWN], [.DOWN, .RIGHT, .RIGHT, .UP, .LEFT, .UP, .RIGHT, .DOWN, .LEFT, .LEFT, .DOWN, .RIGHT, .RIGHT, .UP, .LEFT, .UP, .RIGHT, .DOWN], [], [.LEFT, .UP, .RIGHT, .DOWN, .DOWN, .LEFT, .LEFT, .UP, .RIGHT, .DOWN, .RIGHT, .UP, .LEFT, .UP, .RIGHT, .DOWN], [], [.LEFT, .UP, .RIGHT, .DOWN, .RIGHT, .UP, .UP, .LEFT, .DOWN, .LEFT, .DOWN, .RIGHT, .RIGHT, .UP, .UP, .LEFT, .DOWN], [.UP, .LEFT, .UP, .RIGHT, .DOWN, .DOWN, .LEFT, .LEFT, .UP, .RIGHT, .DOWN, .RIGHT, .UP, .LEFT, .UP, .RIGHT, .DOWN]],
   [[], [.DOWN, .RIGHT, .UP, .LEFT, .DOWN, .DOWN, .RIGHT, .UP, .LEFT, .UP, .RIGHT, .DOWN], [.DOWN, .LEFT, .UP, .RIGHT, .DOWN, .LEFT, .DOWN, .RIGHT, .UP, .LEFT, .UP, .RIGHT, .DOWN], [.RIGHT, .DOWN, .RIGHT, .UP, .UP, .LEFT, .DOWN, .LEFT, .DOWN, .RIGHT, .RIGHT, .UP, .UP, .LEFT, .DOWN], [], [.LEFT, .UP, .RIGHT, .DOWN, .LEFT, .DOWN, .RIGHT, .UP, .LEFT, .UP, .RIGHT, .DOWN], [.UP, .RIGHT, .DOWN, .RIGHT, .UP, .UP, .LEFT, .DOWN, .LEFT, .DOWN, .RIGHT, .RIGHT, .UP, .UP, .LEFT, .DOWN], [], [.UP, .LEFT, .UP, .RIGHT, .DOWN, .LEFT, .DOWN, .RIGHT, .UP, .LEFT, .UP, .RIGHT, .DOWN]],
   [[], [.DOWN, .RIGHT, .UP, .LEFT, .DOWN, .RIGHT, .DOWN, .LEFT, .UP, .UP, .RIGHT, .DOWN], [.DOWN, .LEFT, .UP, .RIGHT, .DOWN, .DOWN, .LEFT, .UP, .UP, .RIGHT, .DOWN], [.DOWN, .RIGHT, .RIGHT, .UP, .LEFT, .UP, .RIGHT, .DOWN, .LEFT, .DOWN, .RIGHT, .UP, .LEFT, .UP, .RIGHT, .DOWN], [], [.LEFT, .UP, .RIGHT, .DOWN, .DOWN, .LEFT, .UP, .UP, .RIGHT, .DOWN], [.RIGHT, .RIGHT, .UP, .LEFT, .UP, .RIGHT, .DOWN, .LEFT, .DOWN, .RIGHT, .UP, .LEFT, .UP, .RIGHT, .DOWN], [.RIGHT, .UP, .LEFT, .UP, .RIGHT, .DOWN, .LEFT, .DOWN, .RIGHT, .UP, .LEFT, .UP, .RIGHT, .DOWN], []]],
  [[[], [], [], [], [], [], [], [], []],
   [[], [], [.LEFT, .DOWN, .DOWN, .RIGHT, .UP, .LEFT, .UP, .RIGHT, .DOWN, .DOWN, .LEFT, .UP, .RIGHT, .UP, .LEFT, .DOWN], [.RIGHT, .RIGHT, .UP, .LEFT, .DOWN], [.RIGHT, .UP, .LEFT, .DOWN], [], [.UP, .RIGHT, .RIGHT, .UP, .LEFT, .DOWN], [.UP, .RIGHT, .UP, .LEFT, .DOWN], [.LEFT, .UP, .RIGHT, .UP, .LEFT, .DOWN]],
   [[], [.DOWN, .DOWN, .RIGHT, .UP, .LEFT, .UP, .RIGHT, .DOWN, .DOWN, .LEFT, .UP, .RIGHT, .UP, .LEFT, .DOWN], [], [.DOWN, .RIGHT, .RIGHT, .UP, .LEFT, .UP, .RIGHT, .DOWN, .DOWN, .LEFT, .UP, .RIGHT, .UP, .LEFT, .DOWN], [.DOWN, .RIGHT, .UP, .LEFT, .UP, .RIGHT, .DOWN, .DOWN, .LEFT, .UP, .RIGHT, .UP, .LEFT, .DOWN], [], [.RIGHT, .RIGHT, .UP, .LEFT, .UP, .RIGHT, .DOWN, .DOWN, .LEFT, .UP, .RIGHT, .UP, .LEFT, .DOWN], [.RIGHT, .UP, .LEFT, .UP, .RIGHT, .DOWN, .DOWN, .LEFT, .UP, .RIGHT, .UP, .LEFT, .DOWN], [.UP, .LEFT, .UP, .RIGHT, .DOWN, .DOWN, .LEFT, .UP, .RIGHT, .UP, .LEFT, .DOWN]],
   [[], [.RIGHT, .DOWN, .LEFT, .LEFT, .DOWN, .RIGHT, .RIGHT, .UP, .LEFT, .UP, .RIGHT, .DOWN], [.DOWN, .LEFT, .LEFT, .DOWN, .RIGHT, .RIGHT, .UP, .LEFT, .UP, .RIGHT, .DOWN], [], [.UP, .RIGHT, .DOWN, .LEFT, .LEFT, .DOWN, .RIGHT, .RIGHT, .UP, .LEFT, .UP, .RIGHT, .DOWN], [], [.RIGHT, .UP, .UP, .RIGHT, .DOWN, .LEFT, .LEFT, .DOWN, .RIGHT, .RIGHT, .UP, .LEFT, .UP, .RIGHT, .DOWN], [.UP, .UP, .RIGHT, .DOWN, .LEFT, .LEFT, .DOWN, .RIGHT, .RIGHT, .UP, .LEFT, .UP, .RIGHT, .DOWN], [.LEFT, .UP, .UP, .RIGHT, .DOWN, .LEFT, .LEFT, .DOWN, .RIGHT, .RIGHT, .UP, .LEFT, .UP, .RIGHT, .DOWN]],
   [[], [.DOWN, .RIGHT, .UP, .LEFT, .DOWN], [.DOWN, .LEFT, .UP, .RIGHT, .DOWN], [.DOWN, .RIGHT, .UP, .UP, .RIGHT, .DOWN, .LEFT, .DOWN, .RIGHT, .UP, .LEFT, .UP, .RIGHT, .DOWN], [], [], [.RIGHT, .UP, .UP, .RIGHT, .DOWN, .LEFT, .DOWN, .RIGHT, .UP, .LEFT, .UP, .RIGHT, .DOWN], [.UP, .UP, .RIGHT, .DOWN, .LEFT, .DOWN, .RIGHT, .UP, .LEFT, .UP, .RIGHT, .DOWN], [.UP, .UP, .LEFT, .DOWN, .RIGHT, .DOWN, .LEFT, .UP, .RIGHT, .UP, .LEFT, .DOWN]],
   [[], [], [], [], [], [], [], [], []],
   [[], [.RIGHT, .DOWN, .DOWN, .LEFT, .LEFT, .UP, .RIGHT, .DOWN, .RIGHT, .UP, .LEFT, .UP, .RIGHT, .DOWN], [.DOWN, .DOWN, .LEFT, .LEFT, .UP, .RIGHT, .DOWN, .RIGHT, .UP, .LEFT, .UP, .RIGHT, .DOWN], [.DOWN, .RIGHT, .UP, .UP, .RIGHT, .DOWN, .LEFT, .LEFT, .DOWN, .RIGHT, .RIGHT, .UP, .LEFT, .UP, .RIGHT, .DOWN], [.UP, .RIGHT, .DOWN, .DOWN, .LEFT, .LEFT, .UP, .RIGHT, .DOWN, .RIGHT, .UP, .LEFT, .UP, .RIGHT, .DOWN], [], [], [.LEFT, .UP, .RIGHT, .UP, .RIGHT, .DOWN, .LEFT, .DOWN, .RIGHT, .UP, .LEFT, .UP, .RIGHT, .DOWN], [.LEFT, .LEFT, .UP, .RIGHT, .UP, .RIGHT, .DOWN, .LEFT, .DOWN, .RIGHT, .UP, .LEFT, .UP, .RIGHT, .DOWN]],
   [[], [.RIGHT, .DOWN, .LEFT, .DOWN, .RIGHT, .UP, .LEFT, .UP, .RIGHT, .DOWN], [.DOWN, .LEFT, .DOWN, .RIGHT, .UP, .LEFT, .UP, .RIGHT, .DOWN], [.RIGHT, .UP, .RIGHT, .DOWN, .LEFT, .DOWN, .RIGHT, .UP, .LEFT, .UP, .RIGHT, .DOWN], [.UP, .RIGHT, .DOWN, .LEFT, .DOWN, .RIGHT, .UP, .LEFT, .UP, .RIGHT, .DOWN], [], [.UP, .RIGHT, .UP, .RIGHT, .DOWN, .LEFT, .DOWN, .RIGHT, .UP, .LEFT, .UP, .RIGHT, .DOWN], [], [.LEFT, .UP, .UP, .RIGHT, .DOWN, .DOWN, .LEFT, .UP, .UP, .RIGHT, .DOWN]],
   [[], [.RIGHT, .DOWN, .DOWN, .LEFT, .UP, .UP, .RIGHT, .DOWN], [.DOWN, .DOWN, .LEFT, .UP, .UP, .RIGHT, .DOWN], [.RIGHT, .UP, .RIGHT, .DOWN, .DOWN, .LEFT, .UP, .UP, .RIGHT, .DOWN], [.UP, .RIGHT, .DOWN, .DOWN, .LEFT, .UP, .UP, .RIGHT, .DOWN], [], [.UP, .RIGHT, .UP, .RIGHT, .DOWN, .DOWN, .LEFT, .UP, .UP, .RIGHT, .DOWN], [.UP, .UP, .RIGHT, .DOWN, .DOWN, .LEFT, .UP, .UP, .RIGHT, .DOWN], []]],
  [[[], [], [], [], [], [], [], [], []],
   [[], [], [.DOWN, .DOWN, .LEFT, .LEFT, .UP, .RIGHT, .DOWN, .RIGHT, .UP, .UP, .LEFT, .DOWN], [.DOWN, .RIGHT, .UP, .LEFT, .DOWN, .RIGHT, .RIGHT, .UP, .UP, .LEFT, .DOWN], [.DOWN, .LEFT, .UP, .RIGHT, .DOWN, .RIGHT, .UP, .UP, .LEFT, .DOWN], [.DOWN, .LEFT, .LEFT, .UP, .RIGHT, .DOWN, .RIGHT, .UP, .UP, .LEFT, .DOWN], [], [.LEFT, .UP, .RIGHT, .DOWN, .RIGHT, .UP, .UP, .LEFT, .DOWN], [.LEFT, .LEFT, .UP, .RIGHT, .DOWN, .RIGHT, .UP, .UP, .LEFT, .DOWN]],
   [[], [.RIGHT, .DOWN, .DOWN, .LEFT, .LEFT, .UP, .RIGHT, .DOWN, .RIGHT, .UP, .UP, .LEFT, .DOWN], [], [.DOWN, .RIGHT, .UP, .UP, .RIGHT, .DOWN, .LEFT, .LEFT, .DOWN, .RIGHT, .RIGHT, .UP, .UP, .LEFT, .DOWN], [.UP, .RIGHT, .DOWN, .DOWN, .LEFT, .LEFT, .UP, .RIGHT, .DOWN, .RIGHT, .UP, .UP, .LEFT, .DOWN], [.DOWN, .LEFT, .LEFT, .UP, .RIGHT, .UP, .RIGHT, .DOWN, .LEFT, .DOWN, .RIGHT, .UP, .UP, .LEFT, .DOWN], [], [.LEFT, .UP, .RIGHT, .UP, .RIGHT, .DOWN, .LEFT, .DOWN, .RIGHT, .UP, .UP, .LEFT, .DOWN], [.LEFT, .LEFT, .UP, .RIGHT, .UP, .RIGHT, .DOWN, .LEFT, .DOWN, .RIGHT, .UP, .UP, .LEFT, .DOWN]],
   [[], [.DOWN, .LEFT, .DOWN, .RIGHT, .RIGHT, .UP, .UP, .LEFT, .DOWN, .LEFT, .DOWN, .RIGHT, .RIGHT, .UP, .UP, .LEFT, .DOWN], [.DOWN, .LEFT, .LEFT, .DOWN, .RIGHT, .RIGHT, .UP, .UP, .LEFT, .DOWN, .LEFT, .DOWN, .RIGHT, .RIGHT, .UP, .UP, .LEFT, .DOWN], [], [.LEFT, .DOWN, .RIGHT, .RIGHT, .UP, .UP, .LEFT, .DOWN, .LEFT, .DOWN, .RIGHT, .RIGHT, .UP, .UP, .LEFT, .DOWN], [.LEFT, .LEFT, .DOWN, .RIGHT, .RIGHT, .UP, .UP, .LEFT, .DOWN, .LEFT, .DOWN, .RIGHT, .RIGHT, .UP, .UP, .LEFT, .DOWN], [], [.UP, .LEFT, .DOWN, .RIGHT, .RIGHT, .UP, .UP, .LEFT, .DOWN, .LEFT, .DOWN, .RIGHT, .RIGHT, .UP, .UP, .LEFT, .DOWN], [.UP, .LEFT, .LEFT, .DOWN, .RIGHT, .RIGHT, .UP, .UP, .LEFT, .DOWN, .LEFT, .DOWN, .RIGHT, .RIGHT, .UP, .UP, .LEFT, .DOWN]],
   [[], [.DOWN, .DOWN, .LEFT, .UP, .RIGHT, .DOWN, .RIGHT, .UP, .UP, .LEFT, .DOWN], [.LEFT, .DOWN, .DOWN, .LEFT, .UP, .RIGHT, .DOWN, .RIGHT, .UP, .UP, .LEFT, .DOWN], [.DOWN, .RIGHT, .RIGHT, .UP, .UP, .LEFT, .DOWN, .LEFT, .DOWN, .RIGHT, .RIGHT, .UP, .UP, .LEFT, .DOWN], [], [.UP, .LEFT, .DOWN, .DOWN, .LEFT, .UP, .RIGHT, .DOWN, .RIGHT, .UP, .UP, .LEFT, .DOWN], [], [.RIGHT, .UP, .UP, .LEFT, .DOWN, .DOWN, .LEFT, .UP, .RIGHT, .DOWN, .RIGHT, .UP, .UP, .LEFT, .DOWN], [.UP, .UP, .LEFT, .DOWN, .DOWN, .LEFT, .UP, .RIGHT, .DOWN, .RIGHT, .UP, .UP, .LEFT, .DOWN]],
   [[], [.DOWN, .DOWN, .LEFT, .UP, .RIGHT, .RIGHT, .UP, .LEFT, .DOWN, .DOWN, .RIGHT, .UP, .UP, .LEFT, .DOWN], [.DOWN, .DOWN, .LEFT, .LEFT, .UP, .RIGHT, .UP, .RIGHT, .DOWN, .LEFT, .DOWN, .RIGHT, .UP, .UP, .LEFT, .DOWN], [.DOWN, .RIGHT, .UP, .RIGHT, .UP, .LEFT, .DOWN, .LEFT, .DOWN, .RIGHT, .RIGHT, .UP, .UP, .LEFT, .DOWN], [.DOWN, .LEFT, .UP, .RIGHT, .RIGHT, .UP, .LEFT, .DOWN, .DOWN, .RIGHT, .UP, .UP, .LEFT, .DOWN], [], [], [.LEFT, .UP, .RIGHT, .RIGHT, .UP, .LEFT, .DOWN, .DOWN, .RIGHT, .UP, .UP, .LEFT, .DOWN], [.LEFT, .LEFT, .UP, .RIGHT, .RIGHT, .UP, .LEFT, .DOWN, .DOWN, .RIGHT, .UP, .UP, .LEFT, .DOWN]],
   [[], [], [], [], [], [], [], [], []],
   [[], [.DOWN, .DOWN, .RIGHT, .UP, .UP, .LEFT, .DOWN, .DOWN, .LEFT, .UP, .RIGHT, .DOWN, .RIGHT, .UP, .UP, .LEFT, .DOWN], [.DOWN, .LEFT, .DOWN, .RIGHT, .UP, .UP, .LEFT, .DOWN, .DOWN, .LEFT, .UP, .RIGHT, .DOWN, .RIGHT, .UP, .UP, .LEFT, .DOWN], [.RIGHT, .DOWN, .RIGHT, .UP, .UP, .LEFT, .DOWN, .DOWN, .LEFT, .UP, .RIGHT, .DOWN, .RIGHT, .UP, .UP, .LEFT, .DOWN], [.DOWN, .RIGHT, .UP, .UP, .LEFT, .DOWN, .DOWN, .LEFT, .UP, .RIGHT, .DOWN, .RIGHT, .UP, .UP, .LEFT, .DOWN], [.LEFT, .DOWN, .RIGHT, .UP, .UP, .LEFT, .DOWN, .DOWN, .LEFT, .UP, .RIGHT, .DOWN, .RIGHT, .UP, .UP, .LEFT, .DOWN], [], [], [.UP, .LEFT, .DOWN, .RIGHT, .UP, .UP, .LEFT, .DOWN, .DOWN, .LEFT, .UP, .RIGHT, .DOWN, .RIGHT, .UP, .UP, .LEFT, .DOWN]],
   [[], [.DOWN, .RIGHT, .DOWN, .LEFT, .LEFT, .UP, .RIGHT, .RIGHT, .UP, .LEFT, .DOWN, .DOWN, .RIGHT, .UP, .UP, .LEFT, .DOWN], [.DOWN, .DOWN, .LEFT, .LEFT, .UP, .RIGHT, .RIGHT, .UP, .LEFT, .DOWN, .DOWN, .RIGHT, .UP, .UP, .LEFT, .DOWN], [.RIGHT, .RIGHT, .DOWN, .LEFT, .LEFT, .UP, .RIGHT, .RIGHT, .UP, .LEFT, .DOWN, .DOWN, .RIGHT, .UP, .UP, .LEFT, .DOWN], [.RIGHT, .DOWN, .LEFT, .LEFT, .UP, .RIGHT, .RIGHT, .UP, .LEFT, .DOWN, .DOWN, .RIGHT, .UP, .UP, .LEFT, .DOWN], [.DOWN, .LEFT, .LEFT, .UP, .RIGHT, .RIGHT, .UP, .LEFT, .DOWN, .DOWN, .RIGHT, .UP, .UP, .LEFT, .DOWN], [], [.UP, .RIGHT, .DOWN, .LEFT, .LEFT, .UP, .RIGHT, .RIGHT, .UP, .LEFT, .DOWN, .DOWN, .RIGHT, .UP, .UP, .LEFT, .DOWN], []]],
  [[[], [], [], [], [], [], [], [], []],
   [[], [], [.DOWN, .LEFT, .DOWN, .RIGHT, .UP, .UP, .LEFT, .DOWN], [.RIGHT, .DOWN, .RIGHT, .UP, .UP, .LEFT, .DOWN], [.DOWN, .RIGHT, .UP, .UP, .LEFT, .DOWN], [.LEFT, .DOWN, .RIGHT, .UP, .UP, .LEFT, .DOWN], [.UP, .RIGHT, .DOWN, .RIGHT, .UP, .UP, .LEFT, .DOWN], [], [.UP, .LEFT, .DOWN, .RIGHT, .UP, .UP, .LEFT, .DOWN]],
   [[], [.RIGHT, .DOWN, .LEFT, .DOWN, .RIGHT, .UP, .UP, .LEFT, .DOWN], [], [.RIGHT, .UP, .RIGHT, .DOWN, .LEFT, .DOWN, .RIGHT, .UP, .UP, .LEFT, .DOWN], [.UP, .RIGHT, .DOWN, .LEFT, .DOWN, .RIGHT, .UP, .UP, .LEFT, .DOWN], [.LEFT, .UP, .RIGHT, .DOWN, .LEFT, .DOWN, .RIGHT, .UP, .UP, .LEFT, .DOWN], [.UP, .RIGHT, .UP, .RIGHT, .DOWN, .LEFT, .DOWN, .RIGHT, .UP, .UP, .LEFT, .DOWN], [], [.UP, .LEFT, .UP, .RIGHT, .DOWN, .LEFT, .DOWN, .RIGHT, .UP, .UP, .LEFT, .DOWN]],
   [[], [.DOWN, .DOWN, .RIGHT, .UP, .LEFT, .UP, .RIGHT, .DOWN, .LEFT, .LEFT, .DOWN, .RIGHT, .RIGHT, .UP, .LEFT, .UP, .RIGHT, .DOWN], [.DOWN, .DOWN, .LEFT, .UP, .LEFT, .DOWN, .RIGHT, .RIGHT, .UP, .UP, .LEFT, .DOWN, .DOWN, .RIGHT, .UP, .UP, .LEFT, .DOWN], [], [.DOWN, .RIGHT, .UP, .LEFT, .UP, .RIGHT, .DOWN, .LEFT, .LEFT, .DOWN, .RIGHT, .RIGHT, .UP, .LEFT, .UP, .RIGHT, .DOWN], [.DOWN, .LEFT, .UP, .LEFT, .DOWN, .RIGHT, .RIGHT, .UP, .UP, .LEFT, .DOWN, .DOWN, .RIGHT, .UP, .UP, .LEFT, .DOWN], [.RIGHT, .UP, .LEFT, .DOWN, .RIGHT, .RIGHT, .UP, .UP, .LEFT, .DOWN, .LEFT, .DOWN, .RIGHT, .RIGHT, .UP, .UP, .LEFT, .DOWN], [], [.LEFT, .UP, .LEFT, .DOWN, .RIGHT, .RIGHT, .UP, .UP, .LEFT, .DOWN, .DOWN, .RIGHT, .UP, .UP, .LEFT, .DOWN]],
   [[], [.DOWN, .DOWN, .RIGHT, .UP, .UP, .LEFT, .DOWN], [.LEFT, .DOWN, .DOWN, .RIGHT, .UP, .UP, .LEFT, .DOWN], [.DOWN, .RIGHT, .RIGHT, .UP, .UP, .LEFT, .DOWN, .DOWN, .LEFT, .UP, .RIGHT, .DOWN, .RIGHT, .UP, .UP, .LEFT, .DOWN], [], [.UP, .LEFT, .DOWN, .DOWN, .RIGHT, .UP, .UP, .LEFT, .DOWN], [.RIGHT, .RIGHT, .UP, .UP, .LEFT, .DOWN, .DOWN, .LEFT, .UP, .RIGHT, .DOWN, .RIGHT, .UP, .UP, .LEFT, .DOWN], [], [.UP, .UP, .LEFT, .DOWN, .DOWN, .RIGHT, .UP, .UP, .LEFT, .DOWN]],
   [[], [.DOWN, .RIGHT, .UP, .LEFT, .DOWN, .DOWN, .RIGHT, .UP, .UP, .LEFT, .DOWN], [.DOWN, .LEFT, .UP, .RIGHT, .DOWN, .LEFT, .DOWN, .RIGHT, .UP, .UP, .LEFT, .DOWN], [.RIGHT, .RIGHT, .UP, .LEFT, .DOWN, .DOWN, .RIGHT, .UP, .UP, .LEFT, .DOWN], [.RIGHT, .UP, .LEFT, .DOWN, .DOWN, .RIGHT, .UP, .UP, .LEFT, .DOWN], [], [.UP, .RIGHT, .RIGHT, .UP, .LEFT, .DOWN, .DOWN, .RIGHT, .UP, .UP, .LEFT, .DOWN], [], [.LEFT, .UP, .RIGHT, .UP, .LEFT, .DOWN, .RIGHT, .DOWN, .LEFT, .UP, .RIGHT, .UP, .LEFT, .DOWN]],
   [[], [.DOWN, .DOWN, .LEFT, .UP, .RIGHT, .DOWN, .RIGHT, .UP, .UP, .LEFT, .DOWN, .LEFT, .DOWN, .RIGHT, .RIGHT, .UP, .UP, .LEFT, .DOWN], [.DOWN, .DOWN, .LEFT, .LEFT, .UP, .RIGHT, .DOWN, .RIGHT, .UP, .UP, .LEFT, .DOWN, .DOWN, .RIGHT, .UP, .UP, .LEFT, .DOWN], [.DOWN, .RIGHT, .UP, .LEFT, .DOWN, .RIGHT, .RIGHT, .UP, .UP, .LEFT, .DOWN, .LEFT, .DOWN, .RIGHT, .RIGHT, .UP, .UP, .LEFT, .DOWN], [.DOWN, .LEFT, .UP, .RIGHT, .DOWN, .RIGHT, .UP, .UP, .LEFT, .DOWN, .LEFT, .DOWN, .RIGHT, .RIGHT, .UP, .UP, .LEFT, .DOWN], [.DOWN, .LEFT, .LEFT, .UP, .RIGHT, .DOWN, .RIGHT, .UP, .UP, .LEFT, .DOWN, .DOWN, .RIGHT, .UP, .UP, .LEFT, .DOWN], [], [], [.LEFT, .LEFT, .UP, .RIGHT, .DOWN, .RIGHT, .UP, .UP, .LEFT, .DOWN, .DOWN, .RIGHT, .UP, .UP, .LEFT, .DOWN]],
   [[], [], [], [], [], [], [], [], []],
   [[], [.DOWN, .DOWN, .RIGHT, .UP, .LEFT, .UP, .RIGHT, .DOWN, .LEFT, .DOWN, .RIGHT, .UP, .LEFT, .UP, .RIGHT, .DOWN], [.DOWN, .DOWN, .LEFT, .UP, .RIGHT, .UP, .LEFT, .DOWN, .RIGHT, .DOWN, .LEFT, .UP, .RIGHT, .UP, .LEFT, .DOWN], [.RIGHT, .DOWN, .RIGHT, .UP, .LEFT, .UP, .RIGHT, .DOWN, .LEFT, .DOWN, .RIGHT, .UP, .LEFT, .UP, .RIGHT, .DOWN], [.DOWN, .RIGHT, .UP, .LEFT, .UP, .RIGHT, .DOWN, .LEFT, .DOWN, .RIGHT, .UP, .LEFT, .UP, .RIGHT, .DOWN], [.DOWN, .LEFT, .UP, .RIGHT, .UP, .LEFT, .DOWN, .RIGHT, .DOWN, .LEFT, .UP, .RIGHT, .UP, .LEFT, .DOWN], [.UP, .RIGHT, .DOWN, .RIGHT, .UP, .LEFT, .UP, .RIGHT, .DOWN, .LEFT, .DOWN, .RIGHT, .UP, .LEFT, .UP, .RIGHT, .DOWN], [], []]],
  [[[], [], [], [], [], [], [], [], []],
   [[], [], [.DOWN, .DOWN, .LEFT, .UP, .RIGHT, .UP, .LEFT, .DOWN], [.RIGHT, .RIGHT, .DOWN, .LEFT, .UP, .RIGHT, .UP, .LEFT, .DOWN], [.RIGHT, .DOWN, .LEFT, .UP, .RIGHT, .UP, .LEFT, .DOWN], [.DOWN, .LEFT, .UP, .RIGHT, .UP, .LEFT, .DOWN], [.UP, .RIGHT, .RIGHT, .DOWN, .LEFT, .UP, .RIGHT, .UP, .LEFT, .DOWN], [.UP, .RIGHT, .DOWN, .LEFT, .UP, .RIGHT, .UP, .LEFT, .DOWN], []],
   [[], [.RIGHT, .DOWN, .DOWN, .LEFT, .UP, .RIGHT, .UP, .LEFT, .DOWN], [], [.RIGHT, .UP, .RIGHT, .DOWN, .DOWN, .LEFT, .UP, .RIGHT, .UP, .LEFT, .DOWN], [.UP, .RIGHT, .DOWN, .DOWN, .LEFT, .UP, .RIGHT, .UP, .LEFT, .DOWN], [.LEFT, .UP, .RIGHT, .DOWN, .DOWN, .LEFT, .UP, .RIGHT, .UP, .LEFT, .DOWN], [.UP, .RIGHT, .UP, .RIGHT, .DOWN, .DOWN, .LEFT, .UP, .RIGHT, .UP, .LEFT, .DOWN], [.UP, .UP, .RIGHT, .DOWN, .DOWN, .LEFT, .UP, .RIGHT, .UP, .LEFT, .DOWN], []],
   [[], [.DOWN, .LEFT, .DOWN, .RIGHT, .RIGHT, .UP, .UP, .LEFT, .DOWN, .DOWN, .RIGHT, .UP, .UP, .LEFT, .DOWN], [.DOWN, .LEFT, .LEFT, .DOWN, .RIGHT, .RIGHT, .UP, .UP, .LEFT, .DOWN, .DOWN, .RIGHT, .UP, .UP, .LEFT, .DOWN], [], [.LEFT, .DOWN, .RIGHT, .RIGHT, .UP, .UP, .LEFT, .DOWN, .DOWN, .RIGHT, .UP, .UP, .LEFT, .DOWN], [.LEFT, .LEFT, .DOWN, .RIGHT, .RIGHT, .UP, .UP, .LEFT, .DOWN, .DOWN, .RIGHT, .UP, .UP, .LEFT, .DOWN], [.RIGHT, .UP, .LEFT, .DOWN, .RIGHT, .RIGHT, .UP, .UP, .LEFT, .DOWN, .DOWN, .RIGHT, .UP, .UP, .LEFT, .DOWN], [.UP, .LEFT, .DOWN, .RIGHT, .RIGHT, .UP, .UP, .LEFT, .DOWN, .DOWN, .RIGHT, .UP, .UP, .LEFT, .DOWN], []],
   [[], [.DOWN, .RIGHT, .DOWN, .LEFT, .UP, .RIGHT, .UP, .LEFT, .DOWN], [.LEFT, .DOWN, .RIGHT, .DOWN, .LEFT, .UP, .RIGHT, .UP, .LEFT, .DOWN], [.DOWN, .RIGHT, .RIGHT, .UP, .UP, .LEFT, .DOWN, .DOWN, .RIGHT, .UP, .UP, .LEFT, .DOWN], [], [.UP, .LEFT, .DOWN, .RIGHT, .DOWN, .LEFT, .UP, .RIGHT, .UP, .LEFT, .DOWN], [.RIGHT, .RIGHT, .UP, .UP, .LEFT, .DOWN, .DOWN, .RIGHT, .UP, .UP, .LEFT, .DOWN], [.RIGHT, .UP, .UP, .LEFT, .DOWN, .DOWN, .RIGHT, .UP, .UP, .LEFT, .DOWN], []],
   [[], [.DOWN, .RIGHT, .UP, .LEFT, .DOWN, .RIGHT, .DOWN, .LEFT, .UP, .RIGHT, .UP, .LEFT, .DOWN], [.DOWN, .LEFT, .UP, .RIGHT, .DOWN, .DOWN, .LEFT, .UP, .RIGHT, .UP, .LEFT, .DOWN], [.RIGHT, .RIGHT, .UP, .LEFT, .DOWN, .RIGHT, .DOWN, .LEFT, .UP, .RIGHT, .UP, .LEFT, .DOWN], [.RIGHT, .UP, .LEFT, .DOWN, .RIGHT, .DOWN, .LEFT, .UP, .RIGHT, .UP, .LEFT, .DOWN], [], [.UP, .RIGHT, .RIGHT, .UP, .LEFT, .DOWN, .RIGHT, .DOWN, .LEFT, .UP, .RIGHT, .UP, .LEFT, .DOWN], [.UP, .RIGHT, .UP, .LEFT, .DOWN, .RIGHT, .DOWN, .LEFT, .UP, .RIGHT, .UP, .LEFT, .DOWN], []],
   [[], [.DOWN, .DOWN, .LEFT, .UP, .RIGHT, .DOWN, .RIGHT, .UP, .UP, .LEFT, .DOWN, .DOWN, .RIGHT, .UP, .UP, .LEFT, .DOWN], [.DOWN, .DOWN, .LEFT, .LEFT, .UP, .RIGHT, .UP, .RIGHT, .DOWN, .LEFT, .DOWN, .RIGHT, .UP, .LEFT, .UP, .RIGHT, .DOWN], [.DOWN, .RIGHT, .UP, .LEFT, .DOWN, .RIGHT, .RIGHT, .UP, .UP, .LEFT, .DOWN, .DOWN, .RIGHT, .UP, .UP, .LEFT, .DOWN], [.DOWN, .LEFT, .UP, .RIGHT, .DOWN, .RIGHT, .UP, .UP, .LEFT, .DOWN, .DOWN, .RIGHT, .UP, .UP, .LEFT, .DOWN], [.DOWN, .LEFT, .LEFT, .UP, .RIGHT, .UP, .RIGHT, .DOWN, .LEFT, .DOWN, .RIGHT, .UP, .LEFT, .UP, .RIGHT, .DOWN], [], [.LEFT, .UP, .RIGHT, .DOWN, .RIGHT, .UP, .UP, .LEFT, .DOWN, .DOWN, .RIGHT, .UP, .UP, .LEFT, .DOWN], []],
   [[], [.DOWN, .DOWN, .RIGHT, .UP, .UP, .LEFT, .DOWN, .DOWN, .RIGHT, .UP, .UP, .LEFT, .DOWN], [.DOWN, .DOWN, .LEFT, .UP, .UP, .RIGHT, .DOWN, .DOWN, .LEFT, .UP, .UP, .RIGHT, .DOWN], [.RIGHT, .DOWN, .RIGHT, .UP, .UP, .LEFT, .DOWN, .DOWN, .RIGHT, .UP, .UP, .LEFT, .DOWN], [.DOWN, .RIGHT, .UP, .UP, .LEFT, .DOWN, .DOWN, .RIGHT, .UP, .UP, .LEFT, .DOWN], [.DOWN, .LEFT, .UP, .UP, .RIGHT, .DOWN, .DOWN, .LEFT, .UP, .UP, .RIGHT, .DOWN], [.UP, .RIGHT, .DOWN, .RIGHT, .UP, .UP, .LEFT, .DOWN, .DOWN, .RIGHT, .UP, .UP, .LEFT, .DOWN], [], []],
   [[], [], [], [], [], [], [], [], []]]]

def stage2Seq (x y b : Nat) : List Dir := (((stage2Seqs.getD x []).getD y []).getD b [])

def stage3Seqs : List (List (List (List Dir))) := [
  [[[], [], [], [], [], [], [], [], []],
   [[], [], [], [], [], [], [], [], []],
   [[], [], [], [], [], [], [], [], []],
   [[], [], [], [], [], [], [], [], []],
   [[], [], [], [], [], [], [], [], []],
   [[], [], [], [], [], [], [], [], []],
   [[], [], [], [], [], [], [], [], []],
   [[], [], [], [], [], [], [], [], []],
   [[], [], [], [], [], [], [], [], []]],
  [[[], [], [], [], [], [], [], [], []],
   [[], [], [], [], [], [], [], [], []],
   [[], [], [], [], [], [], [], [], []],
   [[], [], [], [], [], [], [], [], []],
   [[], [], [], [], [], [], [], [], []],
   [[], [], [], [], [], [], [], [], []],
   [[], [], [], [], [], [], [], [], []],
   [[], [], [], [], [], [], [], [], []],
   [[], [], [], [], [], [], [], [], []]],
  [[[], [], [], [], [], [], [], [], []],
   [[], [], [], [], [], [], [], [], []],
   [[], [], [], [], [], [], [], [], []],
   [[], [], [], [], [], [], [], [], []],
   [[], [], [], [], [], [], [], [], []],
   [[], [], [], [], [], [], [], [], []],
   [[], [], [], [], [], [], [], [], []],
   [[], [], [], [], [], [], [], [], []],
   [[], [], [], [], [], [], [], [], []]],
  [[[], [], [], [], [], [], [], [], []],
   [[], [], [], [], [], [], [], [], []],
   [[], [], [], [], [], [], [], [], []],
   [[], [], [], [], [], [], [], [], []],
   [[], [], [], [], [], [.LEFT, .DOWN, .LEFT, .UP, .RIGHT, .RIGHT, .DOWN, .LEFT, .UP, .LEFT, .DOWN, .RIGHT], [.RIGHT, .UP, .RIGHT, .DOWN, .LEFT, .LEFT, .UP, .RIGHT, .DOWN, .RIGHT, .UP, .LEFT, .LEFT, .DOWN, .RIGHT], [.UP, .RIGHT, .DOWN, .LEFT, .LEFT, .UP, .RIGHT, .DOWN, .RIGHT, .UP, .LEFT, .LEFT, .DOWN, .RIGHT], [.UP, .LEFT, .DOWN, .LEFT, .UP, .RIGHT, .RIGHT, .DOWN, .LEFT, .UP, .LEFT, .DOWN, .RIGHT]],
   [[], [], [], [], [.DOWN, .LEFT, .UP, .RIGHT, .RIGHT, .DOWN, .LEFT, .UP, .LEFT, .DOWN, .RIGHT], [], [.UP, .RIGHT, .RIGHT, .DOWN, .LEFT, .UP, .LEFT, .DOWN, .RIGHT], [.LEFT, .UP, .RIGHT, .RIGHT, .DOWN, .LEFT, .UP, .LEFT, .DOWN, .RIGHT], [.LEFT, .LEFT, .UP, .RIGHT, .RIGHT, .DOWN, .LEFT, .UP, .LEFT, .DOWN, .RIGHT]],
   [[], [], [], [], [], [], [], [], []],
   [[], [], [], [], [.RIGHT, .DOWN, .LEFT, .LEFT, .UP, .RIGHT, .DOWN, .RIGHT, .UP, .LEFT, .LEFT, .DOWN, .RIGHT], [.DOWN, .LEFT, .LEFT, .UP, .RIGHT, .DOWN, .RIGHT, .UP, .LEFT, .LEFT, .DOWN, .RIGHT], [.RIGHT], [], [.LEFT, .LEFT, .UP, .RIGHT, .DOWN, .RIGHT, .UP, .LEFT, .LEFT, .DOWN, .RIGHT]],
   [[], [], [], [], [.DOWN, .LEFT, .UP, .RIGHT, .DOWN, .RIGHT, .UP, .LEFT, .LEFT, .DOWN, .RIGHT], [.DOWN, .LEFT, .LEFT, .UP, .RIGHT, .RIGHT, .DOWN, .LEFT, .UP, .LEFT, .DOWN, .RIGHT], [.UP, .RIGHT, .DOWN, .RIGHT, .UP, .LEFT, .LEFT, .DOWN, .RIGHT], [.LEFT, .UP, .RIGHT, .DOWN, .RIGHT, .UP, .LEFT, .LEFT, .DOWN, .RIGHT], []]],
  [[[], [], [], [], [], [], [], [], []],
   [[], [], [], [], [], [], [], [], []],
   [[], [], [], [], [], [], [], [], []],
   [[], [], [], [], [], [.DOWN, .LEFT, .LEFT, .UP, .RIGHT], [.UP, .RIGHT], [.LEFT, .UP, .RIGHT], [.LEFT, .LEFT, .UP, .RIGHT]],
   [[], [], [], [], [], [], [], [], []],
   [[], [], [], [.RIGHT, .DOWN, .LEFT, .UP, .RIGHT, .RIGHT, .DOWN, .LEFT, .UP, .LEFT, .DOWN, .RIGHT], [], [], [.UP, .RIGHT, .DOWN, .LEFT, .UP, .RIGHT, .RIGHT, .DOWN, .LEFT, .UP, .LEFT, .DOWN, .RIGHT], [.UP, .LEFT, .DOWN, .RIGHT, .UP, .RIGHT, .DOWN, .LEFT, .UP, .LEFT, .DOWN, .RIGHT], [.LEFT, .UP, .LEFT, .DOWN, .RIGHT, .UP, .RIGHT, .DOWN, .LEFT, .UP, .LEFT, .DOWN, .RIGHT]],
   [[], [], [], [.RIGHT], [], [.LEFT, .LEFT, .DOWN, .RIGHT, .UP, .RIGHT, .DOWN, .LEFT, .LEFT, .UP, .RIGHT], [], [.RIGHT, .UP, .LEFT, .LEFT, .DOWN, .RIGHT, .UP, .RIGHT, .DOWN, .LEFT, .LEFT, .UP, .RIGHT], [.UP, .LEFT, .LEFT, .DOWN, .RIGHT, .UP, .RIGHT, .DOWN, .LEFT, .LEFT, .UP, .RIGHT]],
   [[], [], [], [.RIGHT, .RIGHT, .DOWN, .LEFT, .LEFT, .UP, .RIGHT, .DOWN, .RIGHT, .UP, .LEFT, .LEFT, .DOWN, .RIGHT], [], [.LEFT, .DOWN, .LEFT, .UP, .RIGHT, .RIGHT, .DOWN, .LEFT, .LEFT, .UP, .RIGHT], [.RIGHT, .RIGHT, .UP, .LEFT, .LEFT, .DOWN, .RIGHT, .UP, .RIGHT, .DOWN, .LEFT, .LEFT, .UP, .RIGHT], [], [.LEFT, .UP, .LEFT, .DOWN, .RIGHT, .RIGHT, .UP, .LEFT, .LEFT, .DOWN, .RIGHT]],
   [[], [], [], [.DOWN, .RIGHT, .UP, .LEFT, .DOWN, .RIGHT, .RIGHT, .UP, .LEFT, .LEFT, .DOWN, .RIGHT], [], [.DOWN, .LEFT, .UP, .LEFT, .DOWN, .RIGHT, .UP, .RIGHT, .DOWN, .LEFT, .UP, .LEFT, .DOWN, .RIGHT], [.RIGHT, .UP, .LEFT, .DOWN, .RIGHT, .RIGHT, .UP, .LEFT, .LEFT, .DOWN, .RIGHT], [.UP, .LEFT, .DOWN, .RIGHT, .RIGHT, .UP, .LEFT, .LEFT, .DOWN, .RIGHT], []]],
  [[[], [], [], [], [], [], [], [], []],
   [[], [], [], [], [], [], [], [], []],
   [[], [], [], [], [], [], [], [], []],
   [[], [], [], [], [.RIGHT, .DOWN, .LEFT, .LEFT, .UP, .RIGHT], [], [.RIGHT, .UP, .RIGHT, .DOWN, .LEFT, .LEFT, .UP, .RIGHT], [.UP, .RIGHT, .DOWN, .LEFT, .LEFT, .UP, .RIGHT], [.LEFT, .UP, .RIGHT, .DOWN, .LEFT, .LEFT, .UP, .RIGHT]],
   [[], [], [], [.RIGHT, .RIGHT, .DOWN, .LEFT, .LEFT, .UP, .RIGHT], [], [], [.UP, .RIGHT, .RIGHT, .DOWN, .LEFT, .LEFT, .UP, .RIGHT], [.LEFT, .UP, .RIGHT, .RIGHT, .DOWN, .LEFT, .LEFT, .UP, .RIGHT], [.LEFT, .LEFT, .UP, .RIGHT, .RIGHT, .DOWN, .LEFT, .LEFT, .UP, .RIGHT]],
   [[], [], [], [], [], [], [], [], []],
   [[], [], [], [.DOWN, .RIGHT, .UP, .RIGHT, .DOWN, .LEFT, .LEFT, .UP, .RIGHT], [.LEFT, .DOWN, .RIGHT, .UP, .RIGHT, .DOWN, .LEFT, .LEFT, .UP, .RIGHT], [], [], [.UP, .LEFT, .DOWN, .RIGHT, .UP, .RIGHT, .DOWN, .LEFT, .LEFT, .UP, .RIGHT], [.UP, .LEFT, .LEFT, .DOWN, .RIGHT, .RIGHT, .UP, .LEFT, .DOWN, .LEFT, .UP, .RIGHT]],
   [[], [], [], [.RIGHT, .DOWN, .LEFT, .UP, .RIGHT, .RIGHT, .DOWN, .LEFT, .LEFT, .UP, .RIGHT], [.DOWN, .LEFT, .UP, .RIGHT, .RIGHT, .DOWN, .LEFT, .LEFT, .UP, .RIGHT], [], [.UP, .RIGHT, .DOWN, .LEFT, .UP, .RIGHT, .RIGHT, .DOWN, .LEFT, .LEFT, .UP, .RIGHT], [], [.UP, .LEFT, .DOWN, .LEFT, .UP, .RIGHT, .DOWN, .RIGHT, .UP, .LEFT, .DOWN, .LEFT, .UP, .RIGHT]],
   [[], [], [], [.RIGHT, .RIGHT, .DOWN, .LEFT, .UP, .LEFT, .DOWN, .RIGHT, .UP, .RIGHT, .DOWN, .LEFT, .UP, .LEFT, .DOWN, .RIGHT], [.RIGHT, .DOWN, .LEFT, .UP, .LEFT, .DOWN, .RIGHT, .UP, .RIGHT, .DOWN, .LEFT, .UP, .LEFT, .DOWN, .RIGHT], [], [.RIGHT, .RIGHT, .UP, .LEFT, .DOWN, .LEFT, .UP, .RIGHT, .DOWN, .RIGHT, .UP, .LEFT, .DOWN, .LEFT, .UP, .RIGHT], [.RIGHT, .UP, .LEFT, .DOWN, .LEFT, .UP, .RIGHT, .DOWN, .RIGHT, .UP, .LEFT, .DOWN, .LEFT, .UP, .RIGHT], []]],
  [[[], [], [], [], [], [], [], [], []],
   [[], [], [], [], [], [], [], [], []],
   [[], [], [], [], [], [], [], [], []],
   [[], [], [], [], [.LEFT, .DOWN, .RIGHT, .UP, .RIGHT, .DOWN, .LEFT, .LEFT, .UP, .RIGHT, .DOWN, .RIGHT, .UP, .LEFT, .LEFT, .DOWN, .RIGHT], [.LEFT, .LEFT, .DOWN, .RIGHT, .UP, .RIGHT, .DOWN, .LEFT, .LEFT, .UP, .RIGHT, .DOWN, .RIGHT, .UP, .LEFT, .LEFT, .DOWN, .RIGHT], [], [.LEFT, .UP, .RIGHT, .DOWN, .RIGHT, .UP, .LEFT, .LEFT, .DOWN, .RIGHT, .UP, .RIGHT, .DOWN, .LEFT, .LEFT, .UP, .RIGHT], [.LEFT, .LEFT, .UP, .RIGHT, .DOWN, .RIGHT, .UP, .LEFT, .LEFT, .DOWN, .RIGHT, .UP, .RIGHT, .DOWN, .LEFT, .LEFT, .UP, .RIGHT]],
   [[], [], [], [.DOWN, .RIGHT, .UP, .RIGHT, .DOWN, .LEFT, .LEFT, .UP, .RIGHT, .DOWN, .RIGHT, .UP, .LEFT, .LEFT, .DOWN, .RIGHT], [], [.DOWN, .LEFT, .UP, .LEFT, .DOWN, .RIGHT], [], [.UP, .LEFT, .DOWN, .RIGHT], [.LEFT, .UP, .LEFT, .DOWN, .RIGHT]],
   [[], [], [], [.RIGHT, .RIGHT, .DOWN, .LEFT, .UP, .LEFT, .DOWN, .RIGHT], [.RIGHT, .DOWN, .LEFT, .UP, .LEFT, .DOWN, .RIGHT], [], [], [.UP, .RIGHT, .DOWN, .LEFT, .UP, .LEFT, .DOWN, .RIGHT], [.UP, .LEFT, .DOWN, .RIGHT, .UP, .LEFT, .LEFT, .DOWN, .RIGHT]],
   [[], [], [], [], [], [], [], [], []],
   [[], [], [], [.DOWN, .RIGHT], [.LEFT, .DOWN, .RIGHT], [.LEFT, .LEFT, .DOWN, .RIGHT], [], [], [.UP, .LEFT, .LEFT, .DOWN, .RIGHT]],
   [[], [], [], [.RIGHT, .DOWN, .RIGHT, .UP, .LEFT, .LEFT, .DOWN, .RIGHT], [.DOWN, .RIGHT, .UP, .LEFT, .LEFT, .DOWN, .RIGHT], [.LEFT, .DOWN, .RIGHT, .UP, .LEFT, .LEFT, .DOWN, .RIGHT], [], [.RIGHT, .UP, .LEFT, .LEFT, .DOWN, .RIGHT], []]],
  [[[], [], [], [], [], [], [], [], []],
   [[], [], [], [], [], [], [], [], []],
   [[], [], [], [], [], [], [], [], []],
   [[], [], [], [], [.DOWN, .LEFT, .UP, .RIGHT], [.LEFT, .DOWN, .LEFT, .UP, .RIGHT], [.UP, .RIGHT, .DOWN, .RIGHT, .UP, .LEFT, .LEFT, .DOWN, .RIGHT, .UP, .RIGHT, .DOWN, .LEFT, .LEFT, .UP, .RIGHT], [], [.UP, .LEFT, .DOWN, .LEFT, .UP, .RIGHT]],
   [[], [], [], [.RIGHT, .DOWN, .LEFT, .UP, .RIGHT], [], [.LEFT, .LEFT, .DOWN, .RIGHT, .UP, .RIGHT, .DOWN, .LEFT, .UP, .LEFT, .DOWN, .RIGHT], [.RIGHT, .UP, .LEFT, .DOWN, .RIGHT], [], [.LEFT, .LEFT, .UP, .RIGHT, .DOWN, .RIGHT, .UP, .LEFT, .DOWN, .LEFT, .UP, .RIGHT]],
   [[], [], [], [.DOWN, .RIGHT, .UP, .RIGHT, .DOWN, .LEFT, .UP, .LEFT, .DOWN, .RIGHT], [.LEFT, .DOWN, .RIGHT, .UP, .RIGHT, .DOWN, .LEFT, .UP, .LEFT, .DOWN, .RIGHT], [], [.RIGHT, .UP, .RIGHT, .DOWN, .LEFT, .UP, .LEFT, .DOWN, .RIGHT], [], [.UP, .LEFT, .LEFT, .DOWN, .RIGHT, .RIGHT, .UP, .LEFT, .LEFT, .DOWN, .RIGHT]],
   [[], [], [], [.RIGHT, .DOWN, .RIGHT, .UP, .LEFT, .LEFT, .DOWN, .RIGHT, .UP, .RIGHT, .DOWN, .LEFT, .LEFT, .UP, .RIGHT], [.DOWN, .RIGHT, .UP, .LEFT, .LEFT, .DOWN, .RIGHT, .UP, .RIGHT, .DOWN, .LEFT, .LEFT, .UP, .RIGHT], [.DOWN, .LEFT, .UP, .LEFT, .DOWN, .RIGHT, .RIGHT, .UP, .LEFT, .DOWN, .LEFT, .UP, .RIGHT], [], [], [.LEFT, .UP, .LEFT, .DOWN, .RIGHT, .RIGHT, .UP, .LEFT, .DOWN, .LEFT, .UP, .RIGHT]],
   [[], [], [], [], [], [], [], [], []],
   [[], [], [], [.DOWN, .RIGHT, .RIGHT, .UP, .LEFT, .LEFT, .DOWN, .RIGHT], [.LEFT, .DOWN, .RIGHT, .RIGHT, .UP, .LEFT, .LEFT, .DOWN, .RIGHT], [.LEFT, .LEFT, .DOWN, .RIGHT, .RIGHT, .UP, .LEFT, .LEFT, .DOWN, .RIGHT], [.RIGHT, .RIGHT, .UP, .LEFT, .LEFT, .DOWN, .RIGHT], [], []]],
  [[[], [], [], [], [], [], [], [], []],
   [[], [], [], [], [], [], [], [], []],
   [[], [], [], [], [], [], [], [], []],
   [[], [], [], [], [.DOWN, .RIGHT, .UP, .LEFT, .DOWN, .LEFT, .UP, .RIGHT], [.DOWN, .LEFT, .UP, .RIGHT, .DOWN, .LEFT, .LEFT, .UP, .RIGHT], [.RIGHT, .RIGHT, .UP, .LEFT, .DOWN, .LEFT, .UP, .RIGHT], [.RIGHT, .UP, .LEFT, .DOWN, .LEFT, .UP, .RIGHT], []],
   [[], [], [], [.RIGHT, .DOWN, .RIGHT, .UP, .LEFT, .DOWN, .LEFT, .UP, .RIGHT], [], [.DOWN, .LEFT, .LEFT, .UP, .RIGHT, .RIGHT, .DOWN, .LEFT, .LEFT, .UP, .RIGHT], [.UP, .RIGHT, .DOWN, .RIGHT, .UP, .LEFT, .DOWN, .LEFT, .UP, .RIGHT], [.LEFT, .UP, .RIGHT, .DOWN, .RIGHT, .UP, .LEFT, .DOWN, .LEFT, .UP, .RIGHT], []],
   [[], [], [], [.RIGHT, .RIGHT, .DOWN, .LEFT, .LEFT, .UP, .RIGHT, .RIGHT, .DOWN, .LEFT, .LEFT, .UP, .RIGHT], [.RIGHT, .DOWN, .LEFT, .LEFT, .UP, .RIGHT, .RIGHT, .DOWN, .LEFT, .LEFT, .UP, .RIGHT], [], [.RIGHT, .RIGHT, .UP, .LEFT, .LEFT, .DOWN, .RIGHT, .RIGHT, .UP, .LEFT, .LEFT, .DOWN, .RIGHT], [.RIGHT, .UP, .LEFT, .LEFT, .DOWN, .RIGHT, .RIGHT, .UP, .LEFT, .LEFT, .DOWN, .RIGHT], []],
   [[], [], [], [.DOWN, .RIGHT, .RIGHT, .UP, .LEFT, .DOWN, .LEFT, .UP, .RIGHT], [.LEFT, .DOWN, .RIGHT, .RIGHT, .UP, .LEFT, .DOWN, .LEFT, .UP, .RIGHT], [.LEFT, .LEFT, .DOWN, .RIGHT, .RIGHT, .UP, .LEFT, .DOWN, .LEFT, .UP, .RIGHT], [], [.UP, .LEFT, .DOWN, .RIGHT, .RIGHT, .UP, .LEFT, .DOWN, .LEFT, .UP, .RIGHT], []],
   [[], [], [], [.DOWN, .RIGHT, .UP, .LEFT, .DOWN, .RIGHT, .RIGHT, .UP, .LEFT, .DOWN, .LEFT, .UP, .RIGHT], [.DOWN, .LEFT, .UP, .RIGHT, .DOWN, .RIGHT, .UP, .LEFT, .DOWN, .LEFT, .UP, .RIGHT], [.LEFT, .DOWN, .LEFT, .UP, .RIGHT, .DOWN, .RIGHT, .UP, .LEFT, .DOWN, .LEFT, .UP, .RIGHT], [.RIGHT, .UP, .LEFT, .DOWN, .RIGHT, .RIGHT, .UP, .LEFT, .DOWN, .LEFT, .UP, .RIGHT], [], []],
   [[], [], [], [], [], [], [], [], []]]]

def stage3Seq (x y b : Nat) : List Dir := (((stage3Seqs.getD x []).getD y []).getD b [])

theorem stage1_all : ((List.range 9).all fun t => (List.range 9).all fun b =>
    (t == b) || seqOK [] [(0, t)] b (stage1Seq t b)) = true := by decide

theorem stage2_all : ((List.range 9).all fun x => (List.range 9).all fun y =>
    (List.range 9).all fun b =>
      (x == 0) || (y == 0) || (b == 0) || (x == y) || (x == b) || (y == b) ||
        seqOK [0] [(1, x), (2, y)] b (stage2Seq x y b)) = true := by decide

theorem stage3_all : ((List.range 9).all fun x => (List.range 9).all fun y =>
    (List.range 9).all fun b =>
      decide (x ∈ [0, 1, 2]) || decide (y ∈ [0, 1, 2]) ||
        decide (b ∈ [0, 1, 2]) || (x == y) || (x == b) || (y == b) ||
        seqOK [0, 1, 2] [(3, x), (6, y)] b (stage3Seq x y b)) = true := by
  decide

/-! ### Extracting per-position certificates from the verified tables -/

theorem stage1_seqOK (t b : Nat) (ht : t < 9) (hb : b < 9) (htb : t ≠ b) :
    seqOK [] [(0, t)] b (stage1Seq t b) = true := by
  have hall := stage1_all
  rw [List.all_eq_true] at hall
  have h1 := hall t (by simpa using ht)
  rw [List.all_eq_true] at h1
  have h2 := h1 b (by simpa using hb)
  simp only [Bool.or_eq_true, beq_iff_eq] at h2
  rcases h2 with h | h
  · exact absurd h htb
  · exact h

theorem stage2_seqOK (x y b : Nat) (hx : x < 9) (hy : y < 9) (hb : b < 9)
    (hx0 : x ≠ 0) (hy0 : y ≠ 0) (hb0 : b ≠ 0)
    (hxy : x ≠ y) (hxb : x ≠ b) (hyb : y ≠ b) :
    seqOK [0] [(1, x), (2, y)] b (stage2Seq x y b) = true := by
  have hall := stage2_all
  rw [List.all_eq_true] at hall
  have h1 := hall x (by simpa using hx)
  rw [List.all_eq_true] at h1
  have h2 := h1 y (by simpa using hy)
  rw [List.all_eq_true] at h2
  have h3 := h2 b (by simpa using hb)
  simp only [Bool.or_eq_true, beq_iff_eq, or_assoc] at h3
  rcases h3 with h | h | h | h | h | h | h
  exacts [absurd h hx0, absurd h hy0, absurd h hb0, absurd h hxy,
    absurd h hxb, absurd h hyb, h]

theorem stage3_seqOK (x y b : Nat) (hx : x < 9) (hy : y < 9) (hb : b < 9)
    (hx3 : x ∉ ([0, 1, 2] : List Nat)) (hy3 : y ∉ ([0, 1, 2] : List Nat))
    (hb3 : b ∉ ([0, 1, 2] : List Nat))
    (hxy : x ≠ y) (hxb : x ≠ b) (hyb : y ≠ b) :
    seqOK [0, 1, 2] [(3, x), (6, y)] b (stage3Seq x y b) = true := by
  have hall := stage3_all
  rw [List.all_eq_true] at hall
  have h1 := hall x (by simpa using hx)
  rw [List.all_eq_true] at h1
  have h2 := h1 y (by simpa using hy)
  rw [List.all_eq_true] at h2
  have h3 := h2 b (by simpa using hb)
  simp only [Bool.or_eq_true, beq_iff_eq, decide_eq_true_eq, or_assoc] at h3
  rcases h3 with h | h | h | h | h | h | h
  exacts [absurd h hx3, absurd h hy3, absurd h hb3, absurd h hxy,
    absurd h hxb, absurd h hyb, h]

/-! ### Applying the staged certificates to an arbitrary valid board -/

/-- Stage 1: reach a valid board whose cell 0 holds tile 1. -/
theorem stage1_apply (s : PuzzleState) (hv : s.Valid) :
    ∃ s', Reaches s s' ∧ s'.Valid ∧ s'.cells.getD 0 0 = 1 := by
  obtain ⟨t, ht9, htv⟩ := valid_exists_pos s hv 1 (by norm_num)
  obtain ⟨b, hb9, hbv⟩ := valid_exists_pos s hv 0 (by norm_num)
  have htb : t ≠ b := fun he => by
    rw [he, hbv] at htv; exact absurd htv (by norm_num)
  have hok := stage1_seqOK t b ht9 hb9 htb
  obtain ⟨s', hr, hv', hgoals, _⟩ :=
    seqOK_lift [] [(0, t)] b (stage1Seq t b) hok
      (by intro g hg; simp at hg; subst hg; norm_num)
      (by intro j hj; simp at hj)
      s hv hb9 hbv
  refine ⟨s', hr, hv', ?_⟩
  have hg0 := hgoals (0, t) (by simp)
  rw [hg0]
  exact htv

/-- Stage 2: keeping tile 1 at cell 0, also place tiles 2 and 3 at cells
1 and 2. -/
theorem stage2_apply (s : PuzzleState) (hv : s.Valid)
    (h0 : s.cells.getD 0 0 = 1) :
    ∃ s', Reaches s s' ∧ s'.Valid ∧ s'.cells.getD 0 0 = 1 ∧
      s'.cells.getD 1 0 = 2 ∧ s'.cells.getD 2 0 = 3 := by
  obtain ⟨x, hx9, hxv⟩ := valid_exists_pos s hv 2 (by norm_num)
  obtain ⟨y, hy9, hyv⟩ := valid_exists_pos s hv 3 (by norm_num)
  obtain ⟨b, hb9, hbv⟩ := valid_exists_pos s hv 0 (by norm_num)
  have hx0 : x ≠ 0 := fun he => by
    rw [he, h0] at hxv; exact absurd hxv (by norm_num)
  have hy0 : y ≠ 0 := fun he => by
    rw [he, h0] at hyv; exact absurd hyv (by norm_num)
  have hb0 : b ≠ 0 := fun he => by
    rw [he, h0] at hbv; exact absurd hbv (by norm_num)
  have hxy : x ≠ y := fun he => by
    rw [he, hyv] at hxv; exact absurd hxv (by norm_num)
  have hxb : x ≠ b := fun he => by
    rw [he, hbv] at hxv; exact absurd hxv (by norm_num)
  have hyb : y ≠ b := fun he => by
    rw [he, hbv] at hyv; exact absurd hyv (by norm_num)
  have hok := stage2_seqOK x y b hx9 hy9 hb9 hx0 hy0 hb0 hxy hxb hyb
  obtain ⟨s', hr, hv', hgoals, hkeep⟩ :=
    seqOK_lift [0] [(1, x), (2, y)] b (stage2Seq x y b) hok
      (by intro g hg; simp at hg; rcases hg with rfl | rfl <;> norm_num)
      (by intro j hj; simp at hj; omega)
      s hv hb9 hbv
  refine ⟨s', hr, hv', ?_, ?_, ?_⟩
  · have hk0 := hkeep 0 (by simp)
    rw [hk0]
    exact h0
  · have hg1 := hgoals (1, x) (by simp)
    rw [hg1]
    exact hxv
  · have hg2 := hgoals (2, y) (by simp)
    rw [hg2]
    exact hyv

/-- Stage 3: keeping the top row, also place tiles 4 and 7 at cells 3
and 6. -/
theorem stage3_apply (s : PuzzleState) (hv : s.Valid)
    (h0 : s.cells.getD 0 0 = 1) (h1 : s.cells.getD 1 0 = 2)
    (h2 : s.cells.getD 2 0 = 3) :
    ∃ s', Reaches s s' ∧ s'.Valid ∧ s'.cells.getD 0 0 = 1 ∧
      s'.cells.getD 1 0 = 2 ∧ s'.cells.getD 2 0 = 3 ∧
      s'.cells.getD 3 0 = 4 ∧ s'.cells.getD 6 0 = 7 := by
  obtain ⟨x, hx9, hxv⟩ := valid_exists_pos s hv 4 (by norm_num)
  obtain ⟨y, hy9, hyv⟩ := valid_exists_pos s hv 7 (by norm_num)
  obtain ⟨b, hb9, hbv⟩ := valid_exists_pos s hv 0 (by norm_num)
  have hx3 : x ∉ ([0, 1, 2] : List Nat) := by
    intro hm
    simp only [List.mem_cons, List.not_mem_nil, or_false] at hm
    rcases hm with rfl | rfl | rfl
    · rw [h0] at hxv; exact absurd hxv (by norm_num)
    · rw [h1] at hxv; exact absurd hxv (by norm_num)
    · rw [h2] at hxv; exact absurd hxv (by norm_num)
  have hy3 : y ∉ ([0, 1, 2] : List Nat) := by
    intro hm
    simp only [List.mem_cons, List.not_mem_nil, or_false] at hm
    rcases hm with rfl | rfl | rfl
    · rw [h0] at hyv; exact absurd hyv (by norm_num)
    · rw [h1] at hyv; exact absurd hyv (by norm_num)
    · rw [h2] at hyv; exact absurd hyv (by norm_num)
  have hb3 : b ∉ ([0, 1, 2] : List Nat) := by
    intro hm
    simp only [List.mem_cons, List.not_mem_nil, or_false] at hm
    rcases hm with rfl | rfl | rfl
    · rw [h0] at hbv; exact absurd hbv (by norm_num)
    · rw [h1] at hbv; exact absurd hbv (by norm_num)
    · rw [h2] at hbv; exact absurd hbv (by norm_num)
  have hxy : x ≠ y := fun he => by
    rw [he, hyv] at hxv; exact absurd hxv (by norm_num)
  have hxb : x ≠ b := fun he => by
    rw [he, hbv] at hxv; exact absurd hxv (by norm_num)
  have hyb : y ≠ b := fun he => by
    rw [he, hbv] at hyv; exact absurd hyv (by norm_num)
  have hok := stage3_seqOK x y b hx9 hy9 hb9 hx3 hy3 hb3 hxy hxb hyb
  obtain ⟨s', hr, hv', hgoals, hkeep⟩ :=
    seqOK_lift [0, 1, 2] [(3, x), (6, y)] b (stage3Seq x y b) hok
      (by intro g hg; simp at hg; rcases hg with rfl | rfl <;> norm_num)
      (by intro j hj; simp at hj; omega)
      s hv hb9 hbv
  refine ⟨s', hr, hv', ?_, ?_, ?_, ?_, ?_⟩
  · have hk := hkeep 0 (by simp)
    rw [hk]; exact h0
  · have hk := hkeep 1 (by simp)
    rw [hk]; exact h1
  · have hk := hkeep 2 (by simp)
    rw [hk]; exact h2
  · have hg := hgoals (3, x) (by simp)
    rw [hg]; exact hxv
  · have hg := hgoals (6, y) (by simp)
    rw [hg]; exact hyv

/-- The three stages chained: from any valid board some reachable valid
board has tiles 1, 2, 3, 4, 7 at their goal cells 0, 1, 2, 3, 6. -/
theorem stages_reach (s : PuzzleState) (hv : s.Valid) :
    ∃ s', Reaches s s' ∧ s'.Valid ∧ s'.cells.getD 0 0 = 1 ∧
      s'.cells.getD 1 0 = 2 ∧ s'.cells.getD 2 0 = 3 ∧
      s'.cells.getD 3 0 = 4 ∧ s'.cells.getD 6 0 = 7 := by
  obtain ⟨s1, hr1, hv1, h1⟩ := stage1_apply s hv
  obtain ⟨s2, hr2, hv2, h20, h21, h22⟩ := stage2_apply s1 hv1 h1
  obtain ⟨s3, hr3, hv3, h30, h31, h32, h33, h36⟩ :=
    stage3_apply s2 hv2 h20 h21 h22
  exact ⟨s3, (hr1.trans hr2).trans hr3, hv3, h30, h31, h32, h33, h36⟩

/-! ### Endgame on the 2x2 block (cells 4, 5, 7, 8) -/

/-- Solving direction sequences for the twelve solvable configurations of
the lower-right 2x2 block, indexed by the contents of cells 4, 5, 7, 8. -/
def endgameSeq4 : Nat → Nat → Nat → Nat → List Dir
  | 0, 5, 8, 6 => [.RIGHT, .DOWN]
  | 0, 6, 5, 8 => [.DOWN, .RIGHT]
  | 0, 8, 6, 5 => [.DOWN, .RIGHT, .UP, .LEFT, .DOWN, .RIGHT]
  | 5, 0, 8, 6 => [.DOWN]
  | 5, 6, 0, 8 => [.RIGHT]
  | 5, 6, 8, 0 => []
  | 6, 0, 5, 8 => [.LEFT, .DOWN, .RIGHT]
  | 6, 8, 0, 5 => [.RIGHT, .UP, .LEFT, .DOWN, .RIGHT]
  | 6, 8, 5, 0 => [.UP, .LEFT, .DOWN, .RIGHT]
  | 8, 0, 6, 5 => [.DOWN, .LEFT, .UP, .RIGHT, .DOWN]
  | 8, 5, 0, 6 => [.UP, .RIGHT, .DOWN]
  | 8, 5, 6, 0 => [.LEFT, .UP, .RIGHT, .DOWN]
  | _, _, _, _ => []

/-- The endgame sequence selected by a board's own block contents. -/
def endgameSeqOf (s : PuzzleState) : List Dir :=
  endgameSeq4 (s.cells.getD 4 0) (s.cells.getD 5 0)
    (s.cells.getD 7 0) (s.cells.getD 8 0)

theorem reaches_of_endgame_run (s : PuzzleState) (hv : s.Valid)
    (h : runP (endgameSeqOf s) (Puzzle.ofState s) = some ⟨goal8, 8⟩) :
    Reaches s goal8 :=
  (runP_reaches (endgameSeqOf s) (Puzzle.ofState s) ⟨goal8, 8⟩
    (Puzzle.ofState_WF hv) h).1

set_option maxHeartbeats 1600000 in
/-- If a valid board already has tiles 1..4 and 7 in place and its tile
inversion count is even, the goal is reachable: the remaining block
permutation is even, hence one of the twelve solvable ones. -/
theorem endgame_reaches (s : PuzzleState) (hv : s.Valid)
    (h0 : s.cells.getD 0 0 = 1) (h1 : s.cells.getD 1 0 = 2)
    (h2 : s.cells.getD 2 0 = 3) (h3 : s.cells.getD 3 0 = 4)
    (h6 : s.cells.getD 6 0 = 7)
    (heven : invCount (nonzeroTiles s) % 2 = 0) :
    Reaches s goal8 := by
  have hlen := PuzzleState.valid_length hv
  rcases s with ⟨cells⟩
  obtain ⟨c0, c1, c2, c3, c4, c5, c6, c7, c8, hc⟩ :=
    exists_nine_cells cells hlen
  subst hc
  have e0 : c0 = 1 := by simpa using h0
  have e1 : c1 = 2 := by simpa using h1
  have e2 : c2 = 3 := by simpa using h2
  have e3 : c3 = 4 := by simpa using h3
  have e6 : c6 = 7 := by simpa using h6
  subst e0 e1 e2 e3 e6
  have hne : ∀ i j, i < 9 → j < 9 → i ≠ j →
      ([1, 2, 3, 4, c4, c5, 7, c7, c8] : List Nat).getD i 0 ≠
        [1, 2, 3, 4, c4, c5, 7, c7, c8].getD j 0 :=
    fun i j hi hj hij => valid_getD_ne _ hv i j hi hj hij
  have hb4 : c4 < 9 := by
    have hm : c4 ∈ List.range 9 := hv.mem_iff.mp (by simp)
    simpa using hm
  have hb5 : c5 < 9 := by
    have hm : c5 ∈ List.range 9 := hv.mem_iff.mp (by simp)
    simpa using hm
  have hb7 : c7 < 9 := by
    have hm : c7 ∈ List.range 9 := hv.mem_iff.mp (by simp)
    simpa using hm
  have hb8 : c8 < 9 := by
    have hm : c8 ∈ List.range 9 := hv.mem_iff.mp (by simp)
    simpa using hm
  have n41 : c4 ≠ 1 := by simpa using hne 4 0 (by norm_num) (by norm_num) (by norm_num)
  have n42 : c4 ≠ 2 := by simpa using hne 4 1 (by norm_num) (by norm_num) (by norm_num)
  have n43 : c4 ≠ 3 := by simpa using hne 4 2 (by norm_num) (by norm_num) (by norm_num)
  have n44 : c4 ≠ 4 := by simpa using hne 4 3 (by norm_num) (by norm_num) (by norm_num)
  have n47 : c4 ≠ 7 := by simpa using hne 4 6 (by norm_num) (by norm_num) (by norm_num)
  have n51 : c5 ≠ 1 := by simpa using hne 5 0 (by norm_num) (by norm_num) (by norm_num)
  have n52 : c5 ≠ 2 := by simpa using hne 5 1 (by norm_num) (by norm_num) (by norm_num)
  have n53 : c5 ≠ 3 := by simpa using hne 5 2 (by norm_num) (by norm_num) (by norm_num)
  have n54 : c5 ≠ 4 := by simpa using hne 5 3 (by norm_num) (by norm_num) (by norm_num)
  have n57 : c5 ≠ 7 := by simpa using hne 5 6 (by norm_num) (by norm_num) (by norm_num)
  have n71 : c7 ≠ 1 := by simpa using hne 7 0 (by norm_num) (by norm_num) (by norm_num)
  have n72 : c7 ≠ 2 := by simpa using hne 7 1 (by norm_num) (by norm_num) (by norm_num)
  have n73 : c7 ≠ 3 := by simpa using hne 7 2 (by norm_num) (by norm_num) (by norm_num)
  have n74 : c7 ≠ 4 := by simpa using hne 7 3 (by norm_num) (by norm_num) (by norm_num)
  have n77 : c7 ≠ 7 := by simpa using hne 7 6 (by norm_num) (by norm_num) (by norm_num)
  have n81 : c8 ≠ 1 := by simpa using hne 8 0 (by norm_num) (by norm_num) (by norm_num)
  have n82 : c8 ≠ 2 := by simpa using hne 8 1 (by norm_num) (by norm_num) (by norm_num)
  have n83 : c8 ≠ 3 := by simpa using hne 8 2 (by norm_num) (by norm_num) (by norm_num)
  have n84 : c8 ≠ 4 := by simpa using hne 8 3 (by norm_num) (by norm_num) (by norm_num)
  have n87 : c8 ≠ 7 := by simpa using hne 8 6 (by norm_num) (by norm_num) (by norm_num)
  have p45 : c4 ≠ c5 := by simpa using hne 4 5 (by norm_num) (by norm_num) (by norm_num)
  have p47 : c4 ≠ c7 := by simpa using hne 4 7 (by norm_num) (by norm_num) (by norm_num)
  have p48 : c4 ≠ c8 := by simpa using hne 4 8 (by norm_num) (by norm_num) (by norm_num)
  have p57 : c5 ≠ c7 := by simpa using hne 5 7 (by norm_num) (by norm_num) (by norm_num)
  have p58 : c5 ≠ c8 := by simpa using hne 5 8 (by norm_num) (by norm_num) (by norm_num)
  have p78 : c7 ≠ c8 := by simpa using hne 7 8 (by norm_num) (by norm_num) (by norm_num)
  clear hne hlen h0 h1 h2 h3 h6
  have hm4 : c4 = 0 ∨ c4 = 5 ∨ c4 = 6 ∨ c4 = 8 := by clear heven hv; omega
  have hm5 : c5 = 0 ∨ c5 = 5 ∨ c5 = 6 ∨ c5 = 8 := by clear heven hv; omega
  have hm7 : c7 = 0 ∨ c7 = 5 ∨ c7 = 6 ∨ c7 = 8 := by clear heven hv; omega
  have hm8 : c8 = 0 ∨ c8 = 5 ∨ c8 = 6 ∨ c8 = 8 := by clear heven hv; omega
  rcases hm4 with rfl | rfl | rfl | rfl <;>
    rcases hm5 with rfl | rfl | rfl | rfl <;>
      rcases hm7 with rfl | rfl | rfl | rfl <;>
        rcases hm8 with rfl | rfl | rfl | rfl <;>
          first
            | exact absurd rfl p45
            | exact absurd rfl p47
            | exact absurd rfl p48
            | exact absurd rfl p57
            | exact absurd rfl p58
            | exact absurd rfl p78
            | exact absurd heven (by decide)
            | exact reaches_of_endgame_run _ hv (by decide)

/-- Completeness half of C1: a valid board with even tile-inversion count
reaches the canonical goal. -/
theorem even_reaches (s : PuzzleState) (hv : s.Valid)
    (he : s.inversions % 2 = 0) : Reaches s goal8 := by
  obtain ⟨s', hr, hv', h0, h1, h2, h3, h6⟩ := stages_reach s hv
  have hpar := (reaches_valid_parity s s' hr hv).2
  have he' : invCount (nonzeroTiles s') % 2 = 0 := by
    rw [← hpar, ← inversions_parity_eq s hv]
    exact he
  exact hr.trans (endgame_reaches s' hv' h0 h1 h2 h3 h6 he')

/-- C1: for every board satisfying the data-model invariant,
`Puzzle::HasSolution` with the canonical goal returns `true` exactly when
the canonical goal is reachable from the board by valid moves. -/
theorem hasSolution_iff_reaches (s : PuzzleState) (hv : s.Valid) :
    (Puzzle.ofState s).hasSolution goal8 = true ↔ Reaches s goal8 := by
  constructor
  · intro h
    apply even_reaches s hv
    have hb : (s.inversions % 2 == 0) = true := h
    simpa using hb
  · exact reaches_hasSolution s hv

theorem hasSolution_iff_reaches_witness :
    PuzzleState.Valid ⟨[1, 2, 3, 4, 5, 6, 7, 0, 8]⟩ ∧
      ((Puzzle.ofState ⟨[1, 2, 3, 4, 5, 6, 7, 0, 8]⟩).hasSolution goal8 = true
        ↔ Reaches ⟨[1, 2, 3, 4, 5, 6, 7, 0, 8]⟩ goal8) :=
  ⟨by decide, hasSolution_iff_reaches ⟨[1, 2, 3, 4, 5, 6, 7, 0, 8]⟩ (by decide)⟩
